import Mathlib

/-!
ISOBUS sockets (net/can/isobus.c): a shallow embedding.

The definitions below follow `src/net/can/isobus.c` function by function.
Machine integers are natural numbers (unsigned) or integers (signed); the
CAN identifier is a 32-bit value and every operand that enters it is masked
by the source itself, so no wrap-around arises in `CANID`.

Kernel services the file calls but does not define (device lookup, skb
allocation, `can_rx_register`, `can_send`, the socket receive queue) are
explicit state in the structure `kernel`, with the result of every fallible
call read from a list of pending results.
-/

set_option autoImplicit false

namespace Isobus

/-! ## Constants -/

/-- Extended frame format flag of `linux/can.h`. -/
def CAN_EFF_FLAG : Nat := 0x80000000
/-- Inverted-filter flag of `linux/can.h` (to be set in `can_filter.can_id`). -/
def CAN_INV_FILTER : Nat := 0x20000000
/-- Error frame flag of `linux/can.h`. -/
def CAN_ERR_FLAG : Nat := 0x20000000
/-- Largest payload of a classic CAN frame. -/
def CAN_MAX_DLEN : Nat := 8
/-- The value of `sizeof(struct can_frame)`. -/
def CAN_MTU : Nat := 16
/-- Address family of CAN sockets. -/
def AF_CAN : Nat := 29
/-- Device type of CAN interfaces. -/
def ARPHRD_CAN : Nat := 280

def MSG_DONTROUTE : Nat := 4
def MSG_TRUNC : Nat := 0x20
def MSG_DONTWAIT : Nat := 0x40
def MSG_CONFIRM : Nat := 0x800

def ENXIO : Int := 6
def ENOMEM : Int := 12
def EFAULT : Int := 14
def ENODEV : Int := 19
def EINVAL : Int := 22
def EDOM : Int := 33
def ERANGE : Int := 34
def ENOPROTOOPT : Int := 92
def EOPNOTSUPP : Int := 95
def EADDRINUSE : Int := 98
def ENETDOWN : Int := 100

def ISOBUS_MIN_SC_ADDR : Nat := 128
def ISOBUS_MAX_SC_ADDR : Nat := 247

def ISOBUS_PRI_POS : Nat := 26
def ISOBUS_PRI_MASK : Nat := 0x07
def ISOBUS_PGN_POS : Nat := 8
def ISOBUS_PGN_MASK : Nat := 0x03FFFF
def ISOBUS_PGN1_MASK : Nat := 0x03FF00
def ISOBUS_PS_POS : Nat := 8
def ISOBUS_PS_MASK : Nat := 0xFF
def ISOBUS_PF_POS : Nat := 16
def ISOBUS_PF_MASK : Nat := 0xFF
def ISOBUS_SA_POS : Nat := 0
def ISOBUS_SA_MASK : Nat := 0xFF
def ISOBUS_DP_POS : Nat := 24
def ISOBUS_DP_MASK : Nat := 0x01
def ISOBUS_EDP_POS : Nat := 25
def ISOBUS_EDP_MASK : Nat := 0x01
def ISOBUS_MIN_PDU2 : Nat := 240

def MIN_PRI : Int := 0
def MAX_PRI : Int := 7

/-- Modelled from the spec: `ISOBUS_NULL_ADDR` of the header `isobus.h`, which is
not among the sources; the spec gives 254. -/
def ISOBUS_NULL_ADDR : Nat := 254
/-- Modelled from the spec: `ISOBUS_GLOBAL_ADDR` of `isobus.h`; the spec gives 255. -/
def ISOBUS_GLOBAL_ADDR : Nat := 255
/-- Modelled from the spec: `ISOBUS_ANY_ADDR` of `isobus.h`; the spec gives 254. -/
def ISOBUS_ANY_ADDR : Nat := 254
/-- Modelled from the spec: `ISOBUS_PGN_ADDR_CLAIMED` of `isobus.h`; the spec gives
0x00EE00. -/
def ISOBUS_PGN_ADDR_CLAIMED : Nat := 0x00EE00
/-- Modelled from the spec: `ISOBUS_PGN_REQUEST` of `isobus.h`; the spec gives
0x00EA00. -/
def ISOBUS_PGN_REQUEST : Nat := 0x00EA00
/-- Modelled from the spec: `ISOBUS_NAME_SC_BIT` of `isobus.h`; the spec places the
self-configurable bit at bit 63 of the NAME. -/
def ISOBUS_NAME_SC_BIT : Nat := 0x8000000000000000

/-! ## CAN identifier fields -/

/-- The field names the macro `ID_FIELD` pastes into `ISOBUS_ ## field ## _POS`. -/
inductive Field where
  | PRI | PGN | PS | PF | SA | DP | EDP
  deriving DecidableEq, Repr

def Field.pos : Field → Nat
  | .PRI => ISOBUS_PRI_POS
  | .PGN => ISOBUS_PGN_POS
  | .PS => ISOBUS_PS_POS
  | .PF => ISOBUS_PF_POS
  | .SA => ISOBUS_SA_POS
  | .DP => ISOBUS_DP_POS
  | .EDP => ISOBUS_EDP_POS

def Field.mask : Field → Nat
  | .PRI => ISOBUS_PRI_MASK
  | .PGN => ISOBUS_PGN_MASK
  | .PS => ISOBUS_PS_MASK
  | .PF => ISOBUS_PF_MASK
  | .SA => ISOBUS_SA_MASK
  | .DP => ISOBUS_DP_MASK
  | .EDP => ISOBUS_EDP_MASK

/-- Macro `CANID(pri, pgn, da, sa)`: the four masked operands are shifted into
place and or-ed together with the extended-frame flag. -/
def CANID (pri pgn da sa : Nat) : Nat :=
  CAN_EFF_FLAG |||
  ((pri &&& ISOBUS_PRI_MASK) <<< ISOBUS_PRI_POS) |||
  ((pgn &&& ISOBUS_PGN_MASK) <<< ISOBUS_PGN_POS) |||
  ((da &&& ISOBUS_PS_MASK) <<< ISOBUS_PS_POS) |||
  ((sa &&& ISOBUS_SA_MASK) <<< ISOBUS_SA_POS)

/-- Macro `ID_FIELD(id, field)`. -/
def ID_FIELD (id : Nat) (f : Field) : Nat :=
  (id >>> f.pos) &&& f.mask

/-- Macro `PGN_FIELD(pgn, field)`. -/
def PGN_FIELD (pgn : Nat) (f : Field) : Nat :=
  ID_FIELD (pgn <<< ISOBUS_PGN_POS) f

/-- Macro `ID_PDU_FMT(id)`. -/
def ID_PDU_FMT (id : Nat) : Nat :=
  if ID_FIELD id Field.PF < ISOBUS_MIN_PDU2 then 1 else 2

/-- Macro `PGN_PDU_FMT(pgn)`.  The PF field sits in bits 16..23 of the shifted
value, so a 32-bit `pgn_t` gives the same result as the unbounded shift. -/
def PGN_PDU_FMT (pgn : Nat) : Nat :=
  ID_PDU_FMT (pgn <<< ISOBUS_PGN_POS)

/-- Function `get_pgn`: the PGN of a CAN identifier. -/
def get_pgn (id : Nat) : Nat :=
  if ID_PDU_FMT id = 1 then
    (id >>> ISOBUS_PGN_POS) &&& ISOBUS_PGN1_MASK
  else
    (id >>> ISOBUS_PGN_POS) &&& ISOBUS_PGN_MASK

/-- Macro `ISOBUS_PRIO(p)`, token for token:
`(MAX_PRI - ((p < MIN_PRI ? MIN_PRI : p) > MAX_PRI ? MAX_PRI : p) + MIN_PRI)`. -/
def ISOBUS_PRIO (p : Int) : Int :=
  MAX_PRI - (if (if p < MIN_PRI then MIN_PRI else p) > MAX_PRI then MAX_PRI else p) + MIN_PRI

/-- Macro `SK_PRIO(p)`: `(MAX_PRI - p + MIN_PRI)`. -/
def SK_PRIO (p : Int) : Int :=
  MAX_PRI - p + MIN_PRI

/-- Conversion of a C integer to `__u32`. -/
def to_u32 (x : Int) : Nat := (x % 4294967296).toNat

/-! ## Data -/

/-- A `struct can_filter` of `linux/can.h`. -/
structure can_filter where
  can_id : Nat
  can_mask : Nat
  deriving DecidableEq, Repr

/-- Modelled from the spec: `struct isobus_filter` of the header `isobus.h`, which is
not among the sources.  The spec lists the fields
`pgn, pgn_mask, daddr, daddr_mask, saddr, saddr_mask, inverted`; the PGNs are
`pgn_t`, the addresses bytes, and `inverted` a truth value. -/
structure isobus_filter where
  pgn : Nat
  pgn_mask : Nat
  daddr : Nat
  daddr_mask : Nat
  saddr : Nat
  saddr_mask : Nat
  inverted : Bool
  deriving DecidableEq, Repr

/-- Modelled from the spec: `struct isobus_mesg` of `isobus.h`, as the initialisers
of `req_addr_claimed_mesg` and `addr_claimed_mesg` use it: PGN, data length and
the data bytes. -/
structure isobus_mesg where
  pgn : Nat
  dlen : Nat
  data : List Nat
  deriving DecidableEq, Repr

/-- A `struct can_frame` of `linux/can.h`. -/
structure can_frame where
  can_id : Nat
  can_dlc : Nat
  data : List Nat
  deriving DecidableEq, Repr

/-- What the code reads of a `struct sk_buff` holding a CAN frame: the socket
that sent it (`none` for a frame that came from the wire), the interface and
the frame. -/
structure sk_buff where
  sk : Option Nat
  ifindex : Nat
  cf : can_frame
  deriving DecidableEq, Repr

/-- The part of a `struct sockaddr_can` the code uses. -/
structure sockaddr_can where
  can_family : Nat
  can_ifindex : Nat
  addr : Nat
  deriving DecidableEq, Repr

/-- A datagram on the socket receive queue as `isobus_rcv` builds it: the
message and the two addresses `addr[0]`, `addr[1]` stored in `skb->cb`.  There
is no flags word of its own: `isobus_flags` points into `addr[1]`. -/
structure rcv_skb where
  mesg : isobus_mesg
  addr0 : sockaddr_can
  addr1 : sockaddr_can
  deriving DecidableEq, Repr

/-- Function `isobus_flags`, read through: the pointer it returns is
`&((struct sockaddr_can *)skb->cb)[1]`, the address of `addr[1]`, so the
`unsigned int` it points to starts with `addr[1].can_family` (16 bits, low half
of the word on a little-endian machine) followed by two bytes of padding, which
`memset` and `*pflags = 0` leave zero. -/
def isobus_flags (skb : rcv_skb) : Nat :=
  skb.addr1.can_family

/-- Function `isobus_flags`, written through: storing `f` at the pointer replaces
`addr[1].can_family` by the low 16 bits of `f`; `can_ifindex` (offset 4) and the
address are untouched.  The upper 16 bits fall into the padding, which is not
kept; every word `isobus_rcv` stores is below `2^16`. -/
def isobus_flags_set (skb : rcv_skb) (f : Nat) : rcv_skb :=
  { skb with addr1 := { skb.addr1 with can_family := f % 2 ^ 16 } }

/-- The anonymous `enum` of `struct isobus_sock`. -/
inductive sock_state where
  | ISOBUS_IDLE
  | ISOBUS_WAIT_ADDR
  | ISOBUS_WAIT_HAVE_ADDR
  | ISOBUS_HAVE_ADDR
  | ISOBUS_LOST_ADDR
  deriving DecidableEq, Repr

open sock_state

/-- A `struct isobus_sock`.  `id` stands for the address of the socket, which
the handlers compare with `skb->sk`; `sk_priority`, `sk_err` and `queue` are the
fields of the embedded `struct sock` the code touches; `filter` is the array
`ro->filter` points to (`dfilter` when there is one entry). -/
structure isobus_sock where
  id : Nat
  sk_priority : Nat
  sk_err : Int
  queue : List rcv_skb
  bound : Bool
  ifindex : Nat
  loopback : Int
  recv_own_msgs : Int
  daddr_opt : Int
  count : Nat
  filter : List can_filter
  err_mask : Nat
  pref_addr : Nat
  s_addr : Nat
  name : Nat
  state : sock_state
  sc_addrs : List Bool
  pref_avail : Bool
  deriving DecidableEq, Repr

/-- The three receive callbacks the file registers with the CAN core. -/
inductive rx_func where
  | isobus_rcv
  | isobus_addr_claimed_handler
  | isobus_req_addr_claimed_handler
  deriving DecidableEq, Repr

/-- One entry of the receive list of the CAN core: the arguments of a
`can_rx_register` call (`dev` is the interface index, 0 for a null device). -/
structure receiver where
  dev : Nat
  can_id : Nat
  can_mask : Nat
  func : rx_func
  sk : Nat
  deriving DecidableEq, Repr

/-- What the code reads of a `struct net_device`. -/
structure net_device where
  ifindex : Nat
  type : Nat
  up : Bool
  deriving DecidableEq, Repr

/-- A frame handed to `can_send`, with the sending socket and the loopback
argument. -/
structure tx_skb where
  sk : Nat
  ifindex : Nat
  cf : can_frame
  loop : Int
  deriving DecidableEq, Repr

/-- The kernel around the socket: the devices of `init_net`, the receive list of
the CAN core, the frames handed to `can_send` (oldest first), and the results
of the coming fallible calls: `can_rx_register`, `can_send`, skb allocation
(0 for success, otherwise the error code) and `sock_queue_rcv_skb`.  A list that
has run out means success. -/
structure kernel where
  devs : List net_device
  rx : List receiver
  tx : List tx_skb
  register_rets : List Int
  send_rets : List Int
  alloc_rets : List Int
  queue_rets : List Int
  deriving DecidableEq, Repr

/-- Kernel function `dev_get_by_index(&init_net, ifindex)`. -/
def dev_get_by_index (k : kernel) (ifindex : Nat) : Option net_device :=
  k.devs.find? (fun d => d.ifindex == ifindex)

/-- Kernel function `can_rx_register`: on success the entry joins the receive
list. -/
def can_rx_register (k : kernel) (r : receiver) : Int × kernel :=
  match k.register_rets with
  | [] => (0, { k with rx := r :: k.rx })
  | e :: rest =>
    if e = 0 then (0, { k with rx := r :: k.rx, register_rets := rest })
    else (e, { k with register_rets := rest })

/-- Kernel function `can_rx_unregister`: one matching entry leaves the receive
list. -/
def can_rx_unregister (k : kernel) (r : receiver) : kernel :=
  { k with rx := k.rx.erase r }

/-- Kernel function `can_send`: the frame is handed over and the pending result
returned. -/
def can_send (k : kernel) (skb : tx_skb) : Int × kernel :=
  match k.send_rets with
  | [] => (0, { k with tx := k.tx ++ [skb] })
  | e :: rest => (e, { k with tx := k.tx ++ [skb], send_rets := rest })

/-- Kernel functions `alloc_skb` and `sock_alloc_send_skb`: 0 when the buffer
was allocated, otherwise the error code. -/
def alloc_skb (k : kernel) : Int × kernel :=
  match k.alloc_rets with
  | [] => (0, k)
  | e :: rest => (e, { k with alloc_rets := rest })

/-- Kernel function `sock_queue_rcv_skb`: on success the datagram joins the
receive queue of the socket. -/
def sock_queue_rcv_skb (ro : isobus_sock) (k : kernel) (skb : rcv_skb) :
    Int × isobus_sock × kernel :=
  match k.queue_rets with
  | [] => (0, { ro with queue := ro.queue ++ [skb] }, k)
  | e :: rest =>
    if e = 0 then (0, { ro with queue := ro.queue ++ [skb] }, { k with queue_rets := rest })
    else (e, ro, { k with queue_rets := rest })

/-! ## Receiving and sending frames -/

/-- Sizes of two structures and the socket option level, all declared in headers
that are not among the sources. -/
structure abi where
  sizeof_sockaddr_can : Nat
  sizeof_isobus_filter : Nat
  SOL_CAN_ISOBUS : Nat
  deriving DecidableEq, Repr

/-- Macro `NAME2DATA(name)`: the eight bytes of the NAME, least significant first. -/
def NAME2DATA (name : Nat) : List Nat :=
  (List.range 8).map (fun i => (name >>> (8 * i)) &&& 0xFF)

/-- Macro `DATA2NAME(data)`: the little-endian 64-bit value of the eight data
bytes of a frame. -/
def DATA2NAME (data : List Nat) : Nat :=
  (List.range 8).foldl (fun acc i => acc + ((data.getD i 0) &&& 0xFF) <<< (8 * i)) 0

/-- The constant `req_addr_claimed_mesg`. -/
def req_addr_claimed_mesg : isobus_mesg :=
  { pgn := ISOBUS_PGN_REQUEST, dlen := 3,
    data := [(ISOBUS_PGN_ADDR_CLAIMED >>> 16) &&& 0xFF,
             (ISOBUS_PGN_ADDR_CLAIMED >>> 8) &&& 0xFF,
             ISOBUS_PGN_ADDR_CLAIMED &&& 0xFF] }

/-- The constant `addr_claimed_mesg`. -/
def addr_claimed_mesg : isobus_mesg :=
  { pgn := ISOBUS_PGN_ADDR_CLAIMED, dlen := 8, data := [0, 0, 0, 0, 0, 0, 0, 0] }

/-- Function `isobus_rcv`: called when a CAN frame matching a user filter is
received.  The flags are stored through `isobus_flags` after both addresses
have been filled in, so they overwrite `addr[1].can_family`. -/
def isobus_rcv (ro : isobus_sock) (k : kernel) (oskb : sk_buff) : isobus_sock × kernel :=
  if ro.recv_own_msgs = 0 ∧ oskb.sk = some ro.id then (ro, k)
  else if oskb.cf.can_dlc > CAN_MAX_DLEN then (ro, k)
  else if ID_FIELD oskb.cf.can_id Field.EDP ≠ 0 then (ro, k)
  else
    match alloc_skb k with
    | (e, k1) =>
      if e ≠ 0 then (ro, k1)
      else
        let mesg : isobus_mesg :=
          { pgn := get_pgn oskb.cf.can_id, dlen := oskb.cf.can_dlc,
            data := oskb.cf.data.take oskb.cf.can_dlc }
        let addr0 : sockaddr_can :=
          { can_family := AF_CAN, can_ifindex := oskb.ifindex,
            addr := ID_FIELD oskb.cf.can_id Field.SA }
        let addr1 : sockaddr_can :=
          { can_family := AF_CAN, can_ifindex := oskb.ifindex,
            addr := ID_FIELD oskb.cf.can_id Field.PS }
        let skb : rcv_skb := { mesg := mesg, addr0 := addr0, addr1 := addr1 }
        let skb0 := isobus_flags_set skb 0
        let skb1 := if oskb.sk ≠ none then
            isobus_flags_set skb0 (isobus_flags skb0 ||| MSG_DONTROUTE) else skb0
        let skb2 := if oskb.sk = some ro.id then
            isobus_flags_set skb1 (isobus_flags skb1 ||| MSG_CONFIRM) else skb1
        match sock_queue_rcv_skb ro k1 skb2 with
        | (_, ro1, k2) => (ro1, k2)

/-- The argument `struct msghdr *msg` of `isobus_sendmsg`: the message the
iovec points to, the optional destination, its length and the flags. -/
structure msghdr where
  mesg : isobus_mesg
  msg_name : Option sockaddr_can
  msg_namelen : Nat
  msg_flags : Nat
  deriving DecidableEq, Repr

/-- The first half of `isobus_sendmsg` after the state test: the interface to
send on and the destination address, or the error returned. -/
def sendmsg_dest (a : abi) (ro : isobus_sock) (msg : msghdr) : Except Int (Nat × Nat) :=
  match msg.msg_name with
  | some addr =>
    let da := if PGN_PDU_FMT msg.mesg.pgn = 1 then addr.addr % 256 else 0
    if ro.ifindex = 0 then
      if msg.msg_namelen < a.sizeof_sockaddr_can then .error (-EINVAL)
      else if addr.can_family ≠ AF_CAN then .error (-EINVAL)
      else .ok (addr.can_ifindex, da)
    else .ok (ro.ifindex, da)
  | none =>
    if PGN_PDU_FMT msg.mesg.pgn = 1 then .error (-EINVAL)
    else .ok (ro.ifindex, 0)

/-- Function `isobus_sendmsg`: called when userland sends.  Returns the return
value and the kernel state, whose `tx` has grown by the frame if one was handed
to `can_send`. -/
def isobus_sendmsg (a : abi) (ro : isobus_sock) (k : kernel) (msg : msghdr) (size : Nat) :
    Int × kernel :=
  if ro.state ≠ ISOBUS_HAVE_ADDR then (-EADDRINUSE, k)
  else
    match sendmsg_dest a ro msg with
    | .error e => (e, k)
    | .ok (ifindex, da) =>
      if size ≠ CAN_MTU then (-EINVAL, k)
      else
        match dev_get_by_index k ifindex with
        | none => (- ENXIO, k)
        | some dev =>
          match alloc_skb k with
          | (e, k1) =>
            if e ≠ 0 then (e, k1)
            else
              let cf : can_frame :=
                { can_id := CANID (to_u32 ( ISOBUS_PRIO ro.sk_priority)) msg.mesg.pgn da ro.s_addr,
                  can_dlc := msg.mesg.dlen,
                  data := msg.mesg.data.take msg.mesg.dlen }
              match can_send k1 { sk := ro.id, ifindex := dev.ifindex, cf := cf, loop := ro.loopback } with
              | (err, k2) => if err ≠ 0 then (err, k2) else ((size : Int), k2)

/-- Function `isobus_send`: send an ISOBUS message from within the module. -/
def isobus_send (ro : isobus_sock) (k : kernel) (mesg : isobus_mesg) (addr : Nat) :
    Int × kernel :=
  match dev_get_by_index k ro.ifindex with
  | none => (- ENXIO, k)
  | some dev =>
    match alloc_skb k with
    | (e, k1) =>
      if e ≠ 0 then (-1, k1)
      else
        let cf : can_frame :=
          { can_id := CANID (to_u32 ( ISOBUS_PRIO ro.sk_priority)) mesg.pgn addr ro.s_addr,
            can_dlc := mesg.dlen,
            data := mesg.data.take mesg.dlen }
        can_send k1 { sk := ro.id, ifindex := dev.ifindex, cf := cf, loop := 1 }

/-- Function `isobus_send_addr_claimed`. -/
def isobus_send_addr_claimed (ro : isobus_sock) (k : kernel) : Int × kernel :=
  isobus_send ro k { addr_claimed_mesg with data := NAME2DATA ro.name } ISOBUS_GLOBAL_ADDR

/-- Function `isobus_lose_addr`. -/
def isobus_lose_addr (ro : isobus_sock) (k : kernel) : isobus_sock × kernel :=
  let ro1 := { ro with bound := false, s_addr := ISOBUS_NULL_ADDR, state := ISOBUS_LOST_ADDR }
  (ro1, (isobus_send_addr_claimed ro1 k).2)

/-- Function `isobus_addr_claimed_handler`: network management, on an address
claimed message. -/
def isobus_addr_claimed_handler (ro : isobus_sock) (k : kernel) (skb : sk_buff) :
    isobus_sock × kernel :=
  if skb.sk = some ro.id then (ro, k)
  else
    let sa := ID_FIELD skb.cf.can_id Field.SA
    if sa = ISOBUS_NULL_ADDR then (ro, k)
    else if ro.state = ISOBUS_WAIT_ADDR then
      let ro1 :=
        if sa ≤ ISOBUS_MAX_SC_ADDR ∧ sa ≥ ISOBUS_MIN_SC_ADDR then
          { ro with sc_addrs := ro.sc_addrs.set (sa - ISOBUS_MIN_SC_ADDR) false }
        else ro
      if sa = ro1.pref_addr then
        if ro1.name < DATA2NAME skb.cf.data then
          ({ ro1 with state := ISOBUS_WAIT_HAVE_ADDR }, k)
        else
          let ro2 := { ro1 with pref_avail := false }
          if ro2.name &&& ISOBUS_NAME_SC_BIT = 0 then isobus_lose_addr ro2 k
          else (ro2, k)
      else (ro1, k)
    else if sa = ro.s_addr then
      if ro.name ≤ DATA2NAME skb.cf.data then (ro, (isobus_send_addr_claimed ro k).2)
      else isobus_lose_addr ro k
    else (ro, k)

/-- Function `isobus_req_addr_claimed_handler`: network management, on a request
for address claimed message. -/
def isobus_req_addr_claimed_handler (ro : isobus_sock) (k : kernel) (skb : sk_buff) :
    isobus_sock × kernel :=
  if ro.state = ISOBUS_WAIT_ADDR ∧ skb.sk = some ro.id then (ro, k)
  else if skb.cf.can_dlc ≠ 3 ∨ skb.cf.data.getD 0 0 ≠ req_addr_claimed_mesg.data.getD 0 0 ∨
      skb.cf.data.getD 1 0 ≠ req_addr_claimed_mesg.data.getD 1 0 ∨
      skb.cf.data.getD 2 0 ≠ req_addr_claimed_mesg.data.getD 2 0 then (ro, k)
  else if ID_FIELD skb.cf.can_id Field.PS = ro.s_addr ∨
      ID_FIELD skb.cf.can_id Field.PS = ISOBUS_GLOBAL_ADDR then
    (ro, (isobus_send_addr_claimed ro k).2)
  else (ro, k)

/-! ## Filter registration -/

/-- The receive-list entry of a user filter. -/
def rcv_receiver (dev : Nat) (sk : Nat) (f : can_filter) : receiver :=
  { dev := dev, can_id := f.can_id, can_mask := f.can_mask, func := rx_func.isobus_rcv, sk := sk }

/-- Function `isobus_disable_filters`. -/
def isobus_disable_filters (k : kernel) (dev : Nat) (sk : Nat) (filter : List can_filter)
    (count : Nat) : kernel :=
  (filter.take count).foldl (fun k1 f => can_rx_unregister k1 (rcv_receiver dev sk f)) k

/-- The loop of `isobus_enable_filters` from index `i` on: `done` holds the
filters registered so far, latest first, which is the order the clean-up loop
`while (--i >= 0)` removes them in. -/
def enable_filters_loop (k : kernel) (dev : Nat) (sk : Nat) :
    List can_filter → List can_filter → Int × kernel
  | _, [] => (0, k)
  | done, f :: rest =>
    match can_rx_register k (rcv_receiver dev sk f) with
    | (err, k1) =>
      if err ≠ 0 then
        (err, done.foldl (fun k2 g => can_rx_unregister k2 (rcv_receiver dev sk g)) k1)
      else enable_filters_loop k1 dev sk (f :: done) rest

/-- Function `isobus_enable_filters`. -/
def isobus_enable_filters (k : kernel) (dev : Nat) (sk : Nat) (filter : List can_filter)
    (count : Nat) : Int × kernel :=
  enable_filters_loop k dev sk [] (filter.take count)

/-- Function `isobus_enable_errfilter`. -/
def isobus_enable_errfilter (k : kernel) (dev : Nat) (sk : Nat) (err_mask : Nat) :
    Int × kernel :=
  if err_mask ≠ 0 then
    can_rx_register k (rcv_receiver dev sk { can_id := 0, can_mask := err_mask ||| CAN_ERR_FLAG })
  else (0, k)

/-- The receive-list entry of the address claimed listener. -/
def addr_claimed_receiver (dev : Nat) (sk : Nat) : receiver :=
  { dev := dev,
    can_id := CANID 0 ISOBUS_PGN_ADDR_CLAIMED ISOBUS_GLOBAL_ADDR 0,
    can_mask := CANID 0 ISOBUS_PGN1_MASK ISOBUS_PS_MASK 0,
    func := rx_func.isobus_addr_claimed_handler, sk := sk }

/-- The receive-list entry of the request for address claimed listener. -/
def req_addr_claimed_receiver (dev : Nat) (sk : Nat) : receiver :=
  { dev := dev,
    can_id := CANID 0 ISOBUS_PGN_REQUEST 0 0,
    can_mask := CANID 0 ISOBUS_PGN1_MASK 0 0,
    func := rx_func.isobus_req_addr_claimed_handler, sk := sk }

/-- Function `isobus_enable_nmfilters`: register filters for the network
management PGNs. -/
def isobus_enable_nmfilters (k : kernel) (dev : Nat) (sk : Nat) : Int × kernel :=
  match can_rx_register k (addr_claimed_receiver dev sk) with
  | (err, k1) =>
    if err ≠ 0 then (err, k1)
    else
      match can_rx_register k1 (req_addr_claimed_receiver dev sk) with
      | (err2, k2) =>
        if err2 ≠ 0 then (err2, can_rx_unregister k2 (addr_claimed_receiver dev sk))
        else (err2, k2)

/-- Function `isobus_disable_errfilter`. -/
def isobus_disable_errfilter (k : kernel) (dev : Nat) (sk : Nat) (err_mask : Nat) : kernel :=
  if err_mask ≠ 0 then
    can_rx_unregister k (rcv_receiver dev sk { can_id := 0, can_mask := err_mask ||| CAN_ERR_FLAG })
  else k

/-- Function `isobus_disable_nmfilters`. -/
def isobus_disable_nmfilters (k : kernel) (dev : Nat) (sk : Nat) : kernel :=
  can_rx_unregister (can_rx_unregister k (addr_claimed_receiver dev sk))
    (req_addr_claimed_receiver dev sk)

/-- Function `isobus_disable_allfilters`. -/
def isobus_disable_allfilters (ro : isobus_sock) (k : kernel) (dev : Nat) : kernel :=
  let k1 := isobus_disable_filters k dev ro.id ro.filter ro.count
  let k2 := isobus_disable_nmfilters k1 dev ro.id
  isobus_disable_errfilter k2 dev ro.id ro.err_mask

/-- Function `isobus_enable_allfilters`. -/
def isobus_enable_allfilters (ro : isobus_sock) (k : kernel) (dev : Nat) : Int × kernel :=
  match isobus_enable_filters k dev ro.id ro.filter ro.count with
  | (err, k1) =>
    if err = 0 then
      match isobus_enable_nmfilters k1 dev ro.id with
      | (err2, k2) =>
        if err2 = 0 then
          match isobus_enable_errfilter k2 dev ro.id ro.err_mask with
          | (err3, k3) =>
            if err3 ≠ 0 then (err3, isobus_disable_filters k3 dev ro.id ro.filter ro.count)
            else (err3, k3)
        else (err2, k2)
    else (err, k1)

/-! ## Filter translation -/

/-- One turn of the loop of `isobus_filter_conv`: the `can_filter` written to
`f[i]`, or `none` where the loop returns `-EINVAL`. -/
def filter_conv_one (fi : isobus_filter) : Option can_filter :=
  let pgn_mask := fi.pgn_mask
  if PGN_PDU_FMT fi.pgn = 2 then
    if fi.daddr_mask ≠ 0 then none
    else
      let can_id := CANID 0 fi.pgn fi.daddr fi.saddr
      let can_mask := CANID 0 pgn_mask fi.daddr_mask fi.saddr_mask
      some { can_id := if fi.inverted then can_id ||| CAN_INV_FILTER else can_id,
             can_mask := can_mask }
  else
    let pgn_mask1 := pgn_mask &&& ISOBUS_PGN1_MASK
    let can_id := CANID 0 fi.pgn fi.daddr fi.saddr
    let can_mask := CANID 0 pgn_mask1 fi.daddr_mask fi.saddr_mask
    some { can_id := if fi.inverted then can_id ||| CAN_INV_FILTER else can_id,
           can_mask := can_mask }

/-- Function `isobus_filter_conv` on the array `fi[0..count)`: the return
value and the entries of `f` written before it returned. -/
def isobus_filter_conv : List isobus_filter → Int × List can_filter
  | [] => (0, [])
  | fi :: rest =>
    match filter_conv_one fi with
    | none => (-EINVAL, [])
    | some f =>
      match isobus_filter_conv rest with
      | (err, fs) => (err, f :: fs)

/-- One turn of the loop of `isobus_filter_unconv`. -/
def filter_unconv_one (f : can_filter) : isobus_filter :=
  { pgn := get_pgn f.can_id,
    pgn_mask := get_pgn f.can_mask,
    daddr := ID_FIELD f.can_id Field.PS,
    daddr_mask := ID_FIELD f.can_mask Field.PS,
    saddr := ID_FIELD f.can_id Field.SA,
    saddr_mask := ID_FIELD f.can_mask Field.SA,
    inverted := decide (f.can_id &&& CAN_INV_FILTER ≠ 0) }

/-- Function `isobus_filter_unconv` on the array `f[0..count)`. -/
def isobus_filter_unconv (f : List can_filter) : Int × List isobus_filter :=
  (0, f.map filter_unconv_one)

/-! ## Socket options -/

/-- The option names of `isobus.h` (their numbers are not among the sources);
`other` is any number that is none of the six. -/
inductive optname where
  | CAN_ISOBUS_FILTER
  | CAN_ISOBUS_LOOPBACK
  | CAN_ISOBUS_RECV_OWN_MSGS
  | CAN_ISOBUS_SEND_PRIO
  | CAN_ISOBUS_DADDR
  | CAN_ISOBUS_NAME
  | other
  deriving DecidableEq, Repr

open optname

/-- The user memory `optval` points to: whether it can be read, and its
content read as an array of `struct isobus_filter`, as an `int` and as a
`name_t`. -/
structure user_buf where
  readable : Bool
  as_filters : List isobus_filter
  as_int : Int
  as_name : Nat
  deriving DecidableEq, Repr

/-- Kernel function `memdup_user`: 0 with the copy, or the error code. -/
def memdup_user (k : kernel) (buf : user_buf) : Int × kernel :=
  match alloc_skb k with
  | (e, k1) =>
    if e ≠ 0 then (-ENOMEM, k1)
    else if buf.readable then (0, k1) else (-EFAULT, k1)

/-- The case `CAN_ISOBUS_FILTER` of `isobus_setsockopt` up to the test `if(err)`:
the user array is copied in and interpreted.  Gives `err` and the array
`filter` (`sfilter` when `count` is 1). -/
def setsockopt_filter_copy (k : kernel) (optval : user_buf) (count : Nat) :
    Int × List can_filter × kernel :=
  if count > 1 then
    match memdup_user k optval with
    | (e, k1) =>
      if e ≠ 0 then (e, [], k1)
      else
        match isobus_filter_conv (optval.as_filters.take count) with
        | (err, filter) => (err, filter, k1)
  else if count = 1 then
    if ¬ optval.readable then (-EFAULT, [], k)
    else
      match isobus_filter_conv (optval.as_filters.take 1) with
      | (err, filter) => (err, filter, k)
  else (0, [], k)

/-- The case `CAN_ISOBUS_FILTER` of `isobus_setsockopt`. -/
def setsockopt_filter (a : abi) (ro : isobus_sock) (k : kernel) (optval : user_buf)
    (optlen : Nat) : Int × isobus_sock × kernel :=
  if optlen % a.sizeof_isobus_filter ≠ 0 then (-EINVAL, ro, k)
  else
    let count := optlen / a.sizeof_isobus_filter
    match setsockopt_filter_copy k optval count with
    | (err, filter, k1) =>
      if err ≠ 0 then (err, ro, k1)
      else
        let dev : Nat :=
          if ro.bound ∧ ro.ifindex ≠ 0 then
            match dev_get_by_index k1 ro.ifindex with
            | some d => d.ifindex
            | none => 0
          else 0
        if ro.bound then
          match isobus_enable_filters k1 dev ro.id filter count with
          | (err2, k2) =>
            if err2 ≠ 0 then (err2, ro, k2)
            else
              let k3 := isobus_disable_filters k2 dev ro.id ro.filter ro.count
              (0, { ro with filter := filter, count := count }, k3)
        else (0, { ro with filter := filter, count := count }, k1)

/-- Function `isobus_setsockopt`. -/
def isobus_setsockopt (a : abi) (ro : isobus_sock) (k : kernel) (level : Nat)
    (opt : optname) (optval : user_buf) (optlen : Nat) : Int × isobus_sock × kernel :=
  if level ≠ a.SOL_CAN_ISOBUS then (-EINVAL, ro, k)
  else
    match opt with
    | CAN_ISOBUS_FILTER => setsockopt_filter a ro k optval optlen
    | CAN_ISOBUS_LOOPBACK =>
      if optlen ≠ 4 then (-EINVAL, ro, k)
      else if ¬ optval.readable then (-EFAULT, ro, k)
      else (0, { ro with loopback := optval.as_int }, k)
    | CAN_ISOBUS_RECV_OWN_MSGS =>
      if optlen ≠ 4 then (-EINVAL, ro, k)
      else if ¬ optval.readable then (-EFAULT, ro, k)
      else (0, { ro with recv_own_msgs := optval.as_int }, k)
    | CAN_ISOBUS_SEND_PRIO =>
      if optlen ≠ 4 then (-EINVAL, ro, k)
      else if ¬ optval.readable then (-EFAULT, ro, k)
      else
        let tmp := optval.as_int
        if tmp < MIN_PRI ∨ tmp > MAX_PRI then (-EDOM, ro, k)
        else (0, { ro with sk_priority := to_u32 ( SK_PRIO tmp) }, k)
    | CAN_ISOBUS_DADDR =>
      if optlen ≠ 4 then (-EINVAL, ro, k)
      else if ¬ optval.readable then (-EFAULT, ro, k)
      else (0, { ro with daddr_opt := optval.as_int }, k)
    | CAN_ISOBUS_NAME =>
      if optlen ≠ 8 then (-EINVAL, ro, k)
      else if ¬ optval.readable then (-EFAULT, ro, k)
      else (0, { ro with name := optval.as_name }, k)
    | optname.other => (-ENOPROTOOPT, ro, k)

/-- The object `isobus_getsockopt` copies to user space. -/
inductive optval_out where
  | nothing
  | filters (fi : List isobus_filter)
  | int (v : Int)
  | name (v : Nat)
  deriving DecidableEq, Repr

/-- Result of `isobus_getsockopt`: the return value, the length stored through
`optlen` (if one was stored) and the object whose first `optlen` bytes were
copied to `optval`. -/
structure getsockopt_ret where
  ret : Int
  optlen : Option Int
  optval : optval_out
  deriving DecidableEq, Repr

/-- Function `isobus_getsockopt`.  `len` is the value read through `optlen`;
`optlen_ok` and `optval_ok` say whether the two user pointers can be accessed. -/
def isobus_getsockopt (a : abi) (ro : isobus_sock) (level : Nat) (opt : optname)
    (len : Int) (optlen_ok optval_ok : Bool) : getsockopt_ret :=
  if level ≠ a.SOL_CAN_ISOBUS then { ret := -EINVAL, optlen := none, optval := .nothing }
  else if ¬ optlen_ok then { ret := -EFAULT, optlen := none, optval := .nothing }
  else if len < 0 then { ret := -EINVAL, optlen := none, optval := .nothing }
  else
    let finish (len1 : Int) (val : optval_out) : getsockopt_ret :=
      if ¬ optval_ok then { ret := -EFAULT, optlen := some len1, optval := .nothing }
      else { ret := 0, optlen := some len1, optval := val }
    match opt with
    | CAN_ISOBUS_FILTER =>
      if ro.count > 0 then
        let fsize : Int := ro.count * a.sizeof_isobus_filter
        let fi := (isobus_filter_unconv (ro.filter.take ro.count)).2
        let len1 := if len > fsize then fsize else len
        if ¬ optval_ok then { ret := -EFAULT, optlen := none, optval := .nothing }
        else { ret := 0, optlen := some len1, optval := .filters fi }
      else { ret := 0, optlen := some 0, optval := .nothing }
    | CAN_ISOBUS_LOOPBACK => finish (if len > 4 then 4 else len) (.int ro.loopback)
    | CAN_ISOBUS_RECV_OWN_MSGS => finish (if len > 4 then 4 else len) (.int ro.recv_own_msgs)
    | CAN_ISOBUS_SEND_PRIO =>
      finish (if len > 4 then 4 else len) (.int ( ISOBUS_PRIO ro.sk_priority))
    | CAN_ISOBUS_DADDR => finish (if len > 4 then 4 else len) (.int ro.daddr_opt)
    | CAN_ISOBUS_NAME => finish (if len > 8 then 8 else len) (.name ro.name)
    | optname.other => { ret := -ENOPROTOOPT, optlen := none, optval := .nothing }

/-! ## Receiving in userland -/

def MSG_PEEK : Nat := 2

/-- What `isobus_recvmsg` hands back: the return value, the datagram whose
first `ret` bytes went to the iovec, the flags or-ed into `msg_flags`, the
ancillary destination address and the source address stored in `msg_name`. -/
structure recvmsg_ret where
  ret : Int
  mesg : Option isobus_mesg
  msg_flags : Nat
  cmsg : Option sockaddr_can
  msg_name : Option sockaddr_can
  deriving DecidableEq, Repr

/-- Function `isobus_recvmsg`: called when userland reads from the socket.
`has_name` says whether `msg->msg_name` is set, `iov_ok` whether the iovec can
be written, and `empty_err` is the error `skb_recv_datagram` reports when it
returns no datagram. -/
def isobus_recvmsg (ro : isobus_sock) (has_name iov_ok : Bool) (size : Nat) (flags : Nat)
    (empty_err : Int) : recvmsg_ret × isobus_sock :=
  if ro.state ≠ ISOBUS_HAVE_ADDR then
    ({ ret := -EADDRINUSE, mesg := none, msg_flags := 0, cmsg := none, msg_name := none }, ro)
  else
    match ro.queue with
    | [] => ({ ret := empty_err, mesg := none, msg_flags := 0, cmsg := none, msg_name := none }, ro)
    | skb :: rest =>
      let ro1 := if flags &&& MSG_PEEK ≠ 0 then ro else { ro with queue := rest }
      let trunc := if size < CAN_MTU then MSG_TRUNC else 0
      let size1 := if size < CAN_MTU then size else CAN_MTU
      if ¬ iov_ok then
        ({ ret := -EFAULT, mesg := none, msg_flags := trunc, cmsg := none, msg_name := none }, ro1)
      else
        ({ ret := (size1 : Int), mesg := some skb.mesg, msg_flags := trunc ||| isobus_flags skb,
           cmsg := some skb.addr1,
           msg_name := if has_name then some skb.addr0 else none }, ro1)

/-! ## Address claiming -/

/-- Function `avail_sc_addr`: the lowest self-configurable address still marked
free, or the null address. -/
def avail_sc_addr (ro : isobus_sock) : Nat :=
  match (List.range (ISOBUS_MAX_SC_ADDR - ISOBUS_MIN_SC_ADDR + 1)).find?
      (fun i => ro.sc_addrs.getD i false) with
  | some i => i + ISOBUS_MIN_SC_ADDR
  | none => ISOBUS_NULL_ADDR

/-- A frame the CAN core delivers to one of the three callbacks of the socket. -/
inductive bus_event where
  | addr_claimed (skb : sk_buff)
  | req_addr_claimed (skb : sk_buff)
  | rcv (skb : sk_buff)
  deriving DecidableEq, Repr

/-- Delivery of one frame to its callback. -/
def deliver (s : isobus_sock × kernel) : bus_event → isobus_sock × kernel
  | .addr_claimed skb => isobus_addr_claimed_handler s.1 s.2 skb
  | .req_addr_claimed skb => isobus_req_addr_claimed_handler s.1 s.2 skb
  | .rcv skb => isobus_rcv s.1 s.2 skb

/-- A call of `wait_event_interruptible_timeout`, seen from the waiter: the
frames delivered to the callbacks before the waiter runs again, in order.  The
condition and the timeout only decide how many frames that is. -/
def wait_event (ro : isobus_sock) (k : kernel) (events : List bus_event) :
    isobus_sock × kernel :=
  events.foldl deliver (ro, k)

/-- Function `isobus_claim_addr`, with the frames delivered during its two
waits. -/
def isobus_claim_addr (ro : isobus_sock) (k : kernel) (wait1 wait2 : List bus_event) :
    Int × isobus_sock × kernel :=
  let ro1 := { ro with
    s_addr := ISOBUS_NULL_ADDR, state := ISOBUS_WAIT_ADDR,
    sc_addrs := List.replicate (ISOBUS_MAX_SC_ADDR - ISOBUS_MIN_SC_ADDR + 1) true,
    pref_avail := true }
  let k1 := (isobus_send ro1 k req_addr_claimed_mesg ISOBUS_GLOBAL_ADDR).2
  match wait_event ro1 k1 wait1 with
  | (ro2, k2) =>
    if ro2.state = ISOBUS_LOST_ADDR then (-EADDRINUSE, ro2, k2)
    else
      let ro3 :=
        if ro2.pref_addr ≠ ISOBUS_ANY_ADDR ∧ ro2.pref_avail then
          { ro2 with s_addr := ro2.pref_addr }
        else if ro2.name &&& ISOBUS_NAME_SC_BIT ≠ 0 then
          { ro2 with s_addr := avail_sc_addr ro2 }
        else ro2
      if ro3.s_addr = ISOBUS_NULL_ADDR then
        match isobus_lose_addr ro3 k2 with
        | (ro4, k3) => (-EADDRINUSE, ro4, k3)
      else
        let ro4 := { ro3 with state := ISOBUS_WAIT_HAVE_ADDR }
        let k3 := (isobus_send_addr_claimed ro4 k2).2
        match wait_event ro4 k3 wait2 with
        | (ro5, k4) =>
          if ro5.state = ISOBUS_LOST_ADDR then (-EADDRINUSE, ro5, k4)
          else (0, { ro5 with state := ISOBUS_HAVE_ADDR }, k4)

/-- The label `out` of `isobus_bind` and what follows it. -/
def bind_out (err : Int) (notify_enetdown : Bool) (ro : isobus_sock) (k : kernel)
    (addr : sockaddr_can) (wait1 wait2 : List bus_event) : Int × isobus_sock × kernel :=
  let r : Int × isobus_sock × kernel :=
    if err = 0 then isobus_claim_addr { ro with pref_addr := addr.addr % 256 } k wait1 wait2
    else (err, ro, k)
  if notify_enetdown then (r.1, { r.2.1 with sk_err := ENETDOWN }, r.2.2) else r

/-- Function `isobus_bind`. -/
def isobus_bind (a : abi) (ro : isobus_sock) (k : kernel) (addr : sockaddr_can) (len : Nat)
    (wait1 wait2 : List bus_event) : Int × isobus_sock × kernel :=
  if len < a.sizeof_sockaddr_can then (-EINVAL, ro, k)
  else if ro.bound ∧ addr.can_ifindex = ro.ifindex then bind_out 0 false ro k addr wait1 wait2
  else if addr.can_ifindex ≠ 0 then
    match dev_get_by_index k addr.can_ifindex with
    | none => bind_out (-ENODEV) false ro k addr wait1 wait2
    | some dev =>
      if dev.type ≠ ARPHRD_CAN then bind_out (-ENODEV) false ro k addr wait1 wait2
      else
        let notify_enetdown := !dev.up
        match isobus_enable_allfilters ro k dev.ifindex with
        | (err, k1) =>
          if err = 0 then
            let k2 :=
              if ro.bound then
                if ro.ifindex ≠ 0 then
                  match dev_get_by_index k1 ro.ifindex with
                  | some d => isobus_disable_allfilters ro k1 d.ifindex
                  | none => k1
                else isobus_disable_allfilters ro k1 0
              else k1
            bind_out err notify_enetdown { ro with ifindex := dev.ifindex, bound := true } k2
              addr wait1 wait2
          else bind_out err notify_enetdown ro k1 addr wait1 wait2
  else bind_out (-ENODEV) false ro k addr wait1 wait2

/-! ## Creation, link events and release -/

def ISOBUS_NAME_ID_MASK : Nat := 0x00000000001FFFFF
def ISOBUS_NAME_MAN_MASK : Nat := 0x00000000FFE00000
def ISOBUS_NAME_FINST_MASK : Nat := 0x000000F800000000
def ISOBUS_NAME_FUNC_MASK : Nat := 0x0000FF0000000000
def ISOBUS_NAME_FUNC_POS : Nat := 40
def ISOBUS_NAME_CINST_MASK : Nat := 0x0F00000000000000

/-- Function `isobus_init` on the zeroed socket at address `id`; `rnd` is the
eight random bytes `get_random_bytes` stores in `ro->name`. -/
def isobus_init (id rnd : Nat) : isobus_sock :=
  { id := id,
    sk_priority := to_u32 ( SK_PRIO 6),
    sk_err := 0,
    queue := [],
    bound := false,
    ifindex := 0,
    loopback := 1,
    recv_own_msgs := 0,
    daddr_opt := 0,
    count := 1,
    filter := [{ can_id := CAN_EFF_FLAG, can_mask := CAN_EFF_FLAG }],
    err_mask := 0,
    pref_addr := ISOBUS_ANY_ADDR,
    s_addr := ISOBUS_NULL_ADDR,
    name := (((rnd % 18446744073709551616) &&&
        (ISOBUS_NAME_CINST_MASK ||| ISOBUS_NAME_FINST_MASK ||| ISOBUS_NAME_ID_MASK)) |||
        ISOBUS_NAME_MAN_MASK |||
        ((130 <<< ISOBUS_NAME_FUNC_POS) &&& ISOBUS_NAME_FUNC_MASK)) |||
        ISOBUS_NAME_SC_BIT,
    state := sock_state.ISOBUS_IDLE,
    sc_addrs := List.replicate (ISOBUS_MAX_SC_ADDR - ISOBUS_MIN_SC_ADDR + 1) false,
    pref_avail := false }

/-- The notifier messages `isobus_notifier` tells apart. -/
inductive netdev_msg where
  | NETDEV_UNREGISTER
  | NETDEV_DOWN
  | other
  deriving DecidableEq, Repr

/-- Function `isobus_notifier`, called with the message and the device;
`in_init_net` says whether the device belongs to `init_net`. -/
def isobus_notifier (ro : isobus_sock) (k : kernel) (msg : netdev_msg) (dev : net_device)
    (in_init_net : Bool) : isobus_sock × kernel :=
  if ¬ in_init_net then (ro, k)
  else if dev.type ≠ ARPHRD_CAN then (ro, k)
  else if ro.ifindex ≠ dev.ifindex then (ro, k)
  else
    match msg with
    | netdev_msg.NETDEV_UNREGISTER =>
      let k1 := if ro.bound then isobus_disable_allfilters ro k dev.ifindex else k
      ({ ro with ifindex := 0, bound := false, count := 0, sk_err := ENODEV }, k1)
    | netdev_msg.NETDEV_DOWN => ({ ro with sk_err := ENETDOWN }, k)
    | netdev_msg.other => (ro, k)

/-- Function `isobus_release`. -/
def isobus_release (ro : isobus_sock) (k : kernel) : Int × isobus_sock × kernel :=
  let k1 :=
    if ro.bound then
      if ro.ifindex ≠ 0 then
        match dev_get_by_index k ro.ifindex with
        | some dev => isobus_disable_allfilters ro k dev.ifindex
        | none => k
      else isobus_disable_allfilters ro k 0
    else k
  (0, { ro with ifindex := 0, bound := false, count := 0 }, k1)

/-! ## Auxiliary definitions used in the statements -/

/-- Every pending result in the list is 0: the coming calls succeed. -/
def rets_ok (l : List Int) : Prop := ∀ e ∈ l, e = 0

instance (l : List Int) : Decidable (rets_ok l) := by
  unfold rets_ok; infer_instance

/-- The interface `ifindex` exists and every coming buffer allocation succeeds:
what `isobus_send` needs to hand its frame to `can_send`. -/
def send_ok (ifindex : Nat) (k : kernel) : Prop :=
  (dev_get_by_index k ifindex).isSome = true ∧ rets_ok k.alloc_rets

instance (ifindex : Nat) (k : kernel) : Decidable (send_ok ifindex k) := by
  unfold send_ok; infer_instance

/-- The buffer `isobus_send` hands to `can_send` for the message `mesg` and the
destination `addr`. -/
def nm_skb (ro : isobus_sock) (mesg : isobus_mesg) (addr : Nat) : tx_skb :=
  { sk := ro.id, ifindex := ro.ifindex,
    cf := { can_id := CANID (to_u32 ( ISOBUS_PRIO ro.sk_priority)) mesg.pgn addr ro.s_addr,
            can_dlc := mesg.dlen, data := mesg.data.take mesg.dlen },
    loop := 1 }

/-- The bounds on the fields of a filter: 18-bit PGN and PGN mask, 8-bit
addresses and address masks. -/
def filter_in_range (f : isobus_filter) : Prop :=
  f.pgn < 262144 ∧ f.pgn_mask < 262144 ∧ f.daddr < 256 ∧ f.daddr_mask < 256 ∧
  f.saddr < 256 ∧ f.saddr_mask < 256

instance (f : isobus_filter) : Decidable (filter_in_range f) := by
  unfold filter_in_range; infer_instance

/-- What one callback may do to the address fields of a socket: the preferred
address and the NAME stay; either the address is lost (state
`ISOBUS_LOST_ADDR`, `s_addr` null), or `s_addr` stays and a lost socket stays
lost. -/
def claim_step (ro ro1 : isobus_sock) : Prop :=
  ro1.pref_addr = ro.pref_addr ∧ ro1.name = ro.name ∧
  ((ro1.state = sock_state.ISOBUS_LOST_ADDR ∧ ro1.s_addr = ISOBUS_NULL_ADDR) ∨
   (ro1.s_addr = ro.s_addr ∧
    (ro.state = sock_state.ISOBUS_LOST_ADDR → ro1.state = sock_state.ISOBUS_LOST_ADDR)))

/-- The buffer `isobus_send_addr_claimed` hands to `can_send`. -/
def claimed_skb (ro : isobus_sock) : tx_skb :=
  nm_skb ro { addr_claimed_mesg with data := NAME2DATA ro.name } ISOBUS_GLOBAL_ADDR

/-- The buffer with the request for address claimed `isobus_claim_addr` hands to
`can_send`. -/
def request_skb (ro : isobus_sock) : tx_skb :=
  nm_skb ro req_addr_claimed_mesg ISOBUS_GLOBAL_ADDR

/-- An address claimed frame as the claims describe it: PGN 0x00EE00, sent to
the global address from source address `sa`, with the eight bytes of `name`,
least significant first, as payload. -/
def is_addr_claimed (f : tx_skb) (sa name : Nat) : Prop :=
  get_pgn f.cf.can_id = ISOBUS_PGN_ADDR_CLAIMED ∧
  ID_FIELD f.cf.can_id Field.PS = ISOBUS_GLOBAL_ADDR ∧
  ID_FIELD f.cf.can_id Field.SA = sa ∧
  f.cf.can_dlc = 8 ∧
  f.cf.data = NAME2DATA name

/-- A request for address claimed frame: PGN 0x00EA00, sent to the global
address, with the three bytes of the address claimed PGN as payload. -/
def is_request (f : tx_skb) : Prop :=
  get_pgn f.cf.can_id = ISOBUS_PGN_REQUEST ∧
  ID_FIELD f.cf.can_id Field.PS = ISOBUS_GLOBAL_ADDR ∧
  f.cf.can_dlc = 3 ∧
  f.cf.data = [0x00, 0xEE, 0x00]

instance (f : tx_skb) (sa name : Nat) : Decidable (is_addr_claimed f sa name) := by
  unfold is_addr_claimed; infer_instance

instance (f : tx_skb) : Decidable (is_request f) := by
  unfold is_request; infer_instance

/-- The socket after the four assignments that open `isobus_claim_addr`. -/
def claim_start (ro : isobus_sock) : isobus_sock :=
  { ro with
    s_addr := ISOBUS_NULL_ADDR, state := sock_state.ISOBUS_WAIT_ADDR,
    sc_addrs := List.replicate (ISOBUS_MAX_SC_ADDR - ISOBUS_MIN_SC_ADDR + 1) true,
    pref_avail := true }

/-- Structure sizes and option level used in the examples. -/
def ex_abi : abi :=
  { sizeof_sockaddr_can := 16, sizeof_isobus_filter := 16, SOL_CAN_ISOBUS := 107 }

/-- An example socket: bound to interface 3, holding address 0x80. -/
def ex_sock : isobus_sock :=
  { id := 1, sk_priority := 1, sk_err := 0, queue := [], bound := true, ifindex := 3,
    loopback := 1, recv_own_msgs := 0, daddr_opt := 0, count := 1,
    filter := [{ can_id := CAN_EFF_FLAG, can_mask := CAN_EFF_FLAG }], err_mask := 0,
    pref_addr := 0x80, s_addr := 0x80, name := 0x8000000000000005,
    state := sock_state.ISOBUS_HAVE_ADDR,
    sc_addrs := [], pref_avail := true }

/-- An example kernel: one CAN interface with index 3, every call succeeding. -/
def ex_kernel : kernel :=
  { devs := [{ ifindex := 3, type := ARPHRD_CAN, up := true }], rx := [], tx := [],
    register_rets := [], send_rets := [], alloc_rets := [], queue_rets := [] }

/-- User memory holding the `int` `v`. -/
def ex_int (v : Int) : user_buf :=
  { readable := true, as_filters := [], as_int := v, as_name := 0 }

/-- User memory holding the filter array `fs`. -/
def ex_filters (fs : List isobus_filter) : user_buf :=
  { readable := true, as_filters := fs, as_int := 0, as_name := 0 }

/-- An example PDU2 filter: PGN 0x00F004 with every PGN bit compared. -/
def ex_filter_pdu2 : isobus_filter :=
  { pgn := 0x00F004, pgn_mask := 0x3FFFF, daddr := 0, daddr_mask := 0, saddr := 0,
    saddr_mask := 0xFF, inverted := false }

/-- An example PDU1 filter: PGN 0x00EE00 to destination 0x80, inverted. -/
def ex_filter_pdu1 : isobus_filter :=
  { pgn := 0x00EE00, pgn_mask := 0x3FFFF, daddr := 0x80, daddr_mask := 0xFF, saddr := 0,
    saddr_mask := 0, inverted := true }

/-- The example socket before `isobus_bind`: idle, not bound, no address. -/
def ex_idle : isobus_sock :=
  { ex_sock with bound := false, ifindex := 0, s_addr := ISOBUS_NULL_ADDR,
                 state := sock_state.ISOBUS_IDLE }

/-- The example socket bound to interface 3 at the start of a claim. -/
def ex_claiming (pref_addr : Nat) : isobus_sock :=
  { ex_sock with pref_addr := pref_addr, s_addr := ISOBUS_NULL_ADDR,
                 state := sock_state.ISOBUS_IDLE }

/-- The example socket at the start of a claim for address 0x80, with a NAME
whose self-configurable bit is clear. -/
def ex_fixed : isobus_sock :=
  { ex_claiming 0x80 with name := 0x0000820000000005 }

/-- An address claimed frame from the wire: a peer with NAME `name` claiming
address `sa`. -/
def ex_peer_claim (sa name : Nat) : bus_event :=
  bus_event.addr_claimed
    { sk := none, ifindex := 3,
      cf := { can_id := CANID 6 ISOBUS_PGN_ADDR_CLAIMED ISOBUS_GLOBAL_ADDR sa, can_dlc := 8,
              data := NAME2DATA name } }

/-- The buffer of an address claimed frame from the wire: a peer with NAME `name`
claiming address `sa`. -/
def ex_peer_skb (sa name : Nat) : sk_buff :=
  { sk := none, ifindex := 3,
    cf := { can_id := CANID 6 ISOBUS_PGN_ADDR_CLAIMED ISOBUS_GLOBAL_ADDR sa, can_dlc := 8,
            data := NAME2DATA name } }

/-- The buffer of a request for address claimed frame from the wire, sent by
`sa` to the address `ps`. -/
def ex_request_skb (ps sa : Nat) : sk_buff :=
  { sk := none, ifindex := 3,
    cf := { can_id := CANID 6 ISOBUS_PGN_REQUEST ps sa, can_dlc := 3,
            data := [0x00, 0xEE, 0x00] } }

/-- The buffer of a data frame from the wire with the given CAN identifier. -/
def ex_data_skb (can_id : Nat) : sk_buff :=
  { sk := none, ifindex := 3, cf := { can_id := can_id, can_dlc := 3, data := [1, 2, 3, 4] } }

/-- The example kernel with the given results pending for `can_rx_register`. -/
def ex_kernel_rets (rets : List Int) : kernel :=
  { ex_kernel with register_rets := rets }

/-- A socket fresh from `isobus_init`. -/
def ex_new : isobus_sock := isobus_init 1 0

/-- The address argument of `isobus_bind`: interface 3, preferred address `addr`. -/
def ex_addr (addr : Nat) : sockaddr_can :=
  { can_family := AF_CAN, can_ifindex := 3, addr := addr }

/-- First step of the example run: the fresh socket is bound to interface 3 with
preferred address 0x80; during the second wait a peer with NAME 1 claims
0x80. -/
def ex_run_bind1 : Int × isobus_sock × kernel :=
  isobus_bind ex_abi ex_new ex_kernel (ex_addr 0x80) 16 []
    [bus_event.addr_claimed (ex_peer_skb 0x80 1)]

/-- Second step of the example run: the socket is bound again, now with preferred
address 0x81, on a quiet bus. -/
def ex_run_bind2 : Int × isobus_sock × kernel :=
  isobus_bind ex_abi ex_run_bind1.2.1 ex_run_bind1.2.2 (ex_addr 0x81) 16 [] []

/-- Third step of the example run: the socket is released. -/
def ex_run_release : Int × isobus_sock × kernel :=
  isobus_release ex_run_bind2.2.1 ex_run_bind2.2.2

/-- Number of receive-list entries of socket `sk` with callback `func`. -/
def count_rx (k : kernel) (sk : Nat) (func : rx_func) : Nat :=
  (k.rx.filter (fun r => r.sk == sk && r.func == func)).length

/-- A message of two bytes with the given PGN and optional destination address
on interface 3. -/
def ex_msg (pgn : Nat) (dest : Option Nat) : msghdr :=
  { mesg := { pgn := pgn, dlen := 2, data := [0x11, 0x22] },
    msg_name := dest.map (fun d => { can_family := AF_CAN, can_ifindex := 3, addr := d }),
    msg_namelen := 16, msg_flags := 0 }

/-- The low part of a CAN identifier made by `CANID`: PGN bits or-ed with the
destination byte. -/
def ps_bits (pgn da : Nat) : Nat := (pgn % 262144) ||| (da % 256)

/-! ## Bit-level lemmas -/

theorem and_mask_mod (x n : Nat) (m : Nat) (h : m = 2 ^ n - 1) : x &&& m = x % 2 ^ n := by
  subst h; exact Nat.and_pow_two_sub_one_eq_mod x n

theorem testBit_ge_of_lt {b k i : Nat} (hb : b < 2 ^ k) (hi : k ≤ i) : b.testBit i = false :=
  Nat.testBit_lt_two_pow (lt_of_lt_of_le hb (Nat.pow_le_pow_right (by decide) hi))

theorem or_shiftLeft (a b k : Nat) : (a <<< k) ||| (b <<< k) = (a ||| b) <<< k := by
  apply Nat.eq_of_testBit_eq
  intro i
  simp only [Nat.testBit_or, Nat.testBit_shiftLeft]
  cases decide (i ≥ k) <;> simp

theorem shiftLeft_or_low (a b k : Nat) (hb : b < 2 ^ k) : (a <<< k) ||| b = a * 2 ^ k + b := by
  rw [Nat.shiftLeft_eq, Nat.mul_comm, Nat.mul_add_lt_is_or hb]

theorem or_low_div (a b k : Nat) (hb : b < 2 ^ k) : (a ||| b) / 2 ^ k = a / 2 ^ k := by
  rw [← Nat.shiftRight_eq_div_pow, ← Nat.shiftRight_eq_div_pow]
  apply Nat.eq_of_testBit_eq
  intro i
  simp only [Nat.testBit_shiftRight, Nat.testBit_or]
  rw [testBit_ge_of_lt hb (Nat.le_add_right k i)]
  simp

theorem or_low_mod (a b k : Nat) (hb : b < 2 ^ k) : (a ||| b) % 2 ^ k = (a % 2 ^ k) ||| b := by
  apply Nat.eq_of_testBit_eq
  intro i
  simp only [Nat.testBit_mod_two_pow, Nat.testBit_or]
  by_cases h : i < k
  · simp [h]
  · simp [h, testBit_ge_of_lt hb (Nat.le_of_not_lt h)]

theorem and_pgn1_mask (x : Nat) : x &&& 0x03FF00 = (x / 256 % 1024) * 256 := by
  have h : (0x03FF00 : Nat) = (2 ^ 10 - 1) <<< 8 := by decide
  rw [h]
  apply Nat.eq_of_testBit_eq
  intro i
  rw [show (x / 256 % 1024) * 256 = (x / 2 ^ 8 % 2 ^ 10) <<< 8 by rw [Nat.shiftLeft_eq]; norm_num]
  simp only [Nat.testBit_and, Nat.testBit_shiftLeft, Nat.testBit_two_pow_sub_one,
    Nat.testBit_mod_two_pow, ← Nat.shiftRight_eq_div_pow, Nat.testBit_shiftRight]
  by_cases h8 : i ≥ 8
  · have : 8 + (i - 8) = i := by omega
    simp [h8, this, Bool.and_comm]
  · simp [h8]

theorem and_bit (x n : Nat) : x &&& 2 ^ n = (x / 2 ^ n % 2) * 2 ^ n := by
  apply Nat.eq_of_testBit_eq
  intro i
  rw [← Nat.shiftLeft_eq, show x / 2 ^ n % 2 = x / 2 ^ n % 2 ^ 1 by simp]
  simp only [Nat.testBit_and, Nat.testBit_shiftLeft, Nat.testBit_two_pow,
    Nat.testBit_mod_two_pow, ← Nat.shiftRight_eq_div_pow, Nat.testBit_shiftRight]
  by_cases h : n = i
  · subst h; simp
  · have : ¬ (i ≥ n ∧ i - n < 1) := by omega
    by_cases h2 : i ≥ n
    · have : ¬ (i - n < 1) := by omega
      simp [h, h2, this]
    · simp [h, h2]

theorem or_inv_flag (x : Nat) (h : x / 536870912 % 2 = 0) :
    x ||| 536870912 = x + 536870912 := by
  have hr : x % 536870912 < 2 ^ 29 := by norm_num; omega
  have hr2 : 536870912 + x % 536870912 < 2 ^ 30 := by norm_num; omega
  have hr3 : x % 536870912 < 2 ^ 30 := by norm_num; omega
  have e1 := Nat.mul_add_lt_is_or hr 1
  have e2 := Nat.mul_add_lt_is_or hr2 (x / 1073741824)
  have e3 := Nat.mul_add_lt_is_or hr3 (x / 1073741824)
  norm_num at e1 e2 e3
  have hx : x = 1073741824 * (x / 1073741824) + x % 536870912 := by omega
  have hx2 : x + 536870912 = 1073741824 * (x / 1073741824) + (536870912 + x % 536870912) := by
    omega
  rw [hx2, e2, e1]
  conv_lhs => rw [hx, e3]
  rw [Nat.or_assoc, Nat.or_comm (x % 536870912)]

theorem ps_bits_lt (pgn da : Nat) : ps_bits pgn da < 262144 := by
  have h1 : pgn % 262144 < 2 ^ 18 := by norm_num; omega
  have h2 : da % 256 < 2 ^ 18 := by norm_num; omega
  have := Nat.or_lt_two_pow h1 h2
  simpa [ps_bits] using this

theorem ps_bits_div (pgn da : Nat) : ps_bits pgn da / 256 = pgn % 262144 / 256 := by
  have h2 : da % 256 < 2 ^ 8 := by norm_num; omega
  have := or_low_div (pgn % 262144) (da % 256) 8 h2
  simpa [ps_bits] using this

theorem ps_bits_mod (pgn da : Nat) : ps_bits pgn da % 256 = (pgn % 256) ||| (da % 256) := by
  have h2 : da % 256 < 2 ^ 8 := by norm_num; omega
  have := or_low_mod (pgn % 262144) (da % 256) 8 h2
  have e : pgn % 262144 % 256 = pgn % 256 := by omega
  simpa [ps_bits, e] using this

theorem ps_bits_zero (pgn : Nat) : ps_bits pgn 0 = pgn % 262144 := by
  simp [ps_bits]

theorem CANID_eq (pri pgn da sa : Nat) :
    CANID pri pgn da sa =
      2147483648 + (pri % 8) * 67108864 + ps_bits pgn da * 256 + sa % 256 := by
  unfold CANID CAN_EFF_FLAG ISOBUS_PRI_MASK ISOBUS_PRI_POS ISOBUS_PGN_MASK ISOBUS_PGN_POS
    ISOBUS_PS_MASK ISOBUS_PS_POS ISOBUS_SA_MASK ISOBUS_SA_POS
  rw [and_mask_mod pri 3 7 (by decide), and_mask_mod pgn 18 0x03FFFF (by decide),
    and_mask_mod da 8 0xFF (by decide), and_mask_mod sa 8 0xFF (by decide)]
  have hs : sa % 2 ^ 8 < 2 ^ 8 := Nat.mod_lt _ (by norm_num)
  have ht := ps_bits_lt pgn da
  have hp : pri % 2 ^ 3 < 2 ^ 5 := lt_of_lt_of_le (Nat.mod_lt _ (by norm_num)) (by norm_num)
  have e0 : (pgn % 2 ^ 18) ||| (da % 2 ^ 8) = ps_bits pgn da := by simp [ps_bits]
  have eA : (2147483648 : Nat) ||| ((pri % 2 ^ 3) <<< 26) = (32 + pri % 2 ^ 3) <<< 26 := by
    have h32 : (2147483648 : Nat) = (1 <<< 5) <<< 26 := by decide
    rw [h32, or_shiftLeft, shiftLeft_or_low 1 _ 5 hp]
    norm_num
  rw [Nat.shiftLeft_zero, eA, Nat.or_assoc ((32 + pri % 2 ^ 3) <<< 26), or_shiftLeft, e0,
    Nat.or_assoc, shiftLeft_or_low _ _ 8 hs]
  generalize ps_bits pgn da = t at ht ⊢
  have hL : t * 2 ^ 8 + sa % 2 ^ 8 < 2 ^ 26 := by norm_num at hs ⊢; omega
  rw [shiftLeft_or_low _ _ 26 hL]
  norm_num
  omega

theorem ID_FIELD_PRI (x : Nat) : ID_FIELD x Field.PRI = x / 67108864 % 8 := by
  simp only [ID_FIELD, Field.pos, Field.mask, ISOBUS_PRI_POS, ISOBUS_PRI_MASK]
  rw [and_mask_mod _ 3 7 (by decide), Nat.shiftRight_eq_div_pow]; norm_num

theorem ID_FIELD_PF (x : Nat) : ID_FIELD x Field.PF = x / 65536 % 256 := by
  simp only [ID_FIELD, Field.pos, Field.mask, ISOBUS_PF_POS, ISOBUS_PF_MASK]
  rw [and_mask_mod _ 8 0xFF (by decide), Nat.shiftRight_eq_div_pow]; norm_num

theorem ID_FIELD_PS (x : Nat) : ID_FIELD x Field.PS = x / 256 % 256 := by
  simp only [ID_FIELD, Field.pos, Field.mask, ISOBUS_PS_POS, ISOBUS_PS_MASK]
  rw [and_mask_mod _ 8 0xFF (by decide), Nat.shiftRight_eq_div_pow]; norm_num

theorem ID_FIELD_SA (x : Nat) : ID_FIELD x Field.SA = x % 256 := by
  simp only [ID_FIELD, Field.pos, Field.mask, ISOBUS_SA_POS, ISOBUS_SA_MASK]
  rw [and_mask_mod _ 8 0xFF (by decide), Nat.shiftRight_eq_div_pow]; norm_num

theorem ID_FIELD_EDP (x : Nat) : ID_FIELD x Field.EDP = x / 33554432 % 2 := by
  simp only [ID_FIELD, Field.pos, Field.mask, ISOBUS_EDP_POS, ISOBUS_EDP_MASK]
  rw [and_mask_mod _ 1 1 (by decide), Nat.shiftRight_eq_div_pow]; norm_num

theorem ID_FIELD_DP (x : Nat) : ID_FIELD x Field.DP = x / 16777216 % 2 := by
  simp only [ID_FIELD, Field.pos, Field.mask, ISOBUS_DP_POS, ISOBUS_DP_MASK]
  rw [and_mask_mod _ 1 1 (by decide), Nat.shiftRight_eq_div_pow]; norm_num

theorem ID_PDU_FMT_eq (x : Nat) : ID_PDU_FMT x = if x / 65536 % 256 < 240 then 1 else 2 := by
  simp only [ID_PDU_FMT, ID_FIELD_PF, ISOBUS_MIN_PDU2]

theorem PGN_PDU_FMT_eq (pgn : Nat) :
    PGN_PDU_FMT pgn = if pgn / 256 % 256 < 240 then 1 else 2 := by
  simp only [PGN_PDU_FMT, ID_PDU_FMT_eq, ISOBUS_PGN_POS, Nat.shiftLeft_eq]
  have : pgn * 2 ^ 8 / 65536 = pgn / 256 := by omega
  rw [this]

theorem get_pgn_eq (x : Nat) :
    get_pgn x = if x / 65536 % 256 < 240 then (x / 65536 % 1024) * 256 else x / 256 % 262144 := by
  simp only [get_pgn, ID_PDU_FMT_eq, ISOBUS_PGN_POS, ISOBUS_PGN1_MASK, ISOBUS_PGN_MASK]
  rw [and_pgn1_mask, and_mask_mod _ 18 0x03FFFF (by decide), Nat.shiftRight_eq_div_pow]
  have : x / 2 ^ 8 / 256 = x / 65536 := by omega
  rw [this]
  by_cases h : x / 65536 % 256 < 240
  · simp [h]
  · simp [h]

theorem or_byte_eq (pgn da : Nat) (hp : pgn < 262144) (hd : da < 256) :
    ps_bits pgn da = pgn ||| da := by
  simp [ps_bits, Nat.mod_eq_of_lt hp, Nat.mod_eq_of_lt hd]

/-! ## The CAN identifier codec (C1, C2) -/

/-- C1 (counterexample): for the PDU2 PGN 0x00F004 the macro `CANID` does not ignore the
destination 0x55: the identifier differs from the one made with destination
0, its PS field is 0x55 and not 0x04, and `get_pgn` gives 0x00F055. -/
theorem C1_counterexample :
    PGN_PDU_FMT 0x00F004 = 2 ∧
    CANID 6 0x00F004 0x55 0x81 ≠ CANID 6 0x00F004 0 0x81 ∧
    ID_FIELD (CANID 6 0x00F004 0x55 0x81) Field.PS = 0x55 ∧
    ID_FIELD (CANID 6 0x00F004 0x55 0x81) Field.PS ≠ 0x04 ∧
    get_pgn (CANID 6 0x00F004 0x55 0x81) ≠ 0x00F004 := by
  decide

/-- C1 (amended): for a PDU2 PGN (18 bits, PF byte at least 240) the macro `CANID`
or-s the destination byte into the PS bits: the PS field of
`CANID(p, pgn, da, sa)` is the low byte of `pgn` or-ed with `da`, and
`get_pgn` gives `pgn | da`.  With `da = 0`, which is what `isobus_sendmsg`
passes for a PDU2 PGN, the PS field is the low byte of `pgn` and `get_pgn`
gives back `pgn`. -/
theorem C1_pdu2_canid_ors_da (p pgn da sa : Nat) (hpgn : pgn < 262144)
    (hpf : 240 ≤ pgn / 256 % 256) (hda : da < 256) :
    ID_FIELD (CANID p pgn da sa) Field.PS = (pgn % 256) ||| da ∧
    get_pgn (CANID p pgn da sa) = pgn ||| da ∧
    ID_FIELD (CANID p pgn 0 sa) Field.PS = pgn % 256 ∧
    get_pgn (CANID p pgn 0 sa) = pgn := by
  have hdiv := ps_bits_div pgn da
  have hmod := ps_bits_mod pgn da
  have hlt := ps_bits_lt pgn da
  have hor := or_byte_eq pgn da hpgn hda
  have hz := ps_bits_zero pgn
  rw [Nat.mod_eq_of_lt hda] at hmod
  simp only [ID_FIELD_PS, get_pgn_eq, CANID_eq]
  rw [← hor, ← hmod, hz]
  generalize ps_bits pgn da = t at hdiv hmod hlt hor
  have h1 : ¬ ((2147483648 + p % 8 * 67108864 + t * 256 + sa % 256) / 65536 % 256 < 240) := by
    omega
  have h2 : ¬ ((2147483648 + p % 8 * 67108864 + pgn % 262144 * 256 + sa % 256) / 65536 % 256
      < 240) := by omega
  rw [if_neg h1, if_neg h2]
  omega

/-- C1 (witness): the amended statement at PGN 0x00F004, destination 0x55. -/
theorem C1_pdu2_canid_ors_da_witness :
    (0x00F004 < 262144 ∧ 240 ≤ 0x00F004 / 256 % 256 ∧ 0x55 < 256) ∧
    (ID_FIELD (CANID 6 0x00F004 0x55 0x81) Field.PS = (0x00F004 % 256) ||| 0x55 ∧
     get_pgn (CANID 6 0x00F004 0x55 0x81) = 0x00F004 ||| 0x55 ∧
     ID_FIELD (CANID 6 0x00F004 0 0x81) Field.PS = 0x00F004 % 256 ∧
     get_pgn (CANID 6 0x00F004 0 0x81) = 0x00F004) :=
  ⟨by decide, C1_pdu2_canid_ors_da 6 0x00F004 0x55 0x81 (by decide) (by decide) (by decide)⟩

/-- C2: PDU1 encode/decode round trip.  For a priority in 0..7, an 18-bit PGN
whose PF byte is below 240, any destination and an 8-bit source address, `CANID(p, pgn, da, sa)` has the
extended-frame flag set, `get_pgn` of it is `pgn & 0x3FF00`, its PRI field is
`p` and its SA field is `sa`. -/
theorem C2_pdu1_roundtrip (p pgn da sa : Nat) (hp : p ≤ 7) (hpgn : pgn < 262144)
    (hpf : pgn / 256 % 256 < 240) (hsa : sa < 256) :
    CANID p pgn da sa &&& CAN_EFF_FLAG = CAN_EFF_FLAG ∧
    get_pgn (CANID p pgn da sa) = pgn &&& ISOBUS_PGN1_MASK ∧
    ID_FIELD (CANID p pgn da sa) Field.PRI = p ∧
    ID_FIELD (CANID p pgn da sa) Field.SA = sa := by
  have hdiv := ps_bits_div pgn da
  have hlt := ps_bits_lt pgn da
  have hflag : CAN_EFF_FLAG = 2 ^ 31 := by decide
  simp only [ID_FIELD_PRI, ID_FIELD_SA, get_pgn_eq, CANID_eq, ISOBUS_PGN1_MASK, and_pgn1_mask]
  rw [hflag, and_bit]
  generalize ps_bits pgn da = t at hdiv hlt
  have h1 : (2147483648 + p % 8 * 67108864 + t * 256 + sa % 256) / 65536 % 256 < 240 := by
    omega
  rw [if_pos h1]
  norm_num
  omega

/-- C2 (witness): scenario S1, `CANID(6, 0x00EE00, 0x80, 0x81)`. -/
theorem C2_pdu1_roundtrip_witness :
    (6 ≤ 7 ∧ 0x00EE00 < 262144 ∧ 0x00EE00 / 256 % 256 < 240 ∧ 0x81 < 256) ∧
    (CANID 6 0x00EE00 0x80 0x81 &&& CAN_EFF_FLAG = CAN_EFF_FLAG ∧
     get_pgn (CANID 6 0x00EE00 0x80 0x81) = 0x00EE00 &&& ISOBUS_PGN1_MASK ∧
     ID_FIELD (CANID 6 0x00EE00 0x80 0x81) Field.PRI = 6 ∧
     ID_FIELD (CANID 6 0x00EE00 0x80 0x81) Field.SA = 0x81) ∧
    CANID 6 0x00EE00 0x80 0x81 = 0x18EE8081 ||| CAN_EFF_FLAG ∧
    get_pgn (CANID 6 0x00EE00 0x80 0x81) = 0x00EE00 :=
  ⟨by decide,
   C2_pdu1_roundtrip 6 0x00EE00 0x80 0x81 (by decide) (by decide) (by decide) (by decide),
   by decide, by decide⟩

/-! ## Sending: what reaches `can_send` -/

theorem alloc_skb_tx (k : kernel) : (alloc_skb k).2.tx = k.tx := by
  unfold alloc_skb; split <;> rfl

theorem can_send_tx (k : kernel) (skb : tx_skb) : (can_send k skb).2.tx = k.tx ++ [skb] := by
  unfold can_send; split <;> rfl

theorem match_can_send_tx (k1 : kernel) (skb : tx_skb) (size : Int) :
    (match can_send k1 skb with
      | (err, k2) => if err ≠ 0 then (err, k2) else (size, k2)).2.tx = k1.tx ++ [skb] := by
  rw [← can_send_tx]
  rcases can_send k1 skb with ⟨err, k2⟩
  simp only
  split <;> rfl

theorem sendmsg_tx (a : abi) (ro : isobus_sock) (k : kernel) (msg : msghdr) (size : Nat) :
    (isobus_sendmsg a ro k msg size).2.tx = k.tx ∨
    ∃ ifindex da dev, sendmsg_dest a ro msg = .ok (ifindex, da) ∧
      (isobus_sendmsg a ro k msg size).2.tx = k.tx ++
        [{ sk := ro.id, ifindex := dev,
           cf := { can_id := CANID (to_u32 ( ISOBUS_PRIO ro.sk_priority)) msg.mesg.pgn da ro.s_addr,
                   can_dlc := msg.mesg.dlen, data := msg.mesg.data.take msg.mesg.dlen },
           loop := ro.loopback }] := by
  unfold isobus_sendmsg
  split
  · exact Or.inl rfl
  · split
    · exact Or.inl rfl
    · rename_i ifindex da hdest
      split
      · exact Or.inl rfl
      · split
        · exact Or.inl rfl
        · rename_i dev hdev
          have ha := alloc_skb_tx k
          split
          rename_i e k1 hal
          rw [hal] at ha
          split
          · exact Or.inl ha
          · right
            refine ⟨ifindex, da, dev.ifindex, hdest, ?_⟩
            simp only at ha ⊢
            rw [match_can_send_tx, ha]

theorem prio_roundtrip (p : Int) (h0 : 0 ≤ p) (h7 : p ≤ 7) :
    (to_u32 ( ISOBUS_PRIO ((to_u32 ( SK_PRIO p) : Nat) : Int)) : Int) = p := by
  interval_cases p <;> decide

theorem CANID_PRI (q pgn da sa : Nat) : ID_FIELD (CANID q pgn da sa) Field.PRI = q % 8 := by
  have hlt := ps_bits_lt pgn da
  rw [ID_FIELD_PRI, CANID_eq]
  omega

theorem CANID_PS (q pgn da sa : Nat) :
    ID_FIELD (CANID q pgn da sa) Field.PS = ps_bits pgn da % 256 := by
  have hlt := ps_bits_lt pgn da
  rw [ID_FIELD_PS, CANID_eq]
  omega

theorem CANID_SA (q pgn da sa : Nat) : ID_FIELD (CANID q pgn da sa) Field.SA = sa % 256 := by
  rw [ID_FIELD_SA, CANID_eq]
  omega

theorem sk_prio_val (p : Int) (h0 : 0 ≤ p) (h7 : p ≤ 7) :
    to_u32 ( SK_PRIO p) = (7 - p).toNat := by
  interval_cases p <;> decide

/-! ## Socket options: priority (C3, C9) -/

/-- C3 (counterexample): after `SEND_PRIO` is set to 2 the socket stores priority 5, and
the frame `isobus_sendmsg` hands to `can_send` carries 2, not 7 - 2 = 5, in its
PRI field. -/
theorem C3_counterexample :
    (isobus_setsockopt ex_abi ex_sock ex_kernel 107 CAN_ISOBUS_SEND_PRIO (ex_int 2) 4).1 = 0 ∧
    (isobus_setsockopt ex_abi ex_sock ex_kernel 107 CAN_ISOBUS_SEND_PRIO
      (ex_int 2) 4).2.1.sk_priority = 5 ∧
    ((isobus_sendmsg ex_abi
        (isobus_setsockopt ex_abi ex_sock ex_kernel 107 CAN_ISOBUS_SEND_PRIO
          (ex_int 2) 4).2.1
        ex_kernel (ex_msg 0x00F004 none) 16).2.tx.map
      (fun s => ID_FIELD s.cf.can_id Field.PRI)) = [2] := by
  decide

/-- C3 (amended): the inversion is undone on the way to the wire.  Setting `SEND_PRIO`
to `p` with 0 <= p <= 7 succeeds and stores `7 - p` in `sk_priority`; every
frame a socket with that stored priority hands to `can_send` through
`isobus_sendmsg` carries `p` itself in the PRI field of its CAN id. -/
theorem C3_wire_priority_is_user_priority (a : abi) (ro : isobus_sock) (k : kernel)
    (optval : user_buf) (hrd : optval.readable = true) (h0 : 0 ≤ optval.as_int)
    (h7 : optval.as_int ≤ 7) :
    isobus_setsockopt a ro k a.SOL_CAN_ISOBUS CAN_ISOBUS_SEND_PRIO optval 4 =
      (0, { ro with sk_priority := (7 - optval.as_int).toNat }, k) ∧
    ∀ (ro1 : isobus_sock) (k1 : kernel) (msg : msghdr) (size : Nat),
      ro1.sk_priority = (7 - optval.as_int).toNat →
      (isobus_sendmsg a ro1 k1 msg size).2.tx = k1.tx ∨
      ∃ skb, (isobus_sendmsg a ro1 k1 msg size).2.tx = k1.tx ++ [skb] ∧
        (ID_FIELD skb.cf.can_id Field.PRI : Int) = optval.as_int := by
  constructor
  · have hnot : ¬ (optval.as_int < MIN_PRI ∨ optval.as_int > MAX_PRI) := by
      simp only [MIN_PRI, MAX_PRI]; omega
    simp [isobus_setsockopt, hrd, hnot, sk_prio_val _ h0 h7]
  · intro ro1 k1 msg size hpri
    rcases sendmsg_tx a ro1 k1 msg size with h | ⟨ifindex, da, dev, _, h⟩
    · exact Or.inl h
    · right
      refine ⟨_, h, ?_⟩
      simp only [CANID_PRI, hpri]
      have hr := prio_roundtrip optval.as_int h0 h7
      rw [sk_prio_val _ h0 h7] at hr
      generalize to_u32 ( ISOBUS_PRIO ((7 - optval.as_int).toNat : Nat)) = q at hr ⊢
      omega

/-- C3 (witness): priority 2 set on the example socket, which then sends one frame with PRI
field 2. -/
theorem C3_wire_priority_is_user_priority_witness :
    ((ex_int 2).readable = true ∧ 0 ≤ (ex_int 2).as_int ∧ (ex_int 2).as_int ≤ 7) ∧
    isobus_setsockopt ex_abi ex_sock ex_kernel ex_abi.SOL_CAN_ISOBUS
        CAN_ISOBUS_SEND_PRIO (ex_int 2) 4 =
      (0, { ex_sock with sk_priority := (7 - (ex_int 2).as_int).toNat }, ex_kernel) ∧
    ((isobus_sendmsg ex_abi { ex_sock with sk_priority := 5 } ex_kernel
        (ex_msg 0x00EE00 (some 0x20)) 16).2.tx.map
      (fun s => ID_FIELD s.cf.can_id Field.PRI)) = [2] :=
  ⟨by decide,
   (C3_wire_priority_is_user_priority ex_abi ex_sock ex_kernel (ex_int 2) (by decide)
     (by decide) (by decide)).1,
   by decide⟩

/-- C9 (counterexample): `SEND_PRIO` set to 8 returns `-EDOM` (-33), which is not
`-ERANGE` (-34). -/
theorem C9_counterexample :
    (isobus_setsockopt ex_abi ex_sock ex_kernel 107 CAN_ISOBUS_SEND_PRIO (ex_int 8) 4).1
      = -33 ∧
    (isobus_setsockopt ex_abi ex_sock ex_kernel 107 CAN_ISOBUS_SEND_PRIO (ex_int 8) 4).1
      ≠ -ERANGE := by
  decide

/-- C9 (amended): `SEND_PRIO` with an integer below 0 or above 7 returns the error
`EDOM` (not `ERANGE`) and leaves the socket, its stored priority included, and
the kernel state unchanged. -/
theorem C9_send_prio_out_of_range (a : abi) (ro : isobus_sock) (k : kernel)
    (optval : user_buf) (hrd : optval.readable = true)
    (hv : optval.as_int < 0 ∨ 7 < optval.as_int) :
    isobus_setsockopt a ro k a.SOL_CAN_ISOBUS CAN_ISOBUS_SEND_PRIO optval 4 =
      (-EDOM, ro, k) ∧
    (isobus_setsockopt a ro k a.SOL_CAN_ISOBUS CAN_ISOBUS_SEND_PRIO optval
      4).2.1.sk_priority = ro.sk_priority := by
  have hyes : optval.as_int < MIN_PRI ∨ optval.as_int > MAX_PRI := by
    simp only [MIN_PRI, MAX_PRI]; omega
  simp [isobus_setsockopt, hrd, hyes]

/-- C9 (witness): the values -1 and 8 on the example socket. -/
theorem C9_send_prio_out_of_range_witness :
    ((ex_int 8).readable = true ∧ ((ex_int 8).as_int < 0 ∨ 7 < (ex_int 8).as_int)) ∧
    isobus_setsockopt ex_abi ex_sock ex_kernel ex_abi.SOL_CAN_ISOBUS
        CAN_ISOBUS_SEND_PRIO (ex_int 8) 4 = (-EDOM, ex_sock, ex_kernel) ∧
    isobus_setsockopt ex_abi ex_sock ex_kernel ex_abi.SOL_CAN_ISOBUS
        CAN_ISOBUS_SEND_PRIO (ex_int (-1)) 4 = (-EDOM, ex_sock, ex_kernel) :=
  ⟨by decide,
   (C9_send_prio_out_of_range ex_abi ex_sock ex_kernel (ex_int 8) (by decide)
     (by decide)).1,
   by decide⟩

/-! ## User I/O (C7, C8) -/

/-- C7: user I/O is refused outside `ISOBUS_HAVE_ADDR`.  In every other state, and
for every message, destination, size and flag, `isobus_sendmsg` returns
`-EADDRINUSE` and leaves the kernel state (the frames handed to `can_send`
included) unchanged, and `isobus_recvmsg` returns `-EADDRINUSE`, delivers
nothing and leaves the socket (its receive queue included) unchanged. -/
theorem C7_io_refused_outside_have_addr (a : abi) (ro : isobus_sock) (k : kernel)
    (msg : msghdr) (size : Nat) (has_name iov_ok : Bool) (rsize flags : Nat) (empty_err : Int)
    (h : ro.state ≠ sock_state.ISOBUS_HAVE_ADDR) :
    isobus_sendmsg a ro k msg size = (-EADDRINUSE, k) ∧
    (isobus_recvmsg ro has_name iov_ok rsize flags empty_err).1.ret = -EADDRINUSE ∧
    (isobus_recvmsg ro has_name iov_ok rsize flags empty_err).1.mesg = none ∧
    (isobus_recvmsg ro has_name iov_ok rsize flags empty_err).2 = ro := by
  simp [isobus_sendmsg, isobus_recvmsg, h]

/-- C7 (witness): the example socket put into state `ISOBUS_LOST_ADDR`, with a datagram
queued and an invalid send size. -/
theorem C7_io_refused_outside_have_addr_witness :
    ({ ex_sock with state := sock_state.ISOBUS_LOST_ADDR } : isobus_sock).state ≠
      sock_state.ISOBUS_HAVE_ADDR ∧
    isobus_sendmsg ex_abi { ex_sock with state := sock_state.ISOBUS_LOST_ADDR } ex_kernel
      (ex_msg 0x00EE00 none) 3 = (-EADDRINUSE, ex_kernel) :=
  ⟨by decide,
   (C7_io_refused_outside_have_addr ex_abi { ex_sock with state := sock_state.ISOBUS_LOST_ADDR }
     ex_kernel (ex_msg 0x00EE00 none) 3 false false 0 0 0 (by decide)).1⟩

theorem sendmsg_dest_pdu2 (a : abi) (ro : isobus_sock) (msg : msghdr)
    (h2 : PGN_PDU_FMT msg.mesg.pgn = 2) (ifindex da : Nat)
    (h : sendmsg_dest a ro msg = .ok (ifindex, da)) : da = 0 := by
  unfold sendmsg_dest at h
  have h1 : ¬ (PGN_PDU_FMT msg.mesg.pgn = 1) := by rw [h2]; decide
  split at h
  · simp only [h1, if_false] at h
    split at h
    · split at h
      · cases h
      · split at h
        · cases h
        · cases h; rfl
    · cases h; rfl
  · simp only [h1, if_false] at h
    cases h; rfl

theorem pdu_fmt_two (pgn : Nat) (h : 240 ≤ pgn / 256 % 256) : PGN_PDU_FMT pgn = 2 := by
  rw [PGN_PDU_FMT_eq, if_neg (by omega)]

theorem pdu_fmt_one (pgn : Nat) (h : pgn / 256 % 256 < 240) : PGN_PDU_FMT pgn = 1 := by
  rw [PGN_PDU_FMT_eq, if_pos h]

/-- C8: destination handling on send, in state `ISOBUS_HAVE_ADDR`.  A message with
a PDU1 PGN (PF below 240) and no destination fails with `-EINVAL` and hands no
frame to `can_send`.  For a message with a PDU2 PGN (PF at least 240) the
result of `isobus_sendmsg`, the frame included, is the same whatever
destination address is supplied (and, on a socket with an interface, the same
as with none supplied); a frame handed to `can_send` has PS equal to the low
byte of the PGN and SA equal to `s_addr`; and when the size is right, the
device exists and the buffer is allocated, a frame is handed over. -/
theorem C8_send_destination (a : abi) (ro : isobus_sock) (k : kernel) (msg : msghdr)
    (size : Nat) (hst : ro.state = sock_state.ISOBUS_HAVE_ADDR) (hsa : ro.s_addr < 256) :
    (msg.mesg.pgn / 256 % 256 < 240 → msg.msg_name = none →
      isobus_sendmsg a ro k msg size = (-EINVAL, k)) ∧
    (240 ≤ msg.mesg.pgn / 256 % 256 →
      (∀ (addr : sockaddr_can) (d : Nat),
        isobus_sendmsg a ro k { msg with msg_name := some { addr with addr := d } } size =
        isobus_sendmsg a ro k { msg with msg_name := some { addr with addr := 0 } } size) ∧
      (ro.ifindex ≠ 0 → ∀ (addr : sockaddr_can),
        isobus_sendmsg a ro k { msg with msg_name := some addr } size =
        isobus_sendmsg a ro k { msg with msg_name := none } size) ∧
      ((isobus_sendmsg a ro k msg size).2.tx = k.tx ∨
        ∃ skb, (isobus_sendmsg a ro k msg size).2.tx = k.tx ++ [skb] ∧
          ID_FIELD skb.cf.can_id Field.PS = msg.mesg.pgn % 256 ∧
          ID_FIELD skb.cf.can_id Field.SA = ro.s_addr) ∧
      (ro.ifindex ≠ 0 → size = CAN_MTU → (dev_get_by_index k ro.ifindex).isSome →
        (alloc_skb k).1 = 0 →
        ∃ skb, (isobus_sendmsg a ro k msg size).2.tx = k.tx ++ [skb])) := by
  have hst2 : ¬ (ro.state ≠ sock_state.ISOBUS_HAVE_ADDR) := by simp [hst]
  refine ⟨?_, ?_⟩
  · intro hpf hnone
    have h1 := pdu_fmt_one _ hpf
    simp [isobus_sendmsg, hst2, sendmsg_dest, hnone, h1]
  · intro hpf
    have h2 := pdu_fmt_two _ hpf
    have h1 : ¬ (PGN_PDU_FMT msg.mesg.pgn = 1) := by rw [h2]; decide
    refine ⟨?_, ?_, ?_, ?_⟩
    · intro addr d
      simp only [isobus_sendmsg, sendmsg_dest, h1, if_false]
    · intro hif addr
      simp only [isobus_sendmsg, sendmsg_dest, h1, if_false, hif]
    · rcases sendmsg_tx a ro k msg size with h | ⟨ifindex, da, dev, hd, h⟩
      · exact Or.inl h
      · right
        have hda := sendmsg_dest_pdu2 a ro msg h2 ifindex da hd
        subst hda
        refine ⟨_, h, ?_, ?_⟩
        · simp only [CANID_PS, ps_bits_zero]
          omega
        · simp only [CANID_SA]
          omega
    · intro hif hsize hdev halloc
      rcases hk : dev_get_by_index k ro.ifindex with _ | dev
      · rw [hk] at hdev; cases hdev
      · have hd : sendmsg_dest a ro msg = .ok (ro.ifindex, 0) := by
          unfold sendmsg_dest
          split <;> simp [h1, hif]
        rcases hal : alloc_skb k with ⟨e, k1⟩
        rw [hal] at halloc
        simp only at halloc
        subst halloc
        have ha := alloc_skb_tx k
        rw [hal] at ha
        simp only at ha
        exact ⟨_, by
          simp only [isobus_sendmsg, hst2, if_false, hd, hsize, hk, hal, ne_eq,
            not_true_eq_false]
          rw [match_can_send_tx, ha]⟩

/-- C8 (witness): the example socket sending PGN 0x00F004 with destination 0x55: one frame,
with PS 0x04 and SA 0x80, the same as with destination 0. -/
theorem C8_send_destination_witness :
    (ex_sock.state = sock_state.ISOBUS_HAVE_ADDR ∧ ex_sock.s_addr < 256) ∧
    (isobus_sendmsg ex_abi ex_sock ex_kernel (ex_msg 0x00EE00 none) 16 = (-EINVAL, ex_kernel)) ∧
    ((isobus_sendmsg ex_abi ex_sock ex_kernel (ex_msg 0x00F004 (some 0x55)) 16).2.tx.map
      (fun s => (ID_FIELD s.cf.can_id Field.PS, ID_FIELD s.cf.can_id Field.SA)))
      = [(0x04, 0x80)] ∧
    isobus_sendmsg ex_abi ex_sock ex_kernel (ex_msg 0x00F004 (some 0x55)) 16 =
      isobus_sendmsg ex_abi ex_sock ex_kernel (ex_msg 0x00F004 (some 0)) 16 :=
  ⟨by decide,
   (C8_send_destination ex_abi ex_sock ex_kernel (ex_msg 0x00EE00 none) 16 (by decide)
     (by decide)).1 (by decide) (by decide),
   by decide, by decide⟩

/-! ## Filter translation (C4, C5, C6) -/

theorem CANID_inv (pgn da sa : Nat) :
    CANID 0 pgn da sa ||| CAN_INV_FILTER =
      2147483648 + 536870912 + ps_bits pgn da * 256 + sa % 256 := by
  have hlt := ps_bits_lt pgn da
  have h := or_inv_flag (CANID 0 pgn da sa) (by rw [CANID_eq]; omega)
  rw [CAN_INV_FILTER, h, CANID_eq]
  omega

theorem filter_conv_one_none (fi : isobus_filter) :
    filter_conv_one fi = none ↔ (240 ≤ fi.pgn / 256 % 256 ∧ fi.daddr_mask ≠ 0) := by
  unfold filter_conv_one
  rw [PGN_PDU_FMT_eq]
  by_cases hpf : fi.pgn / 256 % 256 < 240
  · simp [hpf]
  · by_cases hd : fi.daddr_mask = 0
    · simp [hpf, hd]
    · simp [hpf, hd]; omega

theorem filter_conv_one_some (fi : isobus_filter) (f : can_filter)
    (h : filter_conv_one fi = some f) :
    f.can_id = 2147483648 + (if fi.inverted then 1 else 0) * 536870912 +
        ps_bits fi.pgn fi.daddr * 256 + fi.saddr % 256 ∧
    f.can_mask = CANID 0
        (if fi.pgn / 256 % 256 < 240 then fi.pgn_mask &&& ISOBUS_PGN1_MASK else fi.pgn_mask)
        fi.daddr_mask fi.saddr_mask := by
  unfold filter_conv_one at h
  rw [PGN_PDU_FMT_eq] at h
  by_cases hpf : fi.pgn / 256 % 256 < 240
  · simp only [hpf, if_true, if_false, Nat.reduceEqDiff, Option.some.injEq] at h
    subst h
    cases hi : fi.inverted
    · simp [CANID_eq, hpf]
    · simp [CANID_inv, hpf]
  · by_cases hd : fi.daddr_mask = 0
    · simp only [hpf, hd, if_true, if_false, ne_eq, not_true_eq_false, Option.some.injEq] at h
      subst h
      cases hi : fi.inverted
      · simp [CANID_eq, hd, hpf]
      · simp [CANID_inv, hd, hpf]
    · simp [hpf, hd] at h

theorem filter_conv_err (fs : List isobus_filter) :
    ((isobus_filter_conv fs).1 = -EINVAL ↔
      ∃ f ∈ fs, 240 ≤ f.pgn / 256 % 256 ∧ f.daddr_mask ≠ 0) ∧
    ((¬ ∃ f ∈ fs, 240 ≤ f.pgn / 256 % 256 ∧ f.daddr_mask ≠ 0) →
      (isobus_filter_conv fs).1 = 0) := by
  induction fs with
  | nil => simp [isobus_filter_conv, EINVAL]
  | cons fi rest ih =>
    unfold isobus_filter_conv
    cases hc : filter_conv_one fi with
    | none =>
      have hb := (filter_conv_one_none fi).1 hc
      simp only [List.mem_cons, exists_eq_or_imp, true_iff, true_and]
      exact ⟨Or.inl hb, fun hn => absurd (Or.inl hb) hn⟩
    | some f =>
      have hb : ¬ (240 ≤ fi.pgn / 256 % 256 ∧ fi.daddr_mask ≠ 0) := by
        intro hb
        rw [(filter_conv_one_none fi).2 hb] at hc
        cases hc
      simp only [List.mem_cons, exists_eq_or_imp, hb, false_or]
      exact ih

theorem filter_conv_ok (fs : List isobus_filter) (cs : List can_filter)
    (h : isobus_filter_conv fs = (0, cs)) :
    List.Forall₂ (fun fi f => filter_conv_one fi = some f) fs cs := by
  induction fs generalizing cs with
  | nil =>
    simp only [isobus_filter_conv, Prod.mk.injEq, true_and] at h
    subst h
    exact List.Forall₂.nil
  | cons fi rest ih =>
    unfold isobus_filter_conv at h
    cases hc : filter_conv_one fi with
    | none => rw [hc] at h; simp [EINVAL] at h
    | some f =>
      rw [hc] at h
      simp only [Prod.mk.injEq] at h
      obtain ⟨h1, h2⟩ := h
      subst h2
      exact List.Forall₂.cons hc (ih _ (Prod.ext h1 rfl))

theorem alloc_skb_rx (k : kernel) : (alloc_skb k).2.rx = k.rx := by
  unfold alloc_skb; split <;> rfl

theorem memdup_user_rx (k : kernel) (buf : user_buf) : (memdup_user k buf).2.rx = k.rx := by
  unfold memdup_user
  have h := alloc_skb_rx k
  generalize alloc_skb k = r at h ⊢
  rcases r with ⟨e, k1⟩
  simp only at h ⊢
  split_ifs <;> exact h

theorem setsockopt_filter_copy_rx (k : kernel) (optval : user_buf) (count : Nat) :
    (setsockopt_filter_copy k optval count).2.2.rx = k.rx := by
  unfold setsockopt_filter_copy
  have h := memdup_user_rx k optval
  generalize memdup_user k optval = r at h ⊢
  rcases r with ⟨e, k1⟩
  simp only at h ⊢
  split_ifs <;> first | exact h | rfl

theorem setsockopt_filter_copy_err (k : kernel) (optval : user_buf) (count : Nat)
    (hc : 1 ≤ count) (hbad : (isobus_filter_conv (optval.as_filters.take count)).1 ≠ 0) :
    (setsockopt_filter_copy k optval count).1 ≠ 0 := by
  unfold setsockopt_filter_copy
  by_cases h1 : count > 1
  · simp only [h1, if_true]
    rcases memdup_user k optval with ⟨e, k1⟩
    simp only
    split_ifs with he
    · exact he
    · exact hbad
  · have h2 : count = 1 := by omega
    subst h2
    simp only [h1, if_false, if_true]
    split_ifs with hr
    · exact hbad
    · simp [EFAULT]

theorem setsockopt_filter_rejected (a : abi) (ro : isobus_sock) (k : kernel)
    (optval : user_buf) (hsz : 0 < a.sizeof_isobus_filter)
    (hbad : ∃ f ∈ optval.as_filters, 240 ≤ f.pgn / 256 % 256 ∧ f.daddr_mask ≠ 0) :
    (setsockopt_filter a ro k optval (optval.as_filters.length * a.sizeof_isobus_filter)).1 ≠ 0 ∧
    (setsockopt_filter a ro k optval (optval.as_filters.length * a.sizeof_isobus_filter)).2.1
      = ro ∧
    (setsockopt_filter a ro k optval (optval.as_filters.length * a.sizeof_isobus_filter)).2.2.rx
      = k.rx := by
  have hlen : 1 ≤ optval.as_filters.length := by
    obtain ⟨f, hf, _⟩ := hbad
    exact List.length_pos_of_mem hf
  have herr : (isobus_filter_conv (optval.as_filters.take optval.as_filters.length)).1 ≠ 0 := by
    rw [List.take_length, (filter_conv_err optval.as_filters).1.2 hbad]
    decide
  have h1 := setsockopt_filter_copy_rx k optval optval.as_filters.length
  have h2 := setsockopt_filter_copy_err k optval optval.as_filters.length hlen herr
  unfold setsockopt_filter
  rw [Nat.mul_mod_left, Nat.mul_div_cancel _ hsz]
  simp only [ne_eq, not_true_eq_false, if_false]
  generalize setsockopt_filter_copy k optval optval.as_filters.length = r at h1 h2 ⊢
  rcases r with ⟨err, filter, k1⟩
  simp only at h1 h2 ⊢
  simp only [h2, not_false_eq_true, if_true, ne_eq]
  exact ⟨trivial, trivial, h1⟩

/-- C4: filter rejection.  For every list of filters `isobus_filter_conv` returns
`-EINVAL` if and only if some entry has a PDU2 PGN (PF byte at least 240)
together with a non-zero `daddr_mask`, and returns 0 otherwise.  When
`isobus_setsockopt` is given such a list as `CAN_ISOBUS_FILTER`, it returns an
error and leaves the socket (its filter list and count included) and the
receive list of the CAN core unchanged. -/
theorem C4_filter_rejection (fs : List isobus_filter) :
    ((isobus_filter_conv fs).1 = -EINVAL ↔
      ∃ f ∈ fs, 240 ≤ f.pgn / 256 % 256 ∧ f.daddr_mask ≠ 0) ∧
    ((¬ ∃ f ∈ fs, 240 ≤ f.pgn / 256 % 256 ∧ f.daddr_mask ≠ 0) →
      (isobus_filter_conv fs).1 = 0) ∧
    ((∃ f ∈ fs, 240 ≤ f.pgn / 256 % 256 ∧ f.daddr_mask ≠ 0) →
      ∀ (a : abi) (ro : isobus_sock) (k : kernel) (optval : user_buf),
        0 < a.sizeof_isobus_filter → optval.as_filters = fs →
        (isobus_setsockopt a ro k a.SOL_CAN_ISOBUS CAN_ISOBUS_FILTER optval
          (fs.length * a.sizeof_isobus_filter)).1 ≠ 0 ∧
        (isobus_setsockopt a ro k a.SOL_CAN_ISOBUS CAN_ISOBUS_FILTER optval
          (fs.length * a.sizeof_isobus_filter)).2.1 = ro ∧
        (isobus_setsockopt a ro k a.SOL_CAN_ISOBUS CAN_ISOBUS_FILTER optval
          (fs.length * a.sizeof_isobus_filter)).2.2.rx = k.rx) := by
  refine ⟨(filter_conv_err fs).1, (filter_conv_err fs).2, ?_⟩
  intro hbad a ro k optval hsz hfs
  subst hfs
  have h := setsockopt_filter_rejected a ro k optval hsz hbad
  simpa [isobus_setsockopt] using h

/-- C4 (witness): a list whose second entry has the PDU2 PGN 0x00F004 and `daddr_mask` 0xFF,
set on the example socket: `-EINVAL`, socket unchanged. -/
theorem C4_filter_rejection_witness :
    (∃ f ∈ [({ pgn := 0x00EE00, pgn_mask := 0x3FF00, daddr := 0, daddr_mask := 0, saddr := 0,
               saddr_mask := 0, inverted := false } : isobus_filter),
            { pgn := 0x00F004, pgn_mask := 0x3FFFF, daddr := 0, daddr_mask := 0xFF, saddr := 0,
              saddr_mask := 0, inverted := false }],
      240 ≤ f.pgn / 256 % 256 ∧ f.daddr_mask ≠ 0) ∧
    (isobus_filter_conv
      [({ pgn := 0x00EE00, pgn_mask := 0x3FF00, daddr := 0, daddr_mask := 0, saddr := 0,
          saddr_mask := 0, inverted := false } : isobus_filter),
       { pgn := 0x00F004, pgn_mask := 0x3FFFF, daddr := 0, daddr_mask := 0xFF, saddr := 0,
         saddr_mask := 0, inverted := false }]).1 = -EINVAL ∧
    isobus_setsockopt ex_abi ex_sock ex_kernel 107 CAN_ISOBUS_FILTER
      (ex_filters
        [{ pgn := 0x00EE00, pgn_mask := 0x3FF00, daddr := 0, daddr_mask := 0, saddr := 0,
           saddr_mask := 0, inverted := false },
         { pgn := 0x00F004, pgn_mask := 0x3FFFF, daddr := 0, daddr_mask := 0xFF, saddr := 0,
           saddr_mask := 0, inverted := false }]) 32 = (-EINVAL, ex_sock, ex_kernel) :=
  ⟨by decide,
   (C4_filter_rejection _).1.2 (by decide),
   by decide⟩

theorem pgn1_mask_low (x : Nat) : (x &&& ISOBUS_PGN1_MASK) % 256 = 0 := by
  rw [ISOBUS_PGN1_MASK, and_pgn1_mask]; omega

/-- C5 (counterexample): the accepted PDU2 filter with PGN 0x00F004 and `pgn_mask` 0x3FFFF
gets a `can_mask` whose PS byte is 0xFF, not 0, and which is not
`CANID(0, pgn_mask & 0x3FF00, 0, 0)`. -/
theorem C5_counterexample :
    isobus_filter_conv
      [{ pgn := 0x00F004, pgn_mask := 0x3FFFF, daddr := 0, daddr_mask := 0, saddr := 0,
         saddr_mask := 0, inverted := false }] =
      (0, [{ can_id := CANID 0 0x00F004 0 0, can_mask := CANID 0 0x3FFFF 0 0 }]) ∧
    ID_FIELD (CANID 0 0x3FFFF 0 0) Field.PS = 0xFF ∧
    CANID 0 0x3FFFF 0 0 ≠ CANID 0 (0x3FFFF &&& 0x3FF00) 0 0 := by
  decide

/-- C5 (amended): the PS bits of `pgn_mask` are cleared for PDU1 filters, not for PDU2
filters.  For every list `isobus_filter_conv` accepts, entry by entry: a
filter whose PGN is PDU2 (PF byte at least 240) has `daddr_mask = 0` and its
`pgn_mask` is encoded as it is, `can_mask = CANID(0, pgn_mask, daddr_mask,
saddr_mask)`, so the PS byte of `can_mask` is the low byte of `pgn_mask`; a
filter whose PGN is PDU1 gets `can_mask = CANID(0, pgn_mask & 0x3FF00,
daddr_mask, saddr_mask)`, whose PS byte is `daddr_mask`. -/
theorem C5_filter_mask (fs : List isobus_filter) (cs : List can_filter)
    (h : isobus_filter_conv fs = (0, cs)) :
    List.Forall₂ (fun (fi : isobus_filter) (f : can_filter) =>
      (240 ≤ fi.pgn / 256 % 256 →
        fi.daddr_mask = 0 ∧
        f.can_mask = CANID 0 fi.pgn_mask fi.daddr_mask fi.saddr_mask ∧
        ID_FIELD f.can_mask Field.PS = fi.pgn_mask % 256) ∧
      (fi.pgn / 256 % 256 < 240 →
        f.can_mask = CANID 0 (fi.pgn_mask &&& ISOBUS_PGN1_MASK) fi.daddr_mask fi.saddr_mask ∧
        ID_FIELD f.can_mask Field.PS = fi.daddr_mask % 256)) fs cs := by
  refine List.Forall₂.imp ?_ (filter_conv_ok fs cs h)
  intro fi f hone
  have hm := (filter_conv_one_some fi f hone).2
  constructor
  · intro hpf
    have hd : fi.daddr_mask = 0 := by
      by_contra hd
      rw [(filter_conv_one_none fi).2 ⟨hpf, hd⟩] at hone
      cases hone
    rw [if_neg (by omega)] at hm
    refine ⟨hd, hm, ?_⟩
    rw [hm, CANID_PS, hd, ps_bits_zero]
    omega
  · intro hpf
    rw [if_pos hpf] at hm
    refine ⟨hm, ?_⟩
    have hlow := pgn1_mask_low fi.pgn_mask
    have h2 := ps_bits_mod (fi.pgn_mask &&& ISOBUS_PGN1_MASK) fi.daddr_mask
    rw [hlow, Nat.zero_or] at h2
    rw [hm, CANID_PS, h2]

/-- C5 (witness): a PDU2 and a PDU1 filter, both with `pgn_mask` 0x3FFFF. -/
theorem C5_filter_mask_witness :
    isobus_filter_conv [ex_filter_pdu2, ex_filter_pdu1] =
      (0, [{ can_id := CANID 0 0x00F004 0 0, can_mask := CANID 0 0x3FFFF 0 0xFF },
           { can_id := CANID 0 0x00EE00 0x80 0 ||| CAN_INV_FILTER,
             can_mask := CANID 0 0x3FF00 0xFF 0 }]) ∧
    List.Forall₂ (fun (fi : isobus_filter) (f : can_filter) =>
      (240 ≤ fi.pgn / 256 % 256 →
        fi.daddr_mask = 0 ∧
        f.can_mask = CANID 0 fi.pgn_mask fi.daddr_mask fi.saddr_mask ∧
        ID_FIELD f.can_mask Field.PS = fi.pgn_mask % 256) ∧
      (fi.pgn / 256 % 256 < 240 →
        f.can_mask = CANID 0 (fi.pgn_mask &&& ISOBUS_PGN1_MASK) fi.daddr_mask fi.saddr_mask ∧
        ID_FIELD f.can_mask Field.PS = fi.daddr_mask % 256))
      [ex_filter_pdu2, ex_filter_pdu1]
      [{ can_id := CANID 0 0x00F004 0 0, can_mask := CANID 0 0x3FFFF 0 0xFF },
       { can_id := CANID 0 0x00EE00 0x80 0 ||| CAN_INV_FILTER,
         can_mask := CANID 0 0x3FF00 0xFF 0 }] :=
  ⟨by decide,
   C5_filter_mask [ex_filter_pdu2, ex_filter_pdu1]
     [{ can_id := CANID 0 0x00F004 0 0, can_mask := CANID 0 0x3FFFF 0 0xFF },
      { can_id := CANID 0 0x00EE00 0x80 0 ||| CAN_INV_FILTER,
        can_mask := CANID 0 0x3FF00 0xFF 0 }] (by decide)⟩

theorem form_fields (b t s : Nat) (hb : b ≤ 1) (ht : t < 262144) (hs : s < 256) :
    get_pgn (2147483648 + b * 536870912 + t * 256 + s) =
      (if t / 256 % 256 < 240 then t / 256 * 256 else t) ∧
    ID_FIELD (2147483648 + b * 536870912 + t * 256 + s) Field.PS = t % 256 ∧
    ID_FIELD (2147483648 + b * 536870912 + t * 256 + s) Field.SA = s ∧
    ((2147483648 + b * 536870912 + t * 256 + s) &&& CAN_INV_FILTER ≠ 0 ↔ b = 1) := by
  have h29 : CAN_INV_FILTER = 2 ^ 29 := by decide
  rw [get_pgn_eq, ID_FIELD_PS, ID_FIELD_SA, h29, and_bit]
  norm_num
  refine ⟨?_, ?_, ?_, ?_⟩
  · split_ifs <;> omega
  · omega
  · omega
  · omega

theorem setsockopt_filter_copy_ok (k : kernel) (optval : user_buf)
    (h : (setsockopt_filter_copy k optval optval.as_filters.length).1 = 0) :
    isobus_filter_conv optval.as_filters =
      (0, (setsockopt_filter_copy k optval optval.as_filters.length).2.1) := by
  unfold setsockopt_filter_copy at h ⊢
  by_cases h1 : optval.as_filters.length > 1
  · simp only [h1, if_true, List.take_length] at h ⊢
    generalize memdup_user k optval = r at h ⊢
    rcases r with ⟨e, k1⟩
    simp only at h ⊢
    split_ifs at h ⊢ with he
    · exact absurd h he
    · exact Prod.ext h rfl
  · by_cases h2 : optval.as_filters.length = 1
    · have ht : optval.as_filters.take 1 = optval.as_filters := by
        rw [← h2, List.take_length]
      simp only [h2, gt_iff_lt, lt_self_iff_false, if_false, if_true, ht] at h ⊢
      split_ifs at h ⊢ with hr
      · exact Prod.ext h rfl
      · simp [EFAULT] at h
    · have h0 : optval.as_filters = [] := by
        apply List.eq_nil_of_length_eq_zero; omega
      simp [h0, isobus_filter_conv]

theorem setsockopt_filter_ok (a : abi) (ro : isobus_sock) (k : kernel) (optval : user_buf)
    (hsz : 0 < a.sizeof_isobus_filter) (ro1 : isobus_sock) (k1 : kernel)
    (h : setsockopt_filter a ro k optval (optval.as_filters.length * a.sizeof_isobus_filter)
      = (0, ro1, k1)) :
    isobus_filter_conv optval.as_filters = (0, ro1.filter) ∧
    ro1.count = optval.as_filters.length := by
  have hc := setsockopt_filter_copy_ok k optval
  unfold setsockopt_filter at h
  rw [Nat.mul_mod_left, Nat.mul_div_cancel _ hsz] at h
  simp only [ne_eq, not_true_eq_false, if_false] at h
  generalize setsockopt_filter_copy k optval optval.as_filters.length = r at h hc
  rcases r with ⟨err, filter, k2⟩
  simp only at h hc
  by_cases he : err = 0
  · have hc2 := hc he
    simp only [he, not_true_eq_false, if_false] at h
    split_ifs at h <;> simp only [Prod.mk.injEq] at h <;>
      first
      | exact absurd h.1 (by assumption)
      | (rw [← h.2.1]; exact ⟨hc2, rfl⟩)
  · simp only [he, not_false_eq_true, if_true] at h
    exact absurd (congrArg Prod.fst h) he

theorem getsockopt_filter_val (a : abi) (ro : isobus_sock) (len : Int)
    (hcount : ro.count = ro.filter.length)
    (hlen : ((ro.count * a.sizeof_isobus_filter : Nat) : Int) ≤ len) :
    isobus_getsockopt a ro a.SOL_CAN_ISOBUS CAN_ISOBUS_FILTER len true true =
      { ret := 0, optlen := some ((ro.count * a.sizeof_isobus_filter : Nat) : Int),
        optval := if ro.count = 0 then optval_out.nothing
                  else optval_out.filters (isobus_filter_unconv ro.filter).2 } := by
  have hlen0 : ¬ (len < 0) := by omega
  unfold isobus_getsockopt
  simp only [ne_eq, not_true_eq_false, if_false, Bool.not_eq_true, hlen0]
  by_cases hz : ro.count = 0
  · simp [hz]
  · have hpos : ro.count > 0 := by omega
    simp only [hpos, if_true, hz, if_false]
    have ht : ro.filter.take ro.count = ro.filter := by rw [hcount, List.take_length]
    rw [ht]
    congr 2
    push_cast at hlen ⊢
    split_ifs <;> omega

/-- C6 (failing input): two accepted filters with fields in range that do not come
back from `isobus_filter_unconv`.  The PDU2 filter `ex_filter_pdu2` (PGN
0x00F004, `daddr` 0, `daddr_mask` 0) is decoded with `daddr` 4 and `daddr_mask`
0xFF, the PS bits of the identifier and of the mask, although for a PDU2 PGN
those bits belong to the PGN; the decoded filter is one `isobus_filter_conv`
itself refuses with `-EINVAL`.  The PDU1 filter with PGN 0x00EE00, `pgn_mask`
0x3FF00, `daddr` 0x80 and `daddr_mask` 0xFF is decoded with `pgn_mask` 0x3FFFF:
`get_pgn` is applied to the mask, whose own PF byte is 0xFF, so the
destination mask is taken for PGN bits.  Getting `CAN_ISOBUS_FILTER` after
setting it to `ex_filter_pdu2` returns the altered filter. -/
theorem C6_failing_input :
    filter_in_range ex_filter_pdu2 ∧
    isobus_filter_conv [ex_filter_pdu2] =
      (0, [{ can_id := CANID 0 0x00F004 0 0, can_mask := CANID 0 0x3FFFF 0 0xFF }]) ∧
    isobus_filter_unconv
        [{ can_id := CANID 0 0x00F004 0 0, can_mask := CANID 0 0x3FFFF 0 0xFF }] =
      (0, [{ pgn := 0x00F004, pgn_mask := 0x3FFFF, daddr := 4, daddr_mask := 0xFF,
             saddr := 0, saddr_mask := 0xFF, inverted := false }]) ∧
    (isobus_filter_unconv (isobus_filter_conv [ex_filter_pdu2]).2).2 ≠ [ex_filter_pdu2] ∧
    (isobus_filter_conv
      (isobus_filter_unconv (isobus_filter_conv [ex_filter_pdu2]).2).2).1 = -EINVAL ∧
    filter_in_range { ex_filter_pdu1 with pgn_mask := 0x3FF00 } ∧
    isobus_filter_conv [{ ex_filter_pdu1 with pgn_mask := 0x3FF00 }] =
      (0, [{ can_id := CANID 0 0x00EE00 0x80 0 ||| CAN_INV_FILTER,
             can_mask := CANID 0 0x3FF00 0xFF 0 }]) ∧
    isobus_filter_unconv
        [{ can_id := CANID 0 0x00EE00 0x80 0 ||| CAN_INV_FILTER,
           can_mask := CANID 0 0x3FF00 0xFF 0 }] =
      (0, [{ pgn := 0x00EE00, pgn_mask := 0x3FFFF, daddr := 0x80, daddr_mask := 0xFF,
             saddr := 0, saddr_mask := 0, inverted := true }]) ∧
    (isobus_filter_unconv (isobus_filter_conv [{ ex_filter_pdu1 with pgn_mask := 0x3FF00 }]).2).2
      ≠ [{ ex_filter_pdu1 with pgn_mask := 0x3FF00 }] ∧
    (isobus_setsockopt ex_abi ex_sock ex_kernel 107 CAN_ISOBUS_FILTER
      (ex_filters [ex_filter_pdu2]) 16).1 = 0 ∧
    isobus_getsockopt ex_abi
      (isobus_setsockopt ex_abi ex_sock ex_kernel 107 CAN_ISOBUS_FILTER
        (ex_filters [ex_filter_pdu2]) 16).2.1 107 CAN_ISOBUS_FILTER 16 true true =
      { ret := 0, optlen := some 16,
        optval := optval_out.filters
          [{ ex_filter_pdu2 with daddr := 4, daddr_mask := 0xFF }] } := by
  decide

/-! ## Address claiming (C10) -/

theorem claim_step_refl (ro : isobus_sock) : claim_step ro ro :=
  ⟨rfl, rfl, Or.inr ⟨rfl, fun h => h⟩⟩

theorem claim_step_trans (a b c : isobus_sock) (h1 : claim_step a b) (h2 : claim_step b c) :
    claim_step a c := by
  obtain ⟨p1, n1, s1⟩ := h1
  obtain ⟨p2, n2, s2⟩ := h2
  refine ⟨p2.trans p1, n2.trans n1, ?_⟩
  rcases s2 with hl | ⟨hs, hk⟩
  · exact Or.inl hl
  · rcases s1 with ⟨hl1, hl2⟩ | ⟨hs1, hk1⟩
    · exact Or.inl ⟨hk hl1, hs.trans hl2⟩
    · exact Or.inr ⟨hs.trans hs1, fun h => hk (hk1 h)⟩

theorem lose_addr_step (ro : isobus_sock) (k : kernel) :
    claim_step ro (isobus_lose_addr ro k).1 :=
  ⟨rfl, rfl, Or.inl ⟨rfl, rfl⟩⟩

theorem addr_claimed_step (ro : isobus_sock) (k : kernel) (skb : sk_buff) :
    claim_step ro (isobus_addr_claimed_handler ro k skb).1 := by
  unfold isobus_addr_claimed_handler
  simp only
  split_ifs <;>
    first
    | exact claim_step_refl ro
    | exact lose_addr_step ro k
    | exact ⟨rfl, rfl, Or.inl ⟨rfl, rfl⟩⟩
    | (refine ⟨rfl, rfl, Or.inr ⟨rfl, ?_⟩⟩
       intro hl
       simp_all)

theorem req_addr_claimed_step (ro : isobus_sock) (k : kernel) (skb : sk_buff) :
    claim_step ro (isobus_req_addr_claimed_handler ro k skb).1 := by
  unfold isobus_req_addr_claimed_handler
  split_ifs <;> exact claim_step_refl ro

theorem queue_step (ro : isobus_sock) (k : kernel) (skb : rcv_skb) :
    claim_step ro (sock_queue_rcv_skb ro k skb).2.1 := by
  unfold sock_queue_rcv_skb
  split
  · exact claim_step_refl _
  · split_ifs
    · exact claim_step_refl _
    · exact claim_step_refl ro

theorem rcv_step (ro : isobus_sock) (k : kernel) (skb : sk_buff) :
    claim_step ro (isobus_rcv ro k skb).1 := by
  unfold isobus_rcv
  split_ifs <;>
    first
    | exact claim_step_refl ro
    | (simp only
       generalize alloc_skb k = r
       rcases r with ⟨e, k1⟩
       simp only
       split_ifs <;>
         first
         | exact claim_step_refl ro
         | exact queue_step ro k1 _)

theorem deliver_step (s : isobus_sock × kernel) (e : bus_event) :
    claim_step s.1 (deliver s e).1 := by
  cases e with
  | addr_claimed skb => exact addr_claimed_step s.1 s.2 skb
  | req_addr_claimed skb => exact req_addr_claimed_step s.1 s.2 skb
  | rcv skb => exact rcv_step s.1 s.2 skb

theorem wait_event_step (ro : isobus_sock) (k : kernel) (events : List bus_event) :
    claim_step ro (wait_event ro k events).1 := by
  unfold wait_event
  suffices h : ∀ (s : isobus_sock × kernel), claim_step s.1 (events.foldl deliver s).1 from
    h (ro, k)
  induction events with
  | nil => intro s; exact claim_step_refl s.1
  | cons e rest ih =>
    intro s
    exact claim_step_trans _ _ _ (deliver_step s e) (ih (deliver s e))

theorem avail_sc_addr_range (ro : isobus_sock) :
    avail_sc_addr ro = ISOBUS_NULL_ADDR ∨
    (ISOBUS_MIN_SC_ADDR ≤ avail_sc_addr ro ∧ avail_sc_addr ro ≤ ISOBUS_MAX_SC_ADDR) := by
  unfold avail_sc_addr
  split
  · rename_i i hi
    right
    have hmem := List.mem_of_find?_eq_some hi
    rw [List.mem_range] at hmem
    simp only [ISOBUS_MIN_SC_ADDR, ISOBUS_MAX_SC_ADDR] at hmem ⊢
    omega
  · exact Or.inl rfl

theorem claim_addr_zero (ro : isobus_sock) (k : kernel) (wait1 wait2 : List bus_event)
    (h : (isobus_claim_addr ro k wait1 wait2).1 = 0) :
    (isobus_claim_addr ro k wait1 wait2).2.1.state = sock_state.ISOBUS_HAVE_ADDR ∧
    (isobus_claim_addr ro k wait1 wait2).2.1.s_addr ≠ ISOBUS_NULL_ADDR ∧
    ((isobus_claim_addr ro k wait1 wait2).2.1.s_addr = ro.pref_addr ∨
      (ISOBUS_MIN_SC_ADDR ≤ (isobus_claim_addr ro k wait1 wait2).2.1.s_addr ∧
       (isobus_claim_addr ro k wait1 wait2).2.1.s_addr ≤ ISOBUS_MAX_SC_ADDR)) := by
  unfold isobus_claim_addr at h ⊢
  simp only at h ⊢
  have hw1 := wait_event_step
    { ro with s_addr := ISOBUS_NULL_ADDR, state := sock_state.ISOBUS_WAIT_ADDR,
              sc_addrs := List.replicate (ISOBUS_MAX_SC_ADDR - ISOBUS_MIN_SC_ADDR + 1) true,
              pref_avail := true }
    (isobus_send
      { ro with s_addr := ISOBUS_NULL_ADDR, state := sock_state.ISOBUS_WAIT_ADDR,
                sc_addrs := List.replicate (ISOBUS_MAX_SC_ADDR - ISOBUS_MIN_SC_ADDR + 1) true,
                pref_avail := true }
      k req_addr_claimed_mesg ISOBUS_GLOBAL_ADDR).2 wait1
  generalize wait_event _ _ wait1 = r1 at h hw1 ⊢
  rcases r1 with ⟨ro2, k2⟩
  obtain ⟨hp2, _, hs2⟩ := hw1
  simp only at hp2 hs2 h ⊢
  have hs254 : ro2.s_addr = ISOBUS_NULL_ADDR := by
    rcases hs2 with ⟨_, h2⟩ | ⟨h2, _⟩ <;> exact h2
  by_cases hl : ro2.state = sock_state.ISOBUS_LOST_ADDR
  · simp [hl, EADDRINUSE] at h
  · simp only [hl, if_false] at h ⊢
    have havail := avail_sc_addr_range ro2
    generalize hro3 : (if ro2.pref_addr ≠ ISOBUS_ANY_ADDR ∧ ro2.pref_avail = true then
        ({ ro2 with s_addr := ro2.pref_addr } : isobus_sock)
      else if ro2.name &&& ISOBUS_NAME_SC_BIT ≠ 0 then { ro2 with s_addr := avail_sc_addr ro2 }
      else ro2) = ro3 at h ⊢
    have h3 : ro3.s_addr = ISOBUS_NULL_ADDR ∨ ro3.s_addr = ro.pref_addr ∨
        (ISOBUS_MIN_SC_ADDR ≤ ro3.s_addr ∧ ro3.s_addr ≤ ISOBUS_MAX_SC_ADDR) := by
      rw [← hro3]
      split_ifs
      · exact Or.inr (Or.inl hp2)
      · rcases havail with ha | ha
        · exact Or.inl ha
        · exact Or.inr (Or.inr ha)
      · exact Or.inl hs254
    by_cases hn : ro3.s_addr = ISOBUS_NULL_ADDR
    · simp [hn, EADDRINUSE] at h
    · simp only [hn, if_false] at h ⊢
      have hw2 := wait_event_step { ro3 with state := sock_state.ISOBUS_WAIT_HAVE_ADDR }
        (isobus_send_addr_claimed { ro3 with state := sock_state.ISOBUS_WAIT_HAVE_ADDR } k2).2
        wait2
      generalize wait_event _ _ wait2 = r2 at h hw2 ⊢
      rcases r2 with ⟨ro5, k4⟩
      obtain ⟨_, _, hs5⟩ := hw2
      simp only at hs5 h ⊢
      by_cases hl5 : ro5.state = sock_state.ISOBUS_LOST_ADDR
      · simp [hl5, EADDRINUSE] at h
      · simp only [hl5, if_false]
        have hs : ro5.s_addr = ro3.s_addr := by
          rcases hs5 with ⟨h5, _⟩ | ⟨h5, _⟩
          · exact absurd h5 hl5
          · exact h5
        refine ⟨trivial, ?_, ?_⟩
        · rw [hs]; exact hn
        · rw [hs]
          rcases h3 with h3 | h3
          · exact absurd h3 hn
          · exact h3

theorem bind_out_zero (err : Int) (n : Bool) (ro : isobus_sock) (k : kernel)
    (addr : sockaddr_can) (wait1 wait2 : List bus_event)
    (h : (bind_out err n ro k addr wait1 wait2).1 = 0) :
    (bind_out err n ro k addr wait1 wait2).2.1.state = sock_state.ISOBUS_HAVE_ADDR ∧
    (bind_out err n ro k addr wait1 wait2).2.1.s_addr ≠ ISOBUS_NULL_ADDR ∧
    ((bind_out err n ro k addr wait1 wait2).2.1.s_addr = addr.addr % 256 ∨
      (ISOBUS_MIN_SC_ADDR ≤ (bind_out err n ro k addr wait1 wait2).2.1.s_addr ∧
       (bind_out err n ro k addr wait1 wait2).2.1.s_addr ≤ ISOBUS_MAX_SC_ADDR)) := by
  unfold bind_out at h ⊢
  by_cases he : err = 0
  · simp only [he, if_true] at h ⊢
    have hz : (isobus_claim_addr { ro with pref_addr := addr.addr % 256 } k wait1 wait2).1 = 0 := by
      cases n <;> simpa using h
    have hc := claim_addr_zero { ro with pref_addr := addr.addr % 256 } k wait1 wait2 hz
    cases n <;> simpa using hc
  · simp only [he, if_false] at h
    cases n <;> simp at h <;> exact absurd h he

theorem bind_cases (a : abi) (ro : isobus_sock) (k : kernel) (addr : sockaddr_can) (len : Nat)
    (wait1 wait2 : List bus_event) :
    (∃ err n ro1 k1, isobus_bind a ro k addr len wait1 wait2 =
      bind_out err n ro1 k1 addr wait1 wait2) ∨
    (isobus_bind a ro k addr len wait1 wait2).1 ≠ 0 := by
  unfold isobus_bind
  by_cases h1 : len < a.sizeof_sockaddr_can
  · right; simp [h1, EINVAL]
  · left
    simp only [h1, if_false]
    by_cases h2 : ro.bound = true ∧ addr.can_ifindex = ro.ifindex
    · simp only [h2, and_self, if_true]; exact ⟨_, _, _, _, rfl⟩
    · simp only [h2, if_false]
      by_cases h3 : addr.can_ifindex ≠ 0
      · rw [if_pos h3]
        cases dev_get_by_index k addr.can_ifindex with
        | none => exact ⟨_, _, _, _, rfl⟩
        | some dev =>
          simp only
          by_cases h4 : dev.type ≠ ARPHRD_CAN
          · rw [if_pos h4]; exact ⟨_, _, _, _, rfl⟩
          · rw [if_neg h4]
            generalize isobus_enable_allfilters ro k dev.ifindex = r
            rcases r with ⟨err, k1⟩
            simp only
            by_cases h5 : err = 0
            · simp only [h5, if_true]; exact ⟨_, _, _, _, rfl⟩
            · simp only [h5, if_false]; exact ⟨_, _, _, _, rfl⟩
      · rw [if_neg h3]; exact ⟨_, _, _, _, rfl⟩

theorem bind_zero (a : abi) (ro : isobus_sock) (k : kernel) (addr : sockaddr_can) (len : Nat)
    (wait1 wait2 : List bus_event)
    (h : (isobus_bind a ro k addr len wait1 wait2).1 = 0) :
    (isobus_bind a ro k addr len wait1 wait2).2.1.state = sock_state.ISOBUS_HAVE_ADDR ∧
    (isobus_bind a ro k addr len wait1 wait2).2.1.s_addr ≠ ISOBUS_NULL_ADDR ∧
    ((isobus_bind a ro k addr len wait1 wait2).2.1.s_addr = addr.addr % 256 ∨
      (ISOBUS_MIN_SC_ADDR ≤ (isobus_bind a ro k addr len wait1 wait2).2.1.s_addr ∧
       (isobus_bind a ro k addr len wait1 wait2).2.1.s_addr ≤ ISOBUS_MAX_SC_ADDR)) := by
  rcases bind_cases a ro k addr len wait1 wait2 with ⟨err, n, ro1, k1, he⟩ | hne
  · rw [he] at h ⊢
    exact bind_out_zero err n ro1 k1 addr wait1 wait2 h
  · exact absurd h hne

/-- C10 (counterexample): on a quiet bus a claim with preferred address 255 (the global
address) succeeds and leaves the socket in `ISOBUS_HAVE_ADDR` with
`s_addr = 255`; the same through `isobus_bind`. -/
theorem C10_counterexample :
    (isobus_claim_addr (ex_claiming 255) ex_kernel [] []).1 = 0 ∧
    (isobus_claim_addr (ex_claiming 255) ex_kernel [] []).2.1.state =
      sock_state.ISOBUS_HAVE_ADDR ∧
    (isobus_claim_addr (ex_claiming 255) ex_kernel [] []).2.1.s_addr = 255 ∧
    (isobus_bind ex_abi ex_idle ex_kernel
      { can_family := AF_CAN, can_ifindex := 3, addr := 255 } 16 [] []).1 = 0 ∧
    (isobus_bind ex_abi ex_idle ex_kernel
      { can_family := AF_CAN, can_ifindex := 3, addr := 255 } 16 [] []).2.1.s_addr =
      ISOBUS_GLOBAL_ADDR := by
  decide

/-- C10 (amended): a claimed address is never the null address, but it can be the global
address.  For every socket, kernel state and frames delivered during the two
waits, whenever `isobus_claim_addr` returns 0 the state is
`ISOBUS_HAVE_ADDR`, `s_addr` is not 254, and `s_addr` is either the preferred
address or a self-configurable address 128..247; so `s_addr` lies in 0..253
whenever the preferred address (a byte) is not 255.  The same holds for a
successful `isobus_bind`, whose preferred address is the one in its
argument. -/
theorem C10_claimed_address (ro : isobus_sock) (k : kernel) (wait1 wait2 : List bus_event) :
    ((isobus_claim_addr ro k wait1 wait2).1 = 0 →
      (isobus_claim_addr ro k wait1 wait2).2.1.state = sock_state.ISOBUS_HAVE_ADDR ∧
      (isobus_claim_addr ro k wait1 wait2).2.1.s_addr ≠ 254 ∧
      ((isobus_claim_addr ro k wait1 wait2).2.1.s_addr = ro.pref_addr ∨
        (128 ≤ (isobus_claim_addr ro k wait1 wait2).2.1.s_addr ∧
         (isobus_claim_addr ro k wait1 wait2).2.1.s_addr ≤ 247)) ∧
      (ro.pref_addr < 256 → ro.pref_addr ≠ 255 →
        (isobus_claim_addr ro k wait1 wait2).2.1.s_addr ≤ 253)) ∧
    (∀ (a : abi) (addr : sockaddr_can) (len : Nat),
      (isobus_bind a ro k addr len wait1 wait2).1 = 0 →
      (isobus_bind a ro k addr len wait1 wait2).2.1.state = sock_state.ISOBUS_HAVE_ADDR ∧
      (isobus_bind a ro k addr len wait1 wait2).2.1.s_addr ≠ 254 ∧
      (addr.addr % 256 ≠ 255 → (isobus_bind a ro k addr len wait1 wait2).2.1.s_addr ≤ 253)) := by
  constructor
  · intro h
    obtain ⟨h1, h2, h3⟩ := claim_addr_zero ro k wait1 wait2 h
    simp only [ISOBUS_NULL_ADDR, ISOBUS_MIN_SC_ADDR, ISOBUS_MAX_SC_ADDR] at h2 h3
    refine ⟨h1, h2, h3, ?_⟩
    intro hp hg
    omega
  · intro a addr len h
    obtain ⟨h1, h2, h3⟩ := bind_zero a ro k addr len wait1 wait2 h
    simp only [ISOBUS_NULL_ADDR, ISOBUS_MIN_SC_ADDR, ISOBUS_MAX_SC_ADDR] at h2 h3
    refine ⟨h1, h2, ?_⟩
    intro hg
    omega

/-- C10 (witness): a contested claim.  The example socket (self-configurable NAME) prefers
0x80; during the first wait a peer with a lower NAME claims 0x80; the claim
succeeds with the self-configurable address 129. -/
theorem C10_claimed_address_witness :
    (isobus_claim_addr (ex_claiming 0x80) ex_kernel [ex_peer_claim 0x80 1] []).1 = 0 ∧
    (isobus_claim_addr (ex_claiming 0x80) ex_kernel [ex_peer_claim 0x80 1] []).2.1.s_addr
      ≠ 254 ∧
    (isobus_claim_addr (ex_claiming 0x80) ex_kernel [ex_peer_claim 0x80 1] []).2.1.s_addr
      = 129 :=
  ⟨by decide,
   ((C10_claimed_address (ex_claiming 0x80) ex_kernel [ex_peer_claim 0x80 1] []).1
     (by decide)).2.1,
   by decide⟩

/-! ## Network management frames: what `isobus_send` hands over -/

theorem dev_get_by_index_ifindex (k : kernel) (ifindex : Nat) (dev : net_device)
    (h : dev_get_by_index k ifindex = some dev) : dev.ifindex = ifindex := by
  unfold dev_get_by_index at h
  have := List.find?_some h
  simpa using this

theorem alloc_skb_ok (k : kernel) (h : rets_ok k.alloc_rets) :
    (alloc_skb k).1 = 0 ∧ rets_ok (alloc_skb k).2.alloc_rets ∧
    (alloc_skb k).2.devs = k.devs ∧ (alloc_skb k).2.tx = k.tx ∧ (alloc_skb k).2.rx = k.rx ∧
    (alloc_skb k).2.queue_rets = k.queue_rets := by
  unfold alloc_skb
  split
  · rename_i hnil
    exact ⟨rfl, h, rfl, rfl, rfl, rfl⟩
  · rename_i e rest hc
    rw [hc] at h
    refine ⟨h e (List.mem_cons_self _ _), ?_, rfl, rfl, rfl, rfl⟩
    intro x hx
    exact h x (List.mem_cons_of_mem _ hx)

theorem can_send_frame (k : kernel) (skb : tx_skb) :
    (can_send k skb).2.tx = k.tx ++ [skb] ∧ (can_send k skb).2.devs = k.devs ∧
    (can_send k skb).2.alloc_rets = k.alloc_rets ∧ (can_send k skb).2.rx = k.rx ∧
    (can_send k skb).2.queue_rets = k.queue_rets := by
  unfold can_send
  split <;> exact ⟨rfl, rfl, rfl, rfl, rfl⟩

theorem send_ok_of (ifindex : Nat) (k k1 : kernel) (h : send_ok ifindex k)
    (hd : k1.devs = k.devs) (ha : rets_ok k1.alloc_rets) : send_ok ifindex k1 := by
  unfold send_ok dev_get_by_index at h ⊢
  rw [hd]
  exact ⟨h.1, ha⟩

theorem isobus_send_frame (ro : isobus_sock) (k : kernel) (mesg : isobus_mesg) (addr : Nat)
    (h : send_ok ro.ifindex k) :
    (isobus_send ro k mesg addr).2.tx = k.tx ++ [nm_skb ro mesg addr] ∧
    send_ok ro.ifindex (isobus_send ro k mesg addr).2 ∧
    (isobus_send ro k mesg addr).2.rx = k.rx ∧
    (isobus_send ro k mesg addr).2.queue_rets = k.queue_rets := by
  obtain ⟨hdev, hal⟩ := h
  unfold isobus_send
  rcases hk : dev_get_by_index k ro.ifindex with _ | dev
  · rw [hk] at hdev; cases hdev
  · have hi := dev_get_by_index_ifindex k ro.ifindex dev hk
    obtain ⟨a1, a2, a3, a4, a5, a6⟩ := alloc_skb_ok k hal
    generalize alloc_skb k = r at a1 a2 a3 a4 a5 a6
    rcases r with ⟨e, k1⟩
    simp only at a1 a2 a3 a4 a5 a6 ⊢
    subst a1
    simp only [ne_eq, not_true_eq_false, if_false, hi]
    obtain ⟨c1, c2, c3, c4, c5⟩ := can_send_frame k1 (nm_skb ro mesg addr)
    refine ⟨?_, ?_, ?_, ?_⟩
    · exact c1.trans (by rw [a4])
    · apply send_ok_of ro.ifindex k _ ⟨by rw [hk]; rfl, hal⟩ (c2.trans a3)
      rw [c3]; exact a2
    · exact c4.trans a5
    · exact c5.trans a6

theorem and_255 (x : Nat) : x &&& 0xFF = x % 256 :=
  and_mask_mod x 8 0xFF (by decide)

theorem NAME2DATA_eq (n : Nat) :
    NAME2DATA n = [n % 256, n / 256 % 256, n / 65536 % 256, n / 16777216 % 256,
      n / 4294967296 % 256, n / 1099511627776 % 256, n / 281474976710656 % 256,
      n / 72057594037927936 % 256] := by
  simp only [NAME2DATA, List.range, List.range.loop, List.map, and_255,
    Nat.shiftRight_eq_div_pow]
  norm_num

theorem NAME2DATA_length (n : Nat) : (NAME2DATA n).length = 8 := by
  rw [NAME2DATA_eq]; rfl

theorem DATA2NAME_NAME2DATA (n : Nat) (h : n < 18446744073709551616) :
    DATA2NAME (NAME2DATA n) = n := by
  rw [NAME2DATA_eq]
  simp only [DATA2NAME, List.range, List.range.loop, List.foldl, List.getD_cons_zero,
    List.getD_cons_succ, and_255, Nat.shiftLeft_eq]
  norm_num
  omega

theorem claimed_id_fields (q s : Nat) :
    get_pgn (CANID q ISOBUS_PGN_ADDR_CLAIMED ISOBUS_GLOBAL_ADDR s) = ISOBUS_PGN_ADDR_CLAIMED ∧
    ID_FIELD (CANID q ISOBUS_PGN_ADDR_CLAIMED ISOBUS_GLOBAL_ADDR s) Field.PS
      = ISOBUS_GLOBAL_ADDR ∧
    ID_FIELD (CANID q ISOBUS_PGN_ADDR_CLAIMED ISOBUS_GLOBAL_ADDR s) Field.SA = s % 256 := by
  have hp : ps_bits ISOBUS_PGN_ADDR_CLAIMED ISOBUS_GLOBAL_ADDR = 61183 := by decide
  rw [get_pgn_eq, ID_FIELD_PS, ID_FIELD_SA, CANID_eq, hp]
  simp only [ISOBUS_PGN_ADDR_CLAIMED, ISOBUS_GLOBAL_ADDR]
  refine ⟨?_, ?_, ?_⟩
  · split_ifs <;> omega
  · omega
  · omega

theorem request_id_fields (q s : Nat) :
    get_pgn (CANID q ISOBUS_PGN_REQUEST ISOBUS_GLOBAL_ADDR s) = ISOBUS_PGN_REQUEST ∧
    ID_FIELD (CANID q ISOBUS_PGN_REQUEST ISOBUS_GLOBAL_ADDR s) Field.PS
      = ISOBUS_GLOBAL_ADDR ∧
    ID_FIELD (CANID q ISOBUS_PGN_REQUEST ISOBUS_GLOBAL_ADDR s) Field.SA = s % 256 := by
  have hp : ps_bits ISOBUS_PGN_REQUEST ISOBUS_GLOBAL_ADDR = 60159 := by decide
  rw [get_pgn_eq, ID_FIELD_PS, ID_FIELD_SA, CANID_eq, hp]
  simp only [ISOBUS_PGN_REQUEST, ISOBUS_GLOBAL_ADDR]
  refine ⟨?_, ?_, ?_⟩
  · split_ifs <;> omega
  · omega
  · omega

theorem claimed_skb_is (ro : isobus_sock) (hs : ro.s_addr < 256) :
    is_addr_claimed (claimed_skb ro) ro.s_addr ro.name := by
  obtain ⟨f1, f2, f3⟩ :=
    claimed_id_fields (to_u32 ( ISOBUS_PRIO ro.sk_priority)) ro.s_addr
  rw [Nat.mod_eq_of_lt hs] at f3
  refine ⟨f1, f2, f3, rfl, ?_⟩
  show (NAME2DATA ro.name).take 8 = NAME2DATA ro.name
  rw [← NAME2DATA_length ro.name, List.take_length]

theorem request_skb_is (ro : isobus_sock) : is_request (request_skb ro) := by
  obtain ⟨f1, f2, _⟩ :=
    request_id_fields (to_u32 ( ISOBUS_PRIO ro.sk_priority)) ro.s_addr
  exact ⟨f1, f2, rfl, rfl⟩

theorem send_addr_claimed_frame (ro : isobus_sock) (k : kernel) (h : send_ok ro.ifindex k) :
    (isobus_send_addr_claimed ro k).2.tx = k.tx ++ [claimed_skb ro] ∧
    send_ok ro.ifindex (isobus_send_addr_claimed ro k).2 ∧
    (isobus_send_addr_claimed ro k).2.rx = k.rx ∧
    (isobus_send_addr_claimed ro k).2.queue_rets = k.queue_rets :=
  isobus_send_frame ro k _ _ h

theorem lose_addr_frame (ro : isobus_sock) (k : kernel) (h : send_ok ro.ifindex k) :
    (isobus_lose_addr ro k).1 =
      { ro with bound := false, s_addr := ISOBUS_NULL_ADDR,
                state := sock_state.ISOBUS_LOST_ADDR } ∧
    (isobus_lose_addr ro k).2.tx = k.tx ++
      [claimed_skb { ro with bound := false, s_addr := ISOBUS_NULL_ADDR,
                             state := sock_state.ISOBUS_LOST_ADDR }] ∧
    send_ok ro.ifindex (isobus_lose_addr ro k).2 ∧
    (isobus_lose_addr ro k).2.rx = k.rx := by
  obtain ⟨h1, h2, h3, _⟩ := send_addr_claimed_frame
    { ro with bound := false, s_addr := ISOBUS_NULL_ADDR,
              state := sock_state.ISOBUS_LOST_ADDR } k h
  exact ⟨rfl, h1, h2, h3⟩

theorem cannot_claim_is (ro : isobus_sock) :
    is_addr_claimed
      (claimed_skb { ro with bound := false, s_addr := ISOBUS_NULL_ADDR,
                             state := sock_state.ISOBUS_LOST_ADDR })
      ISOBUS_NULL_ADDR ro.name :=
  claimed_skb_is _ (by simp [ISOBUS_NULL_ADDR])

/-! ## Address claiming on a quiet or contested bus (C11, C12, C13) -/

theorem claim_quiet_sock (ro : isobus_sock) (k : kernel)
    (hp : ro.pref_addr ≠ ISOBUS_ANY_ADDR) :
    (isobus_claim_addr ro k [] []).1 = 0 ∧
    (isobus_claim_addr ro k [] []).2.1 =
      { claim_start ro with s_addr := ro.pref_addr, state := sock_state.ISOBUS_HAVE_ADDR } := by
  have hn : ro.pref_addr ≠ ISOBUS_NULL_ADDR := hp
  simp [isobus_claim_addr, wait_event, hp, hn, claim_start]

theorem claim_quiet_tx (ro : isobus_sock) (k : kernel)
    (hp : ro.pref_addr ≠ ISOBUS_ANY_ADDR) (h : send_ok ro.ifindex k) :
    (isobus_claim_addr ro k [] []).2.2.tx = k.tx ++
      [request_skb (claim_start ro),
       claimed_skb { claim_start ro with
         s_addr := ro.pref_addr, state := sock_state.ISOBUS_WAIT_HAVE_ADDR }] := by
  have hn : ro.pref_addr ≠ ISOBUS_NULL_ADDR := hp
  obtain ⟨a1, a2, _, _⟩ := isobus_send_frame (claim_start ro) k req_addr_claimed_mesg
    ISOBUS_GLOBAL_ADDR h
  obtain ⟨b1, _, _, _⟩ := send_addr_claimed_frame
    { claim_start ro with s_addr := ro.pref_addr, state := sock_state.ISOBUS_WAIT_HAVE_ADDR }
    _ a2
  simp only [claim_start] at a1 b1 ⊢
  simp only [isobus_claim_addr, wait_event, List.foldl_nil, hp, ne_eq, not_false_eq_true,
    and_self, if_true, hn, if_false, reduceCtorEq]
  rw [b1, a1]
  simp [request_skb]

/-- C11: quiet-bus claim.  For every socket (any NAME) whose preferred address is a
byte other than 254, with no frame delivered during either wait,
`isobus_claim_addr` returns 0 with state `ISOBUS_HAVE_ADDR` and
`s_addr = pref_addr`, `bound` as it was.  When the interface exists and the
buffers are allocated, exactly two frames have been handed to `can_send`:
first a request for address claimed, then an address claimed frame (PGN
0x00EE00, destination global, SA = `pref_addr`, eight-byte payload = NAME,
least significant byte first). -/
theorem C11_quiet_bus_claim (ro : isobus_sock) (k : kernel) (hp : ro.pref_addr ≠ 254)
    (hb : ro.pref_addr < 256) :
    (isobus_claim_addr ro k [] []).1 = 0 ∧
    (isobus_claim_addr ro k [] []).2.1.state = sock_state.ISOBUS_HAVE_ADDR ∧
    (isobus_claim_addr ro k [] []).2.1.s_addr = ro.pref_addr ∧
    (isobus_claim_addr ro k [] []).2.1.bound = ro.bound ∧
    (send_ok ro.ifindex k →
      ∃ f1 f2, (isobus_claim_addr ro k [] []).2.2.tx = k.tx ++ [f1, f2] ∧
        is_request f1 ∧ is_addr_claimed f2 ro.pref_addr ro.name ∧
        (ro.name < 18446744073709551616 → DATA2NAME f2.cf.data = ro.name)) := by
  have hp2 : ro.pref_addr ≠ ISOBUS_ANY_ADDR := hp
  obtain ⟨h1, h2⟩ := claim_quiet_sock ro k hp2
  refine ⟨h1, ?_, ?_, ?_, ?_⟩
  · rw [h2]
  · rw [h2]
  · rw [h2]; rfl
  · intro hs
    refine ⟨_, _, claim_quiet_tx ro k hp2 hs, request_skb_is _, ?_, ?_⟩
    · exact claimed_skb_is
        { claim_start ro with
          s_addr := ro.pref_addr, state := sock_state.ISOBUS_WAIT_HAVE_ADDR } hb
    · intro hn
      have hd := (claimed_skb_is
        { claim_start ro with
          s_addr := ro.pref_addr, state := sock_state.ISOBUS_WAIT_HAVE_ADDR } hb).2.2.2.2
      rw [hd]
      exact DATA2NAME_NAME2DATA ro.name hn

/-- C11 (witness): scenario S3, a NAME with the self-configurable bit clear and preferred
address 0x80 on the example kernel: address 0x80, two frames. -/
theorem C11_quiet_bus_claim_witness :
    (ex_fixed.pref_addr ≠ 254 ∧ ex_fixed.pref_addr < 256 ∧
     ex_fixed.name &&& ISOBUS_NAME_SC_BIT = 0 ∧ send_ok ex_fixed.ifindex ex_kernel) ∧
    ((isobus_claim_addr ex_fixed ex_kernel [] []).1 = 0 ∧
     (isobus_claim_addr ex_fixed ex_kernel [] []).2.1.state = sock_state.ISOBUS_HAVE_ADDR ∧
     (isobus_claim_addr ex_fixed ex_kernel [] []).2.1.s_addr = 0x80) ∧
    (isobus_claim_addr ex_fixed ex_kernel [] []).2.2.tx.map
      (fun f => (get_pgn f.cf.can_id, ID_FIELD f.cf.can_id Field.PS,
        ID_FIELD f.cf.can_id Field.SA, f.cf.data)) =
      [(0x00EA00, 255, 254, [0x00, 0xEE, 0x00]),
       (0x00EE00, 255, 0x80, [0x05, 0, 0, 0, 0, 0x82, 0, 0])] :=
  ⟨by decide,
   ⟨(C11_quiet_bus_claim ex_fixed ex_kernel (by decide) (by decide)).1,
    (C11_quiet_bus_claim ex_fixed ex_kernel (by decide) (by decide)).2.1,
    (C11_quiet_bus_claim ex_fixed ex_kernel (by decide) (by decide)).2.2.1⟩,
   by decide⟩

theorem addr_claimed_lose (ro : isobus_sock) (k : kernel) (skb : sk_buff)
    (hst : ro.state = sock_state.ISOBUS_WAIT_ADDR)
    (hsc : ro.name &&& ISOBUS_NAME_SC_BIT = 0)
    (hpeer : skb.sk ≠ some ro.id)
    (hsa : ID_FIELD skb.cf.can_id Field.SA = ro.pref_addr)
    (hpref : ro.pref_addr ≠ 254)
    (hname : DATA2NAME skb.cf.data ≤ ro.name) :
    ∃ ro2, ro2.ifindex = ro.ifindex ∧ ro2.name = ro.name ∧
      isobus_addr_claimed_handler ro k skb = isobus_lose_addr ro2 k := by
  have hnull : ¬ (ro.pref_addr = ISOBUS_NULL_ADDR) := hpref
  have hlt : ¬ (ro.name < DATA2NAME skb.cf.data) := by omega
  unfold isobus_addr_claimed_handler
  simp only [hpeer, if_false, hsa, hnull, hst, if_true]
  by_cases hr : ro.pref_addr ≤ ISOBUS_MAX_SC_ADDR ∧ ro.pref_addr ≥ ISOBUS_MIN_SC_ADDR
  · simp only [hr, and_self, if_true, hlt, if_false, hsc]
    refine ⟨_, ?_, ?_, rfl⟩ <;> rfl
  · simp only [hr, if_false, if_true, hlt, hsc]
    refine ⟨_, ?_, ?_, rfl⟩ <;> rfl

theorem claim_lost_in_wait1 (ro : isobus_sock) (k : kernel) (wait1 wait2 : List bus_event)
    (h : (wait_event (claim_start ro)
      (isobus_send (claim_start ro) k req_addr_claimed_mesg ISOBUS_GLOBAL_ADDR).2
      wait1).1.state = sock_state.ISOBUS_LOST_ADDR) :
    isobus_claim_addr ro k wait1 wait2 =
      (-EADDRINUSE, wait_event (claim_start ro)
        (isobus_send (claim_start ro) k req_addr_claimed_mesg ISOBUS_GLOBAL_ADDR).2 wait1) := by
  unfold claim_start at h ⊢
  unfold isobus_claim_addr
  simp only
  generalize wait_event _ _ wait1 = r at h ⊢
  rcases r with ⟨ro2, k2⟩
  simp only at h ⊢
  simp only [h, if_true]

/-- C12: contested claim without self-configuration.  For a socket in
`ISOBUS_WAIT_ADDR` whose NAME has the self-configurable bit clear, on an
address claimed frame from a peer with SA = `pref_addr` (not 254) and a
claimant NAME not greater than ours, the handler leaves state
`ISOBUS_LOST_ADDR`, `s_addr = 254` and `bound = false`; when the interface
exists and the buffer is allocated, exactly one frame is handed to
`can_send`, an address claimed frame with SA 254 carrying our NAME.  A
pending `isobus_claim_addr` whose first wait saw just this frame then returns
`-EADDRINUSE` with socket and kernel exactly as the handler left them:
nothing further is sent. -/
theorem C12_contested_claim_loses (ro : isobus_sock) (k : kernel) (skb : sk_buff)
    (hst : ro.state = sock_state.ISOBUS_WAIT_ADDR)
    (hsc : ro.name &&& ISOBUS_NAME_SC_BIT = 0)
    (hpeer : skb.sk ≠ some ro.id)
    (hsa : ID_FIELD skb.cf.can_id Field.SA = ro.pref_addr)
    (hpref : ro.pref_addr ≠ 254)
    (hname : DATA2NAME skb.cf.data ≤ ro.name) :
    (isobus_addr_claimed_handler ro k skb).1.state = sock_state.ISOBUS_LOST_ADDR ∧
    (isobus_addr_claimed_handler ro k skb).1.s_addr = 254 ∧
    (isobus_addr_claimed_handler ro k skb).1.bound = false ∧
    (send_ok ro.ifindex k →
      ∃ f, (isobus_addr_claimed_handler ro k skb).2.tx = k.tx ++ [f] ∧
        is_addr_claimed f 254 ro.name) ∧
    (∀ (ro0 : isobus_sock) (k0 : kernel) (wait2 : List bus_event),
      claim_start ro0 = ro →
      (isobus_send (claim_start ro0) k0 req_addr_claimed_mesg ISOBUS_GLOBAL_ADDR).2 = k →
      isobus_claim_addr ro0 k0 [bus_event.addr_claimed skb] wait2 =
        (-EADDRINUSE, isobus_addr_claimed_handler ro k skb)) := by
  obtain ⟨ro2, hi, hn, he⟩ := addr_claimed_lose ro k skb hst hsc hpeer hsa hpref hname
  rw [he]
  refine ⟨rfl, rfl, rfl, ?_, ?_⟩
  · intro hs
    rw [← hi] at hs
    obtain ⟨_, l2, _, _⟩ := lose_addr_frame ro2 k hs
    refine ⟨_, l2, ?_⟩
    rw [← hn]
    exact cannot_claim_is ro2
  · intro ro0 k0 wait2 h0 hk
    subst h0
    subst hk
    have hl : (wait_event (claim_start ro0)
        (isobus_send (claim_start ro0) k0 req_addr_claimed_mesg ISOBUS_GLOBAL_ADDR).2
        [bus_event.addr_claimed skb]).1.state = sock_state.ISOBUS_LOST_ADDR := by
      show (isobus_addr_claimed_handler _ _ skb).1.state = _
      rw [he]
      rfl
    rw [claim_lost_in_wait1 ro0 k0 _ wait2 hl]
    show (_, isobus_addr_claimed_handler _ _ skb) = _
    rw [he]

/-- C12 (witness): scenario S4.  The socket `ex_fixed` (NAME N, preferred address 0x80) has
sent its request when a peer with NAME N - 1 claims 0x80: the claim returns
`-EADDRINUSE` in state `ISOBUS_LOST_ADDR`, and the two frames sent are the
request and one cannot-claim frame with SA 254. -/
theorem C12_contested_claim_loses_witness :
    ((claim_start ex_fixed).state = sock_state.ISOBUS_WAIT_ADDR ∧
     (claim_start ex_fixed).name &&& ISOBUS_NAME_SC_BIT = 0 ∧
     (ex_peer_skb 0x80 0x0000820000000004).sk ≠ some (claim_start ex_fixed).id ∧
     ID_FIELD (ex_peer_skb 0x80 0x0000820000000004).cf.can_id Field.SA =
       (claim_start ex_fixed).pref_addr ∧
     (claim_start ex_fixed).pref_addr ≠ 254 ∧
     DATA2NAME (ex_peer_skb 0x80 0x0000820000000004).cf.data ≤ (claim_start ex_fixed).name) ∧
    (isobus_addr_claimed_handler (claim_start ex_fixed)
      (isobus_send (claim_start ex_fixed) ex_kernel req_addr_claimed_mesg
        ISOBUS_GLOBAL_ADDR).2
      (ex_peer_skb 0x80 0x0000820000000004)).1.state = sock_state.ISOBUS_LOST_ADDR ∧
    (isobus_claim_addr ex_fixed ex_kernel
      [bus_event.addr_claimed (ex_peer_skb 0x80 0x0000820000000004)] []).1 = -EADDRINUSE ∧
    (isobus_claim_addr ex_fixed ex_kernel
      [bus_event.addr_claimed (ex_peer_skb 0x80 0x0000820000000004)] []).2.2.tx.map
      (fun f => (get_pgn f.cf.can_id, ID_FIELD f.cf.can_id Field.SA, f.cf.data)) =
      [(0x00EA00, 254, [0x00, 0xEE, 0x00]),
       (0x00EE00, 254, [0x05, 0, 0, 0, 0, 0x82, 0, 0])] :=
  ⟨by decide,
   (C12_contested_claim_loses (claim_start ex_fixed)
     (isobus_send (claim_start ex_fixed) ex_kernel req_addr_claimed_mesg ISOBUS_GLOBAL_ADDR).2
     (ex_peer_skb 0x80 0x0000820000000004)
     (by decide) (by decide) (by decide) (by decide) (by decide) (by decide)).1,
   by decide, by decide⟩

theorem addr_claimed_sc (ro : isobus_sock) (k : kernel) (skb : sk_buff)
    (hst : ro.state = sock_state.ISOBUS_WAIT_ADDR)
    (hsc : ro.name &&& ISOBUS_NAME_SC_BIT ≠ 0)
    (hpeer : skb.sk ≠ some ro.id)
    (hsa : ID_FIELD skb.cf.can_id Field.SA = ro.pref_addr)
    (hpref : ro.pref_addr = 128)
    (hname : DATA2NAME skb.cf.data ≤ ro.name) :
    isobus_addr_claimed_handler ro k skb =
      ({ ro with sc_addrs := ro.sc_addrs.set 0 false, pref_avail := false }, k) := by
  have hlt : ¬ (ro.name < DATA2NAME skb.cf.data) := by omega
  unfold isobus_addr_claimed_handler
  simp only [hpeer, if_false, hsa, hpref, hst, if_true]
  simp [ISOBUS_NULL_ADDR, ISOBUS_MAX_SC_ADDR, ISOBUS_MIN_SC_ADDR, hpref, hlt, hsc]

theorem avail_after_128 (ro : isobus_sock)
    (h : ro.sc_addrs = (List.replicate (ISOBUS_MAX_SC_ADDR - ISOBUS_MIN_SC_ADDR + 1) true).set
      0 false) :
    avail_sc_addr ro = 129 := by
  unfold avail_sc_addr
  rw [h]
  decide

theorem claim_sc_fallback (ro : isobus_sock) (k : kernel) (skb : sk_buff)
    (hsc : ro.name &&& ISOBUS_NAME_SC_BIT ≠ 0)
    (hpeer : skb.sk ≠ some ro.id)
    (hsa : ID_FIELD skb.cf.can_id Field.SA = 128)
    (hpref : ro.pref_addr = 128)
    (hname : DATA2NAME skb.cf.data ≤ ro.name) :
    isobus_claim_addr ro k [bus_event.addr_claimed skb] [] =
      (0, { claim_start ro with
            sc_addrs := (claim_start ro).sc_addrs.set 0 false, pref_avail := false,
            s_addr := 129, state := sock_state.ISOBUS_HAVE_ADDR },
        (isobus_send_addr_claimed
          { claim_start ro with
            sc_addrs := (claim_start ro).sc_addrs.set 0 false, pref_avail := false,
            s_addr := 129, state := sock_state.ISOBUS_WAIT_HAVE_ADDR }
          (isobus_send (claim_start ro) k req_addr_claimed_mesg ISOBUS_GLOBAL_ADDR).2).2) := by
  have hh := addr_claimed_sc (claim_start ro)
    (isobus_send (claim_start ro) k req_addr_claimed_mesg ISOBUS_GLOBAL_ADDR).2 skb rfl hsc hpeer
    (hsa.trans hpref.symm) hpref hname
  have ha := avail_after_128
    { claim_start ro with sc_addrs := (claim_start ro).sc_addrs.set 0 false,
                          pref_avail := false } rfl
  unfold isobus_claim_addr
  simp only [wait_event, List.foldl_cons, List.foldl_nil, deliver]
  unfold claim_start at hh ha ⊢
  simp only at hh ha ⊢
  rw [hh]
  simp only [reduceCtorEq, if_false, Bool.false_eq_true, and_false, hsc, ne_eq,
    not_false_eq_true, if_true, ha]
  simp [ISOBUS_NULL_ADDR]

/-- C13 (counterexample): scenario S5 on the example socket (self-configurable NAME, preferred
address 0x80).  A peer with a lower NAME claims 0x80 during the first wait and
nothing else arrives: the claim succeeds with `s_addr = 129`, not 128, and the
address claimed frame announces 129. -/
theorem C13_counterexample :
    (ex_claiming 0x80).name &&& ISOBUS_NAME_SC_BIT ≠ 0 ∧
    DATA2NAME (ex_peer_skb 0x80 0x8000000000000004).cf.data < (ex_claiming 0x80).name ∧
    (isobus_claim_addr (ex_claiming 0x80) ex_kernel
      [bus_event.addr_claimed (ex_peer_skb 0x80 0x8000000000000004)] []).1 = 0 ∧
    (isobus_claim_addr (ex_claiming 0x80) ex_kernel
      [bus_event.addr_claimed (ex_peer_skb 0x80 0x8000000000000004)] []).2.1.state =
      sock_state.ISOBUS_HAVE_ADDR ∧
    (isobus_claim_addr (ex_claiming 0x80) ex_kernel
      [bus_event.addr_claimed (ex_peer_skb 0x80 0x8000000000000004)] []).2.1.s_addr = 129 ∧
    (isobus_claim_addr (ex_claiming 0x80) ex_kernel
      [bus_event.addr_claimed (ex_peer_skb 0x80 0x8000000000000004)] []).2.1.s_addr ≠ 128 ∧
    (isobus_claim_addr (ex_claiming 0x80) ex_kernel
      [bus_event.addr_claimed (ex_peer_skb 0x80 0x8000000000000004)] []).2.2.tx.map
      (fun f => (get_pgn f.cf.can_id, ID_FIELD f.cf.can_id Field.SA)) =
      [(0x00EA00, 254), (0x00EE00, 129)] := by
  decide

/-- C13 (amended): self-configurable fallback.  For a socket whose NAME has the
self-configurable bit set and whose preferred address is 0x80, if during the
first wait exactly one frame arrives, a peer's address claimed for 0x80 with a
NAME not greater than ours, and nothing arrives afterwards, then
`isobus_claim_addr` returns 0 with state `ISOBUS_HAVE_ADDR` and
`s_addr = 129`: address 128 is marked taken by the peer's frame and 129 is the
lowest free self-configurable address.  When the interface exists and the
buffers are allocated, the frames handed to `can_send` are the request and
exactly one address claimed frame announcing 129 with our NAME. -/
theorem C13_self_configurable_fallback (ro : isobus_sock) (k : kernel) (skb : sk_buff)
    (hsc : ro.name &&& ISOBUS_NAME_SC_BIT ≠ 0)
    (hpeer : skb.sk ≠ some ro.id)
    (hsa : ID_FIELD skb.cf.can_id Field.SA = 0x80)
    (hpref : ro.pref_addr = 0x80)
    (hname : DATA2NAME skb.cf.data ≤ ro.name) :
    (isobus_claim_addr ro k [bus_event.addr_claimed skb] []).1 = 0 ∧
    (isobus_claim_addr ro k [bus_event.addr_claimed skb] []).2.1.state =
      sock_state.ISOBUS_HAVE_ADDR ∧
    (isobus_claim_addr ro k [bus_event.addr_claimed skb] []).2.1.s_addr = 129 ∧
    (send_ok ro.ifindex k →
      ∃ f1 f2, (isobus_claim_addr ro k [bus_event.addr_claimed skb] []).2.2.tx =
          k.tx ++ [f1, f2] ∧
        is_request f1 ∧ is_addr_claimed f2 129 ro.name) := by
  rw [claim_sc_fallback ro k skb hsc hpeer hsa hpref hname]
  refine ⟨rfl, rfl, rfl, ?_⟩
  intro hs
  obtain ⟨a1, a2, _, _⟩ := isobus_send_frame (claim_start ro) k req_addr_claimed_mesg
    ISOBUS_GLOBAL_ADDR hs
  obtain ⟨b1, _, _, _⟩ := send_addr_claimed_frame
    { claim_start ro with
      sc_addrs := (claim_start ro).sc_addrs.set 0 false, pref_avail := false,
      s_addr := 129, state := sock_state.ISOBUS_WAIT_HAVE_ADDR } _ a2
  refine ⟨request_skb (claim_start ro),
    claimed_skb
      { claim_start ro with
        sc_addrs := (claim_start ro).sc_addrs.set 0 false, pref_avail := false,
        s_addr := 129, state := sock_state.ISOBUS_WAIT_HAVE_ADDR },
    ?_, request_skb_is _, ?_⟩
  · simp only
    rw [b1, a1]
    simp [request_skb]
  · exact claimed_skb_is
      { claim_start ro with
        sc_addrs := (claim_start ro).sc_addrs.set 0 false, pref_avail := false,
        s_addr := 129, state := sock_state.ISOBUS_WAIT_HAVE_ADDR } (by simp)

/-- C13 (witness): the example socket and a peer with NAME lower by one. -/
theorem C13_self_configurable_fallback_witness :
    ((ex_claiming 0x80).name &&& ISOBUS_NAME_SC_BIT ≠ 0 ∧
     (ex_peer_skb 0x80 0x8000000000000004).sk ≠ some (ex_claiming 0x80).id ∧
     ID_FIELD (ex_peer_skb 0x80 0x8000000000000004).cf.can_id Field.SA = 0x80 ∧
     (ex_claiming 0x80).pref_addr = 0x80 ∧
     DATA2NAME (ex_peer_skb 0x80 0x8000000000000004).cf.data ≤ (ex_claiming 0x80).name) ∧
    (isobus_claim_addr (ex_claiming 0x80) ex_kernel
      [bus_event.addr_claimed (ex_peer_skb 0x80 0x8000000000000004)] []).2.1.s_addr = 129 :=
  ⟨by decide,
   (C13_self_configurable_fallback (ex_claiming 0x80) ex_kernel
     (ex_peer_skb 0x80 0x8000000000000004)
     (by decide) (by decide) (by decide) (by decide) (by decide)).2.2.1⟩

/-! ## Network management handlers in a held state (C14, C15) -/

theorem ID_FIELD_SA_lt (x : Nat) : ID_FIELD x Field.SA < 256 := by
  rw [ID_FIELD_SA]; omega

/-- C14: defence of a held address.  For a socket in any state other than
`ISOBUS_WAIT_ADDR`, on an address claimed frame from a peer whose SA equals
our `s_addr` and is not 254: if our NAME is not greater than the claimant's,
the socket is unchanged and (interface present, buffer allocated) exactly one
address claimed frame with our `s_addr` and NAME is handed to `can_send`; if
our NAME is greater, the address is lost: state `ISOBUS_LOST_ADDR`,
`s_addr = 254`, `bound = false`, one cannot-claim frame.  A frame whose SA
differs from `s_addr`, is 254, or that comes from this socket changes nothing
and sends nothing. -/
theorem C14_defence (ro : isobus_sock) (k : kernel) (skb : sk_buff)
    (hst : ro.state ≠ sock_state.ISOBUS_WAIT_ADDR) :
    (skb.sk ≠ some ro.id → ID_FIELD skb.cf.can_id Field.SA = ro.s_addr →
      ID_FIELD skb.cf.can_id Field.SA ≠ 254 → ro.name ≤ DATA2NAME skb.cf.data →
      (isobus_addr_claimed_handler ro k skb).1 = ro ∧
      (send_ok ro.ifindex k →
        ∃ f, (isobus_addr_claimed_handler ro k skb).2.tx = k.tx ++ [f] ∧
          is_addr_claimed f ro.s_addr ro.name)) ∧
    (skb.sk ≠ some ro.id → ID_FIELD skb.cf.can_id Field.SA = ro.s_addr →
      ID_FIELD skb.cf.can_id Field.SA ≠ 254 → DATA2NAME skb.cf.data < ro.name →
      (isobus_addr_claimed_handler ro k skb).1.state = sock_state.ISOBUS_LOST_ADDR ∧
      (isobus_addr_claimed_handler ro k skb).1.s_addr = 254 ∧
      (isobus_addr_claimed_handler ro k skb).1.bound = false ∧
      (send_ok ro.ifindex k →
        ∃ f, (isobus_addr_claimed_handler ro k skb).2.tx = k.tx ++ [f] ∧
          is_addr_claimed f 254 ro.name)) ∧
    ((ID_FIELD skb.cf.can_id Field.SA ≠ ro.s_addr ∨ ID_FIELD skb.cf.can_id Field.SA = 254 ∨
        skb.sk = some ro.id) →
      isobus_addr_claimed_handler ro k skb = (ro, k)) := by
  refine ⟨?_, ?_, ?_⟩
  · intro hpeer hsa hnull hname
    have hn : ¬ (ro.s_addr = ISOBUS_NULL_ADDR) := by rw [← hsa]; exact hnull
    have hb : ro.s_addr < 256 := by rw [← hsa]; exact ID_FIELD_SA_lt _
    have he : isobus_addr_claimed_handler ro k skb =
        (ro, (isobus_send_addr_claimed ro k).2) := by
      unfold isobus_addr_claimed_handler
      simp only [hpeer, if_false, hsa, hn, hst, if_true, hname]
    rw [he]
    refine ⟨rfl, ?_⟩
    intro hs
    obtain ⟨s1, _, _, _⟩ := send_addr_claimed_frame ro k hs
    exact ⟨_, s1, claimed_skb_is ro hb⟩
  · intro hpeer hsa hnull hname
    have hn : ¬ (ro.s_addr = ISOBUS_NULL_ADDR) := by rw [← hsa]; exact hnull
    have hle : ¬ (ro.name ≤ DATA2NAME skb.cf.data) := by omega
    have he : isobus_addr_claimed_handler ro k skb = isobus_lose_addr ro k := by
      unfold isobus_addr_claimed_handler
      simp only [hpeer, if_false, hsa, hn, hst, if_true, hle]
    rw [he]
    refine ⟨rfl, rfl, rfl, ?_⟩
    intro hs
    obtain ⟨_, l2, _, _⟩ := lose_addr_frame ro k hs
    exact ⟨_, l2, cannot_claim_is ro⟩
  · intro h
    unfold isobus_addr_claimed_handler
    by_cases hown : skb.sk = some ro.id
    · simp only [hown, if_true]
    · by_cases hnull : ID_FIELD skb.cf.can_id Field.SA = ISOBUS_NULL_ADDR
      · simp only [hown, if_false, hnull, if_true]
      · have hne : ID_FIELD skb.cf.can_id Field.SA ≠ ro.s_addr := by
          rcases h with h | h | h
          · exact h
          · exact absurd h hnull
          · exact absurd h hown
        simp only [hown, if_false, hnull, hst, hne]

/-- C14 (witness): scenario S6.  The example socket holds 0x80 in `ISOBUS_HAVE_ADDR`; a peer
with a higher NAME claims 0x80: the socket is unchanged and one address
claimed frame with SA 0x80 is sent. -/
theorem C14_defence_witness :
    (ex_sock.state ≠ sock_state.ISOBUS_WAIT_ADDR ∧
     (ex_peer_skb 0x80 0x8000000000000006).sk ≠ some ex_sock.id ∧
     ID_FIELD (ex_peer_skb 0x80 0x8000000000000006).cf.can_id Field.SA = ex_sock.s_addr ∧
     ID_FIELD (ex_peer_skb 0x80 0x8000000000000006).cf.can_id Field.SA ≠ 254 ∧
     ex_sock.name ≤ DATA2NAME (ex_peer_skb 0x80 0x8000000000000006).cf.data) ∧
    (isobus_addr_claimed_handler ex_sock ex_kernel (ex_peer_skb 0x80 0x8000000000000006)).1
      = ex_sock ∧
    (isobus_addr_claimed_handler ex_sock ex_kernel
      (ex_peer_skb 0x80 0x8000000000000006)).2.tx.map
      (fun f => (get_pgn f.cf.can_id, ID_FIELD f.cf.can_id Field.SA, f.cf.data)) =
      [(0x00EE00, 0x80, [0x05, 0, 0, 0, 0, 0, 0, 0x80])] :=
  ⟨by decide,
   ((C14_defence ex_sock ex_kernel (ex_peer_skb 0x80 0x8000000000000006) (by decide)).1
     (by decide) (by decide) (by decide) (by decide)).1,
   by decide⟩

theorem take3_getD (data : List Nat) (a b c : Nat) (h : data.take 3 = [a, b, c]) :
    data.getD 0 0 = a ∧ data.getD 1 0 = b ∧ data.getD 2 0 = c := by
  rcases data with _ | ⟨x, _ | ⟨y, _ | ⟨z, rest⟩⟩⟩ <;> simp at h
  obtain ⟨h1, h2, h3⟩ := h
  simp [h1, h2, h3]

/-- C15: answering a request for address claimed.  For a socket in
`ISOBUS_HAVE_ADDR` (with a byte as `s_addr`) receiving a request frame whose
three-byte payload is the address claimed PGN: the socket is unchanged in
every case; if the PS field of the frame is `s_addr` or 255, then (interface
present, buffer allocated) exactly one address claimed frame with
SA = `s_addr` and our NAME as payload is handed to `can_send`; if PS is any
other address, nothing is sent. -/
theorem C15_request_answer (ro : isobus_sock) (k : kernel) (skb : sk_buff)
    (hst : ro.state = sock_state.ISOBUS_HAVE_ADDR) (hb : ro.s_addr < 256)
    (hdlc : skb.cf.can_dlc = 3) (hdata : skb.cf.data.take 3 = [0x00, 0xEE, 0x00]) :
    (isobus_req_addr_claimed_handler ro k skb).1 = ro ∧
    ((ID_FIELD skb.cf.can_id Field.PS = ro.s_addr ∨ ID_FIELD skb.cf.can_id Field.PS = 255) →
      send_ok ro.ifindex k →
      ∃ f, (isobus_req_addr_claimed_handler ro k skb).2.tx = k.tx ++ [f] ∧
        is_addr_claimed f ro.s_addr ro.name) ∧
    (ID_FIELD skb.cf.can_id Field.PS ≠ ro.s_addr → ID_FIELD skb.cf.can_id Field.PS ≠ 255 →
      isobus_req_addr_claimed_handler ro k skb = (ro, k)) := by
  obtain ⟨d0, d1, d2⟩ := take3_getD _ _ _ _ hdata
  have hmesg : req_addr_claimed_mesg.data = [0x00, 0xEE, 0x00] := by decide
  have hpre : isobus_req_addr_claimed_handler ro k skb =
      if ID_FIELD skb.cf.can_id Field.PS = ro.s_addr ∨
          ID_FIELD skb.cf.can_id Field.PS = 255 then
        (ro, (isobus_send_addr_claimed ro k).2)
      else (ro, k) := by
    unfold isobus_req_addr_claimed_handler
    simp only [hst, reduceCtorEq, false_and, if_false, hdlc, hmesg, List.getD_cons_zero,
      List.getD_cons_succ, d0, d1, d2, ne_eq, not_true_eq_false, or_self, ISOBUS_GLOBAL_ADDR]
  rw [hpre]
  refine ⟨?_, ?_, ?_⟩
  · split_ifs <;> rfl
  · intro hps hs
    rw [if_pos hps]
    obtain ⟨s1, _, _, _⟩ := send_addr_claimed_frame ro k hs
    exact ⟨_, s1, claimed_skb_is ro hb⟩
  · intro h1 h2
    rw [if_neg]
    rintro (h | h)
    · exact h1 h
    · exact h2 h

/-- C15 (witness): scenario S7.  The example socket (address 0x80) receives a request sent to
the global address and answers with one address claimed frame; a request
sent to address 0x21 is not answered. -/
theorem C15_request_answer_witness :
    (ex_sock.state = sock_state.ISOBUS_HAVE_ADDR ∧ ex_sock.s_addr < 256 ∧
     (ex_request_skb 255 0x20).cf.can_dlc = 3 ∧
     (ex_request_skb 255 0x20).cf.data.take 3 = [0x00, 0xEE, 0x00]) ∧
    (isobus_req_addr_claimed_handler ex_sock ex_kernel (ex_request_skb 255 0x20)).1
      = ex_sock ∧
    (isobus_req_addr_claimed_handler ex_sock ex_kernel (ex_request_skb 255 0x20)).2.tx.map
      (fun f => (get_pgn f.cf.can_id, ID_FIELD f.cf.can_id Field.SA, f.cf.data)) =
      [(0x00EE00, 0x80, [0x05, 0, 0, 0, 0, 0, 0, 0x80])] ∧
    isobus_req_addr_claimed_handler ex_sock ex_kernel (ex_request_skb 0x21 0x20) =
      (ex_sock, ex_kernel) :=
  ⟨by decide,
   (C15_request_answer ex_sock ex_kernel (ex_request_skb 255 0x20) (by decide) (by decide)
     (by decide) (by decide)).1,
   by decide, by decide⟩

/-! ## Delivery to the user (C16, C17) -/

theorem queue_ok (ro : isobus_sock) (k : kernel) (skb : rcv_skb) (h : rets_ok k.queue_rets) :
    (sock_queue_rcv_skb ro k skb).2.1 = { ro with queue := ro.queue ++ [skb] } := by
  unfold sock_queue_rcv_skb
  split
  · rfl
  · rename_i e rest hc
    rw [hc] at h
    have he : e = 0 := h e (List.mem_cons_self _ _)
    simp [he]

theorem rcv_drop (ro : isobus_sock) (k : kernel) (skb : sk_buff)
    (h : (ro.recv_own_msgs = 0 ∧ skb.sk = some ro.id) ∨ skb.cf.can_dlc > CAN_MAX_DLEN ∨
      ID_FIELD skb.cf.can_id Field.EDP ≠ 0) :
    isobus_rcv ro k skb = (ro, k) := by
  unfold isobus_rcv
  by_cases h1 : ro.recv_own_msgs = 0 ∧ skb.sk = some ro.id
  · rw [if_pos h1]
  · rw [if_neg h1]
    by_cases h2 : skb.cf.can_dlc > CAN_MAX_DLEN
    · rw [if_pos h2]
    · rw [if_neg h2]
      have h3 : ID_FIELD skb.cf.can_id Field.EDP ≠ 0 := by
        rcases h with h | h | h
        · exact absurd h h1
        · exact absurd h h2
        · exact h
      rw [if_pos h3]

theorem rcv_accept (ro : isobus_sock) (k : kernel) (skb : sk_buff)
    (h1 : ¬ (ro.recv_own_msgs = 0 ∧ skb.sk = some ro.id))
    (h2 : skb.cf.can_dlc ≤ CAN_MAX_DLEN)
    (h3 : ID_FIELD skb.cf.can_id Field.EDP = 0)
    (ha : rets_ok k.alloc_rets) (hq : rets_ok k.queue_rets) :
    (isobus_rcv ro k skb).1 =
      { ro with queue := ro.queue ++
        [{ mesg := { pgn := get_pgn skb.cf.can_id, dlen := skb.cf.can_dlc,
                     data := skb.cf.data.take skb.cf.can_dlc },
           addr0 := { can_family := AF_CAN, can_ifindex := skb.ifindex,
                      addr := ID_FIELD skb.cf.can_id Field.SA },
           addr1 := { can_family := (if skb.sk ≠ none then MSG_DONTROUTE else 0) |||
                                    (if skb.sk = some ro.id then MSG_CONFIRM else 0),
                      can_ifindex := skb.ifindex,
                      addr := ID_FIELD skb.cf.can_id Field.PS } }] } := by
  obtain ⟨a1, _, _, _, _, a6⟩ := alloc_skb_ok k ha
  unfold isobus_rcv
  rw [if_neg h1, if_neg (by omega), if_neg (by simp [h3])]
  generalize alloc_skb k = r at a1 a6
  rcases r with ⟨e, k1⟩
  simp only at a1 a6 ⊢
  subst a1
  rw [← a6] at hq
  simp only [ne_eq, not_true_eq_false, if_false]
  rw [queue_ok ro k1 _ hq]
  by_cases hs : skb.sk = none
  · have hn : ¬ skb.sk = some ro.id := by rw [hs]; simp
    simp [hs, isobus_flags_set]
  · by_cases hi : skb.sk = some ro.id
    · simp [hs, hi, isobus_flags_set, isobus_flags, MSG_DONTROUTE, MSG_CONFIRM]
    · simp [hs, hi, isobus_flags_set, isobus_flags, MSG_DONTROUTE]

/-- C16 (counterexample): a frame with (EDP, DP) = (0, 1), identifier `CANID(6, 0x1F004, 0, 0x20)`,
is not discarded: `isobus_rcv` puts one message with PGN 0x1F004 on the
receive queue of the example socket. -/
theorem C16_counterexample :
    ID_FIELD (CANID 6 0x1F004 0 0x20) Field.EDP = 0 ∧
    ID_FIELD (CANID 6 0x1F004 0 0x20) Field.DP = 1 ∧
    ex_sock.queue = [] ∧
    (isobus_rcv ex_sock ex_kernel (ex_data_skb (CANID 6 0x1F004 0 0x20))).1.queue.map
      (fun m => (m.mesg.pgn, m.mesg.data)) = [(0x1F004, [1, 2, 3])] := by
  decide

/-- C16 (amended): `isobus_rcv` tests the EDP bit only.  A frame with EDP = 1, that is
(EDP, DP) = (1, 0) or (1, 1), is discarded and nothing is enqueued; the
receive queue changes only for a frame with EDP = 0; and a frame with EDP = 0
is enqueued whatever its DP bit, (0, 1) like (0, 0), when it is not a
suppressed own frame, has at most 8 data bytes and the buffer and queue
operations succeed. -/
theorem C16_only_edp_zero_reaches_user (ro : isobus_sock) (k : kernel) (skb : sk_buff) :
    (ID_FIELD skb.cf.can_id Field.EDP = 1 → isobus_rcv ro k skb = (ro, k)) ∧
    ((isobus_rcv ro k skb).1.queue ≠ ro.queue → ID_FIELD skb.cf.can_id Field.EDP = 0) ∧
    (ID_FIELD skb.cf.can_id Field.EDP = 0 →
      ¬ (ro.recv_own_msgs = 0 ∧ skb.sk = some ro.id) → skb.cf.can_dlc ≤ 8 →
      rets_ok k.alloc_rets → rets_ok k.queue_rets →
      ∃ m, (isobus_rcv ro k skb).1.queue = ro.queue ++ [m] ∧
        m.mesg.pgn = get_pgn skb.cf.can_id) := by
  refine ⟨?_, ?_, ?_⟩
  · intro h
    exact rcv_drop ro k skb (Or.inr (Or.inr (by rw [h]; decide)))
  · intro h
    by_contra hne
    rw [rcv_drop ro k skb (Or.inr (Or.inr hne))] at h
    exact h rfl
  · intro h3 h1 h2 ha hq
    rw [rcv_accept ro k skb h1 h2 h3 ha hq]
    exact ⟨_, rfl, rfl⟩

/-- C16 (witness): on the example socket a frame with (EDP, DP) = (1, 1) is dropped and one with
(0, 1) is enqueued. -/
theorem C16_only_edp_zero_reaches_user_witness :
    (ID_FIELD (CANID 6 0x3F004 0 0x20) Field.EDP = 1 ∧
     ID_FIELD (CANID 6 0x3F004 0 0x20) Field.DP = 1) ∧
    isobus_rcv ex_sock ex_kernel (ex_data_skb (CANID 6 0x3F004 0 0x20)) =
      (ex_sock, ex_kernel) ∧
    (isobus_rcv ex_sock ex_kernel (ex_data_skb (CANID 6 0x1F004 0 0x20))).1.queue.length = 1 :=
  ⟨by decide,
   (C16_only_edp_zero_reaches_user ex_sock ex_kernel
     (ex_data_skb (CANID 6 0x3F004 0 0x20))).1 (by decide),
   by decide⟩

/-- C17: content of a delivered message.  For every frame `isobus_rcv` accepts (at
most 8 data bytes, EDP = 0, not an own frame while `recv_own_msgs` is off),
when the buffer is allocated and the queue takes it, the socket changes only
in its receive queue, which grows by exactly one record: PGN
`get_pgn(can_id)`, length `can_dlc`, the first `can_dlc` data bytes, source
address = SA field, destination address = PS field, and as flags (the word
`isobus_flags` points to) `MSG_DONTROUTE` exactly when the frame has a local
origin together with `MSG_CONFIRM` exactly when the origin is this socket.
That word lies over `addr[1].can_family`, so the family of the destination
address in the record is the flags word and not `AF_CAN`.  An own frame with
`recv_own_msgs` off and a frame with more than 8 data bytes change nothing. -/
theorem C17_delivered_message (ro : isobus_sock) (k : kernel) (skb : sk_buff) :
    (¬ (ro.recv_own_msgs = 0 ∧ skb.sk = some ro.id) → skb.cf.can_dlc ≤ 8 →
      ID_FIELD skb.cf.can_id Field.EDP = 0 → rets_ok k.alloc_rets → rets_ok k.queue_rets →
      ∃ m : rcv_skb,
        (isobus_rcv ro k skb).1 = { ro with queue := ro.queue ++ [m] } ∧
        m = { mesg := { pgn := get_pgn skb.cf.can_id, dlen := skb.cf.can_dlc,
                        data := skb.cf.data.take skb.cf.can_dlc },
              addr0 := { can_family := AF_CAN, can_ifindex := skb.ifindex,
                         addr := ID_FIELD skb.cf.can_id Field.SA },
              addr1 := { can_family := (if skb.sk ≠ none then MSG_DONTROUTE else 0) |||
                                       (if skb.sk = some ro.id then MSG_CONFIRM else 0),
                         can_ifindex := skb.ifindex,
                         addr := ID_FIELD skb.cf.can_id Field.PS } } ∧
        isobus_flags m = (if skb.sk ≠ none then MSG_DONTROUTE else 0) |||
                         (if skb.sk = some ro.id then MSG_CONFIRM else 0)) ∧
    (ro.recv_own_msgs = 0 → skb.sk = some ro.id → isobus_rcv ro k skb = (ro, k)) ∧
    (skb.cf.can_dlc > 8 → isobus_rcv ro k skb = (ro, k)) := by
  refine ⟨?_, ?_, ?_⟩
  · intro h1 h2 h3 ha hq
    exact ⟨_, rcv_accept ro k skb h1 h2 h3 ha hq, rfl, rfl⟩
  · intro h1 h2
    exact rcv_drop ro k skb (Or.inl ⟨h1, h2⟩)
  · intro h
    exact rcv_drop ro k skb (Or.inr (Or.inl h))

/-- C17 (witness): the example socket with `recv_own_msgs` on receives its own frame
`CANID(6, 0x00F004, 0, 0x80)` with three data bytes: one record with both
flags, 0x804, which is also what `addr[1].can_family` holds; with
`recv_own_msgs` off nothing is enqueued. -/
theorem C17_delivered_message_witness :
    (¬ (({ ex_sock with recv_own_msgs := 1 } : isobus_sock).recv_own_msgs = 0 ∧
        (some 1 : Option Nat) = some ({ ex_sock with recv_own_msgs := 1 } : isobus_sock).id) ∧
     (3 : Nat) ≤ 8 ∧ ID_FIELD (CANID 6 0x00F004 0 0x80) Field.EDP = 0 ∧
     rets_ok ex_kernel.alloc_rets ∧ rets_ok ex_kernel.queue_rets) ∧
    (∃ m : rcv_skb,
      (isobus_rcv { ex_sock with recv_own_msgs := 1 } ex_kernel
        { sk := some 1, ifindex := 3,
          cf := { can_id := CANID 6 0x00F004 0 0x80, can_dlc := 3, data := [1, 2, 3, 4] } }).1 =
        { ex_sock with recv_own_msgs := 1, queue := [m] } ∧
      m = { mesg := { pgn := 0x00F004, dlen := 3, data := [1, 2, 3] },
            addr0 := { can_family := AF_CAN, can_ifindex := 3, addr := 0x80 },
            addr1 := { can_family := 0x804, can_ifindex := 3, addr := 0x04 } } ∧
      isobus_flags m = MSG_DONTROUTE ||| MSG_CONFIRM) ∧
    isobus_rcv ex_sock ex_kernel
      { sk := some 1, ifindex := 3,
        cf := { can_id := CANID 6 0x00F004 0 0x80, can_dlc := 3, data := [1, 2, 3, 4] } } =
      (ex_sock, ex_kernel) :=
  ⟨by decide,
   (((C17_delivered_message { ex_sock with recv_own_msgs := 1 } ex_kernel
      { sk := some 1, ifindex := 3,
        cf := { can_id := CANID 6 0x00F004 0 0x80, can_dlc := 3, data := [1, 2, 3, 4] } }).1
      (by decide) (by decide) (by decide) (by decide) (by decide)).elim
      (fun m hm => ⟨m, hm.1.trans rfl, hm.2.1.trans (by decide),
        hm.2.2.trans (by decide)⟩)),
   by decide⟩

/-! ## Filter registration (C18, C19) -/

theorem can_rx_register_rx (k : kernel) (r : receiver) :
    ((can_rx_register k r).1 = 0 ∧ (can_rx_register k r).2.rx = r :: k.rx) ∨
    ((can_rx_register k r).1 ≠ 0 ∧ (can_rx_register k r).2.rx = k.rx) := by
  unfold can_rx_register
  split
  · exact Or.inl ⟨rfl, rfl⟩
  · split_ifs with he
    · exact Or.inl ⟨rfl, rfl⟩
    · exact Or.inr ⟨he, rfl⟩

theorem unregister_done (dev sk : Nat) (done : List can_filter) :
    ∀ (k : kernel) (rx0 : List receiver),
      k.rx = done.map (rcv_receiver dev sk) ++ rx0 →
      (done.foldl (fun k2 g => can_rx_unregister k2 (rcv_receiver dev sk g)) k).rx = rx0 := by
  induction done with
  | nil => intro k rx0 h; simpa using h
  | cons g rest ih =>
    intro k rx0 h
    simp only [List.foldl_cons]
    apply ih
    simp only [can_rx_unregister, h, List.map_cons, List.cons_append]
    rw [List.erase_cons_head]

theorem enable_filters_loop_rx (dev sk : Nat) (rest : List can_filter) :
    ∀ (k : kernel) (done : List can_filter) (rx0 : List receiver),
      k.rx = done.map (rcv_receiver dev sk) ++ rx0 →
      ((enable_filters_loop k dev sk done rest).1 = 0 ∧
        (enable_filters_loop k dev sk done rest).2.rx =
          (rest.reverse ++ done).map (rcv_receiver dev sk) ++ rx0) ∨
      ((enable_filters_loop k dev sk done rest).1 ≠ 0 ∧
        (enable_filters_loop k dev sk done rest).2.rx = rx0) := by
  induction rest with
  | nil => intro k done rx0 h; left; simpa [enable_filters_loop] using h
  | cons f rest ih =>
    intro k done rx0 h
    unfold enable_filters_loop
    have hr := can_rx_register_rx k (rcv_receiver dev sk f)
    generalize can_rx_register k (rcv_receiver dev sk f) = r at hr
    rcases r with ⟨err, k1⟩
    simp only at hr ⊢
    rcases hr with ⟨h0, hrx⟩ | ⟨hne, hrx⟩
    · simp only [h0, ne_eq, not_true_eq_false, if_false]
      have := ih k1 (f :: done) rx0 (by rw [hrx, h]; rfl)
      simpa using this
    · simp only [hne, ne_eq, not_false_eq_true, if_true]
      right
      exact ⟨trivial, unregister_done dev sk done k1 rx0 (by rw [hrx, h])⟩

/-- Within the user group `isobus_enable_filters` is all-or-nothing: either it
returns 0 and every filter is on the receive list, or it returns an error and
the receive list is what it was. -/
theorem enable_filters_all_or_nothing (k : kernel) (dev sk : Nat) (filter : List can_filter)
    (count : Nat) :
    ((isobus_enable_filters k dev sk filter count).1 = 0 ∧
      (isobus_enable_filters k dev sk filter count).2.rx =
        (filter.take count).reverse.map (rcv_receiver dev sk) ++ k.rx) ∨
    ((isobus_enable_filters k dev sk filter count).1 ≠ 0 ∧
      (isobus_enable_filters k dev sk filter count).2.rx = k.rx) := by
  have h := enable_filters_loop_rx dev sk (filter.take count) k [] k.rx rfl
  simpa [isobus_enable_filters] using h

/-- Within the NM group `isobus_enable_nmfilters` is all-or-nothing. -/
theorem enable_nmfilters_all_or_nothing (k : kernel) (dev sk : Nat) :
    ((isobus_enable_nmfilters k dev sk).1 = 0 ∧
      (isobus_enable_nmfilters k dev sk).2.rx =
        req_addr_claimed_receiver dev sk :: addr_claimed_receiver dev sk :: k.rx) ∨
    ((isobus_enable_nmfilters k dev sk).1 ≠ 0 ∧
      (isobus_enable_nmfilters k dev sk).2.rx = k.rx) := by
  unfold isobus_enable_nmfilters
  have hr := can_rx_register_rx k (addr_claimed_receiver dev sk)
  generalize can_rx_register k (addr_claimed_receiver dev sk) = r at hr
  rcases r with ⟨err, k1⟩
  simp only at hr ⊢
  rcases hr with ⟨h0, hrx⟩ | ⟨hne, hrx⟩
  · simp only [h0, ne_eq, not_true_eq_false, if_false]
    have hr2 := can_rx_register_rx k1 (req_addr_claimed_receiver dev sk)
    generalize can_rx_register k1 (req_addr_claimed_receiver dev sk) = r2 at hr2
    rcases r2 with ⟨err2, k2⟩
    simp only at hr2 ⊢
    rcases hr2 with ⟨h02, hrx2⟩ | ⟨hne2, hrx2⟩
    · left
      simp only [h02, not_true_eq_false, if_false, true_and]
      rw [hrx2, hrx]
    · right
      simp only [hne2, not_false_eq_true, if_true, true_and]
      simp only [can_rx_unregister, hrx2, hrx]
      rw [List.erase_cons_head]
  · right
    simp only [hne, ne_eq, not_false_eq_true, if_true, true_and]
    exact hrx

/-- C18 (failing inputs): `isobus_enable_allfilters` on the unbound example socket (one user
filter) with an empty receive list.  (1) The user filter registers and the
address claimed listener fails with -12: the error is returned and the user
filter stays registered.  (2) The request listener fails instead: the address
claimed listener is taken back, the user filter stays.  (3) With an error
mask, the error filter fails: the user filter is taken back, both NM listeners
stay.  In none of the three is the receive list what it was.  Nothing in the
file writes `err_mask`, so (3) shows the unwinding of that branch on a state
the socket calls do not produce; (1) and (2) need only a failing
`can_rx_register`. -/
theorem C18_failing_input :
    (ex_kernel_rets [0, -12]).rx = [] ∧
    (isobus_enable_allfilters ex_idle (ex_kernel_rets [0, -12]) 3).1 = -12 ∧
    (isobus_enable_allfilters ex_idle (ex_kernel_rets [0, -12]) 3).2.rx =
      [rcv_receiver 3 1 { can_id := CAN_EFF_FLAG, can_mask := CAN_EFF_FLAG }] ∧
    (isobus_enable_allfilters ex_idle (ex_kernel_rets [0, 0, -12]) 3).1 = -12 ∧
    (isobus_enable_allfilters ex_idle (ex_kernel_rets [0, 0, -12]) 3).2.rx =
      [rcv_receiver 3 1 { can_id := CAN_EFF_FLAG, can_mask := CAN_EFF_FLAG }] ∧
    (isobus_enable_allfilters { ex_idle with err_mask := 1 }
      (ex_kernel_rets [0, 0, 0, -12]) 3).1 = -12 ∧
    (isobus_enable_allfilters { ex_idle with err_mask := 1 }
      (ex_kernel_rets [0, 0, 0, -12]) 3).2.rx =
      [req_addr_claimed_receiver 3 1, addr_claimed_receiver 3 1] := by
  decide

/-- C19 (failing input): a run with every registration succeeding.  The fresh socket is bound
(preferred address 0x80) and loses the address to a peer with a lower NAME
during the second wait: `isobus_bind` returns `-EADDRINUSE`, `bound` is false,
and the two NM listeners stay registered.  It is bound again on a quiet bus:
`isobus_bind` returns 0, `bound` is true, and the receive list now holds two
address claimed listeners and two request listeners of the socket.  After
`isobus_release` one of each is still registered. -/
theorem C19_failing_input :
    ex_run_bind1.1 = -EADDRINUSE ∧
    ex_run_bind1.2.1.bound = false ∧
    count_rx ex_run_bind1.2.2 1 rx_func.isobus_addr_claimed_handler = 1 ∧
    count_rx ex_run_bind1.2.2 1 rx_func.isobus_req_addr_claimed_handler = 1 ∧
    ex_run_bind2.1 = 0 ∧
    ex_run_bind2.2.1.bound = true ∧
    ex_run_bind2.2.1.state = sock_state.ISOBUS_HAVE_ADDR ∧
    count_rx ex_run_bind2.2.2 1 rx_func.isobus_addr_claimed_handler = 2 ∧
    count_rx ex_run_bind2.2.2 1 rx_func.isobus_req_addr_claimed_handler = 2 ∧
    ex_run_release.2.1.bound = false ∧
    count_rx ex_run_release.2.2 1 rx_func.isobus_addr_claimed_handler = 1 ∧
    count_rx ex_run_release.2.2 1 rx_func.isobus_req_addr_claimed_handler = 1 := by
  decide

end Isobus
